import Mathlib

/-!
Tion Lite UART protocol and state engine.

A shallow embedding of `components/tion-api/tion-api-uart-lt.cpp` (line parser and
command encoder of `TionLtUartProtocol`) and of `components/tion-api/tion-api.cpp`
(`TionApiBase`: change-set merge, boost, presets), followed by theorems about them.

Conventions of the embedding:
* machine integers are `Nat`/`Int` with explicit wrap-around (`toU8`, `toI8`, `toU32`);
* a C string is a `List Char`; `cstr` cuts it at the first NUL;
* `long`/`unsigned long`/`int` are 32 bits wide, as on the ESP8266/ESP32 targets;
* an out-of-bounds table read has no defined result: the parser returns `none` there.
-/

namespace TionLt

/-! ## C helpers -/

/-- Conversion to `uint8_t`. -/
def toU8 (z : Int) : Nat := (z % 256).toNat

/-- Conversion to `int8_t` (two's complement). -/
def toI8 (z : Int) : Int := (z + 128) % 256 - 128

/-- Conversion to `uint32_t`. -/
def toU32 (z : Int) : Nat := (z % 4294967296).toNat

/-- Conversion to `uint16_t`. -/
def toU16 (z : Int) : Nat := (z % 65536).toNat

/-- The largest `long` on the 32-bit targets. -/
def LONG_MAX : Int := 2147483647

/-- The smallest `long` on the 32-bit targets. -/
def LONG_MIN : Int := -2147483648

/-- The largest `unsigned long` on the 32-bit targets. -/
def ULONG_MAX : Nat := 4294967295

/-- The C string held in a buffer: the characters before the first NUL. -/
def cstr (s : List Char) : List Char := s.takeWhile (fun c => c.toNat != 0)

/-- The `isspace` of the C locale: space, TAB, LF, VT, FF, CR. -/
def isspace (c : Char) : Bool := c.toNat == 32 || (9 ≤ c.toNat && c.toNat ≤ 13)

/-- The value of a character as a digit, letters counting from ten, as `strtol` reads it. -/
def digitVal (c : Char) : Option Nat :=
  let n := c.toNat
  if 48 ≤ n ∧ n ≤ 57 then some (n - 48)
  else if 97 ≤ n ∧ n ≤ 122 then some (n - 97 + 10)
  else if 65 ≤ n ∧ n ≤ 90 then some (n - 65 + 10)
  else none

/-- Whether `c` is a digit of the given base. -/
def isDigitIn (base : Nat) (c : Char) : Bool :=
  match digitVal c with
  | some d => decide (d < base)
  | none => false

/-- The number denoted by a run of digits, most significant first. -/
def digitsValue (base : Nat) (ds : List Char) : Nat :=
  ds.foldl (fun acc c => acc * base + (digitVal c).getD 0) 0

/-- The sign prefix of a number: whether it is negative, and the text after the sign. -/
def takeSign : List Char → Bool × List Char
  | '-' :: t => (true, t)
  | '+' :: t => (false, t)
  | s => (false, s)

/-- The call `strtol(str, &end, 10)`: the value and the text `end` points to.
Leading white space and one sign are skipped; without a digit the value is 0 and `end` is
`str`; a value out of range is clamped to `LONG_MIN`/`LONG_MAX`. -/
def strtol (str : List Char) : Int × List Char :=
  let sg := takeSign (str.dropWhile isspace)
  let ds := sg.2.takeWhile (isDigitIn 10)
  let rest := sg.2.dropWhile (isDigitIn 10)
  if ds.isEmpty then (0, str)
  else
    let v : Int := digitsValue 10 ds
    (if sg.1 then max (-v) LONG_MIN else min v LONG_MAX, rest)

/-- The call `strtoul(str, &end, 10)`: a value above `ULONG_MAX` is clamped to it, a
negative number is negated in unsigned arithmetic. -/
def strtoul (str : List Char) : Nat × List Char :=
  let sg := takeSign (str.dropWhile isspace)
  let ds := sg.2.takeWhile (isDigitIn 10)
  let rest := sg.2.dropWhile (isDigitIn 10)
  if ds.isEmpty then (0, str)
  else
    let v := digitsValue 10 ds
    (if ULONG_MAX < v then ULONG_MAX else if sg.1 then toU32 (-(v : Int)) else v, rest)

/-- The optional `0x`/`0X` that `strtoul` skips in base 16. -/
def skipHexMark : List Char → List Char
  | '0' :: 'x' :: t => t
  | '0' :: 'X' :: t => t
  | s => s

/-- The value of `strtoul(str, nullptr, 16)`. -/
def strtoul16 (str : List Char) : Nat :=
  let sg := takeSign (str.dropWhile isspace)
  let ds := (skipHexMark sg.2).takeWhile (isDigitIn 16)
  let v := digitsValue 16 ds
  if ULONG_MAX < v then ULONG_MAX else if sg.1 then toU32 (-(v : Int)) else v

/-- The test `strncmp(str, lit, sizeof(lit) - 1) == 0` followed by `str + sizeof(lit) - 1`:
the text after the literal when `str` begins with it. -/
def skipLit : List Char → List Char → Option (List Char)
  | [], s => some s
  | _ :: _, [] => none
  | p :: ps, c :: cs => if p = c then skipLit ps cs else none

/-! ## Decimal text, as the device prints `%d` and the encoder prints its parameter -/

/-- The character of a digit below ten. -/
def digitChar (d : Nat) : Char := Char.ofNat (48 + d)

/-- The decimal text of `n`, written with at most `fuel + 1` digits. -/
def decimalAux : Nat → Nat → List Char
  | 0, n => [digitChar (n % 10)]
  | fuel + 1, n =>
    if n < 10 then [digitChar n] else decimalAux fuel (n / 10) ++ [digitChar (n % 10)]

/-- The decimal text of a natural number (`%u`). -/
def decimal (n : Nat) : List Char := decimalAux n n

/-- The decimal text of an integer (`%d`). -/
def decimalInt (z : Int) : List Char :=
  if z < 0 then '-' :: decimal (-z).toNat else decimal z.toNat

/-! ## The mirror state and the frames of `TionLtUartProtocol` -/

/-- The mirror `t_data` of `TionLtUartProtocol`. -/
structure TData where
  power_state : Bool
  heater_state : Bool
  sound_state : Bool
  led_state : Bool
  /-- Field of type `uint8_t`. -/
  fan_speed : Nat
  /-- Field of type `int8_t`. -/
  target_temperature : Int
  /-- Field of type `int8_t`. -/
  outdoor_temperature : Int
  /-- Field of type `int8_t`. -/
  current_temperature : Int
  /-- Field of type `uint8_t`. -/
  heater_var : Nat
  /-- Field of type `uint32_t`. -/
  work_time : Nat
  /-- Field of type `uint32_t`. -/
  fan_time : Nat
  /-- Field of type `uint32_t`. -/
  filter_time : Nat
  /-- Field of type `uint32_t`. -/
  airflow_counter : Nat
deriving DecidableEq, Repr

/-- The value-initialised mirror `t_data{}`. -/
def TData.init : TData :=
  { power_state := false, heater_state := false, sound_state := false, led_state := false,
    fan_speed := 0, target_temperature := 0, outdoor_temperature := 0,
    current_temperature := 0, heater_var := 0, work_time := 0, fan_time := 0,
    filter_time := 0, airflow_counter := 0 }

/-- The gate state of `tionlt_state_t`. -/
inductive GateState where
  | CLOSED
  | OPENED
deriving DecidableEq, Repr

/-- The fields of `tionlt_state_t` that `read_frame_` fills in; the others stay
value-initialised. -/
structure LtState where
  power_state : Bool
  heater_state : Bool
  fan_speed : Nat
  target_temperature : Int
  outdoor_temperature : Int
  current_temperature : Int
  heater_var : Nat
  work_time : Nat
  fan_time : Nat
  filter_time : Nat
  errors : Nat
  airflow_counter : Nat
  filter_state : Bool
  heater_present : Bool
  gate_state : GateState
  max_fan_speed : Nat
deriving DecidableEq, Repr

/-- The frames handed to the `reader` callback. -/
inductive Frame where
  /-- Frame `FRAME_TYPE_STATE_RSP`. -/
  | StateResponse (state : LtState)
  /-- Frame `FRAME_TYPE_DEV_INFO_RSP` (work mode NORMAL, device type BRLT). -/
  | DevInfoResponse (firmware_version : Nat)
deriving DecidableEq, Repr

/-- The constants of `tion-api-lt-internal.h` used by the parser, taken as given: the flow
rates `TION_LT_AUTO_PROD` (elements of a `uint8_t` array) and the integer divisor
`tion_lt_state_counters_t::AK`. -/
structure LtConsts where
  /-- The expansion of `TION_LT_AUTO_PROD`: one flow rate per fan speed from 1 up. -/
  AUTO_PROD : List Nat
  /-- The scaling constant `AK`. -/
  AK : Nat
deriving Repr

/-- The table `PROD[] = {0, TION_LT_AUTO_PROD}`. -/
def PROD (k : LtConsts) : List Nat := 0 :: k.AUTO_PROD

/-- Modelled from the spec: `filter_time_left_d()` of the counters (declared in
`tion-api-lt-internal.h`), the filter time expressed in whole days remaining. -/
def filter_time_left_d (filter_time : Nat) : Nat := filter_time / 86400

def ST_SW_MODE : List Char := "Switching Mode".toList
def ST_MODE : List Char := "Current Mode: ".toList
def ST_SPEED : List Char := "Speed: ".toList
def ST_SENS : List Char := "Sensors T_set: ".toList
def ST_HEAT : List Char := "PID_Value: ".toList
def ST_FLT_TIME : List Char := "Filter Time: ".toList
def ST_FAN_TIME : List Char := "Working Time: ".toList
def ST_WRK_TIME : List Char := "Power On Time: ".toList
def ST_ERROR : List Char := "Error register:".toList
def ST_MAC : List Char := "MAC: ".toList
def ST_FIRM : List Char := "Firmware Version 0x".toList
def ST_SENS_OUTDOOR : List Char := ", T_In: ".toList
def ST_SENS_INDOOR : List Char := ", T_out: ".toList

/-- The `Sensors T_set: ` branch of `read_frame_`, on the text after the label. -/
def parseSens (t : TData) (str : List Char) : TData :=
  let r1 := strtol str
  let t1 := { t with target_temperature := toI8 r1.1 }
  match skipLit ST_SENS_OUTDOOR r1.2 with
  | none => t1
  | some s2 =>
    let r2 := strtol s2
    let t2 := { t1 with outdoor_temperature := toI8 r2.1 }
    match skipLit ST_SENS_INDOOR r2.2 with
    | none => t2
    | some s3 => { t2 with current_temperature := toI8 (strtol s3).1 }

/-- The `PID_Value: ` branch of `read_frame_`. -/
def parseHeat (t : TData) (str : List Char) : TData :=
  let r1 := strtoul str
  { t with heater_var := toU8 r1.1, heater_state := decide ((strtoul r1.2).1 ≠ 0) }

/-- The `Working Time: ` branch of `read_frame_`: `none` when `fan_speed` is not an index
of `PROD` or the divisor is zero. -/
def parseFanTime (k : LtConsts) (t : TData) (str : List Char) : Option TData :=
  let fan_time := (strtoul str).1 % 4294967296
  let dif_ft := toU32 ((fan_time : Int) - t.fan_time)
  match (PROD k)[t.fan_speed]? with
  | none => none
  | some prod =>
    if k.AK = 0 then none
    else
      let dif_ac := (dif_ft * prod % 4294967296) / k.AK
      some { t with airflow_counter := (t.airflow_counter + dif_ac) % 4294967296,
                    fan_time := fan_time }

/-- The frame assembled in the `Error register:` branch of `read_frame_`. -/
def stateFrame (t : TData) (str : List Char) : Frame :=
  Frame.StateResponse
    { power_state := t.power_state
      heater_state := t.heater_state
      fan_speed := t.fan_speed
      target_temperature := t.target_temperature
      outdoor_temperature := t.outdoor_temperature
      current_temperature := t.current_temperature
      heater_var := t.heater_var
      work_time := t.work_time
      fan_time := t.fan_time
      filter_time := t.filter_time
      errors := (strtoul str).1 % 4294967296
      airflow_counter := t.airflow_counter
      filter_state := decide (filter_time_left_d t.filter_time ≤ 30)
      heater_present := true
      gate_state := if t.power_state then GateState.OPENED else GateState.CLOSED
      max_fan_speed := 6 }

/-- The dispatch part of `read_frame_` (from the `busy_` test to the last `else`): the
line held in the buffer is matched against the labels in the order of the source. The
result is the new mirror and the frame handed to `reader`, if any. -/
def parse_line (k : LtConsts) (busy : Nat) (t : TData) (buf : List Char) :
    Option (TData × Option Frame) :=
  let str := cstr buf
  if busy > 0 then some (t, none)
  else match skipLit ST_MODE str with
  | some s =>
    some ({ t with power_state := decide (s.head? = some 'W') }, none)
  | none =>
  match skipLit ST_SPEED str with
  | some s => some ({ t with fan_speed := toU8 (strtol s).1 }, none)
  | none =>
  match skipLit ST_SENS str with
  | some s => some (parseSens t s, none)
  | none =>
  match skipLit ST_HEAT str with
  | some s => some (parseHeat t s, none)
  | none =>
  match skipLit ST_FLT_TIME str with
  | some s => some ({ t with filter_time := (strtoul s).1 % 4294967296 }, none)
  | none =>
  match skipLit ST_FAN_TIME str with
  | some s => (parseFanTime k t s).map (fun t1 => (t1, none))
  | none =>
  match skipLit ST_WRK_TIME str with
  | some s => some ({ t with work_time := (strtoul s).1 % 4294967296 }, none)
  | none =>
  match skipLit ST_ERROR str with
  | some s => some (t, some (stateFrame t s))
  | none =>
  match skipLit ST_FIRM str with
  | some s => some (t, some (Frame.DevInfoResponse (strtoul16 s % 65536)))
  | none =>
  match skipLit ST_MAC str with
  | some _ => some (t, none)
  | none =>
  match skipLit ST_SW_MODE str with
  | some _ => some (t, none)
  | none => some (t, none)

/-- Delivering lines to the parser one after the other: the final mirror and the frames
emitted, in order. -/
def parse_lines (k : LtConsts) (busy : Nat) : TData → List (List Char) →
    Option (TData × List Frame)
  | t, [] => some (t, [])
  | t, l :: ls =>
    match parse_line k busy t l with
    | none => none
    | some (t1, f) =>
      match parse_lines k busy t1 ls with
      | none => none
      | some (t2, fs) => some (t2, f.toList ++ fs)

/-! ## The command encoder of `TionLtUartProtocol` -/

/-- The line end of every command. -/
def CRLF : List Char := [Char.ofNat 13, Char.ofNat 10]

def CMD_LOG_ENABLE : List Char := "logenable noit".toList ++ CRLF
def CMD_GET_STATE : List Char := "getstate".toList ++ CRLF
def CMD_POWER_ON : List Char := "pon".toList ++ CRLF
def CMD_POWER_OFF : List Char := "stby".toList ++ CRLF
def CMD_SET_HEATER_ON : List Char := "set_heater_state 1".toList ++ CRLF
def CMD_SET_HEATER_OFF : List Char := "set_heater_state 0".toList ++ CRLF
def CMD_FACTORY_RESET : List Char := "factoryreset".toList ++ CRLF
def CMD_FILTER_RESET : List Char := "ftreset".toList ++ CRLF
def CMD_SET_SOUND_STATE_ON : List Char := "set_sound_state 1".toList ++ CRLF
def CMD_SET_SOUND_STATE_OFF : List Char := "set_sound_state 0".toList ++ CRLF
def CMD_SET_LED_STATE_ON : List Char := "set_led_state 1".toList ++ CRLF
def CMD_SET_LED_STATE_OFF : List Char := "set_led_state 0".toList ++ CRLF

/-- The text of `write_cmd_(CMD_SET_SPEED, param)` with `param` of type `int8_t`: the
template is `set_speed %u`, so the promoted `int` is printed as an `unsigned`. -/
def CMD_SET_SPEED (param : Int) : List Char :=
  "set_speed ".toList ++ decimal (toU32 param) ++ CRLF

/-- The text of `write_cmd_(CMD_SET_TEMP, param)` with `param` of type `int8_t`: the
template is `set_temp %d`. -/
def CMD_SET_TEMP (param : Int) : List Char :=
  "set_temp ".toList ++ decimalInt param ++ CRLF

/-- The text of `write_cmd_(CMD_SET_FILTER_TIME, param)` with `param` of type `uint32_t`. -/
def CMD_SET_FILTER_TIME (param : Nat) : List Char :=
  "set_filtertime ".toList ++ decimal param ++ CRLF

/-- The payload of `tionlt_state_set_req_t` that `write_frame` reads. The record is declared
in `tion-api-lt-internal.h`; `fan_speed` and `target_temperature` are given the types of
the mirror fields they are compared with, `filter_time` is a count of days that the source
widens to `uint32_t`. -/
structure StateSet where
  power_state : Bool
  heater_state : Bool
  sound_state : Bool
  led_state : Bool
  /-- Field of type `uint8_t`. -/
  fan_speed : Nat
  /-- Field of type `int8_t`. -/
  target_temperature : Int
  /-- Filter time in days, a `uint16_t`. -/
  filter_time : Nat
  filter_reset : Bool
  factory_reset : Bool
  error_reset : Bool
deriving DecidableEq, Repr

/-- The frames given to `write_frame`, by frame type. -/
inductive Request where
  /-- Frame `FRAME_TYPE_DEV_INFO_REQ`. -/
  | DeviceInfoRequest
  /-- Frame `FRAME_TYPE_STATE_REQ`. -/
  | StateGetRequest
  /-- Frame `FRAME_TYPE_STATE_SET`. -/
  | StateSetRequest (set : StateSet)
  /-- Any other frame type. -/
  | Other (type : Nat)
deriving DecidableEq, Repr

/-- The protocol object: the mirror and the busy counter (a `uint32_t`). -/
structure Proto where
  t_data : TData
  busy_ : Nat
deriving DecidableEq, Repr

/-- The result of `write_frame`: the return value, the texts passed to the writer in
order, and the protocol object afterwards. -/
structure WriteResult where
  ret : Bool
  written : List (List Char)
  proto : Proto

/-- The commands of the diffing part of `write_frame`, in the order of the source. -/
def diff_cmds (t : TData) (set : StateSet) : List (List Char) :=
  (if t.fan_speed ≠ set.fan_speed then [CMD_SET_SPEED (toI8 set.fan_speed)] else []) ++
  (if t.target_temperature ≠ set.target_temperature
    then [CMD_SET_TEMP set.target_temperature] else []) ++
  (if t.heater_state ≠ set.heater_state
    then [if set.heater_state then CMD_SET_HEATER_ON else CMD_SET_HEATER_OFF] else []) ++
  (if t.sound_state ≠ set.sound_state
    then [if set.sound_state then CMD_SET_SOUND_STATE_ON else CMD_SET_SOUND_STATE_OFF]
    else []) ++
  (if t.led_state ≠ set.led_state
    then [if set.led_state then CMD_SET_LED_STATE_ON else CMD_SET_LED_STATE_OFF] else []) ++
  (if t.power_state ≠ set.power_state
    then [if set.power_state then CMD_POWER_ON else CMD_POWER_OFF] else [])

/-- The method `write_frame`. The writer, when configured, is given each command text and
answers whether it was accepted. -/
def write_frame (writer : Option (List Char → Bool)) (p : Proto) (req : Request) :
    WriteResult :=
  match writer with
  | none => { ret := false, written := [], proto := p }
  | some w =>
    match req with
    | Request.DeviceInfoRequest =>
      { ret := w CMD_LOG_ENABLE, written := [CMD_LOG_ENABLE], proto := p }
    | Request.StateGetRequest =>
      { ret := w CMD_GET_STATE, written := [CMD_GET_STATE], proto := p }
    | Request.StateSetRequest set =>
      if set.filter_reset then
        if set.filter_time ≠ 0 then
          let filter_time_seconds := set.filter_time * 86400 % 4294967296
          { ret := w (CMD_SET_FILTER_TIME filter_time_seconds),
            written := [CMD_SET_FILTER_TIME filter_time_seconds], proto := p }
        else { ret := w CMD_FILTER_RESET, written := [CMD_FILTER_RESET], proto := p }
      else if set.factory_reset then
        { ret := w CMD_FACTORY_RESET, written := [CMD_FACTORY_RESET], proto := p }
      else if set.error_reset then { ret := false, written := [], proto := p }
      else
        let busy1 := (p.busy_ + 1) % 4294967296
        let cmds := diff_cmds p.t_data set
        let busy2 := (busy1 + 4294967295) % 4294967296
        { ret := true, written := cmds ++ [CMD_GET_STATE],
          proto := { p with busy_ := busy2 } }
    | Request.Other _ => { ret := false, written := [], proto := p }

/-! ## The byte reader of `TionLtUartProtocol` -/

/-- The size of `buf_`: the argument of `TionUartProtocolBase<45>`. -/
def BUF_SIZE : Nat := 45

/-- The line feed. -/
def LF : Char := Char.ofNat 10

/-- The carriage return. -/
def CR : Char := Char.ofNat 13

/-- The NUL character. -/
def NUL : Char := Char.ofNat 0

/-- Modelled from the spec: `reset_buf_()` of the base class `TionUartProtocolBase`
(declared in `tion-api-uart.h`), which resets the buffer: every byte is NUL afterwards. -/
def reset_buf_ : List Char := List.replicate BUF_SIZE NUL

/-- How the `while` loop of `read_frame_` ends. -/
inductive ScanStop where
  /-- The call `read_array` failed. -/
  | failed
  /-- A line feed was read into the given index and the terminator was written. -/
  | newline (index : Nat)
  /-- The position reached `end`: no line feed among the bytes read. -/
  | full
deriving DecidableEq, Repr

/-- The outcome of the `while` loop of `read_frame_`: the buffer, the bytes left in the
source, how the loop ended, and the buffer indices written, in order. -/
structure Scan where
  buf : List Char
  io : List Char
  stop : ScanStop
  written : List Nat
deriving DecidableEq, Repr

/-- The `while (buf < end)` loop of `read_frame_`, with `end = buf_ + sizeof(buf_) - 1`.
The source of bytes is the list of the bytes that `read_array` delivers, one per call;
past its end `read_array` fails. The position `buf` is the index `i`. -/
def scan_loop : List Char → Nat → List Char → List Nat → Scan
  | [], i, buf, w =>
    if i < BUF_SIZE - 1 then { buf := buf, io := [], stop := ScanStop.failed, written := w }
    else { buf := buf, io := [], stop := ScanStop.full, written := w }
  | c :: rest, i, buf, w =>
    if i < BUF_SIZE - 1 then
      let buf1 := buf.set i c
      if c = LF then
        if i > 0 ∧ buf1[i - 1]? = some CR then
          { buf := buf1.set (i - 1) NUL, io := rest, stop := ScanStop.newline i,
            written := w ++ [i, i - 1] }
        else
          { buf := buf1.set i NUL, io := rest, stop := ScanStop.newline i,
            written := w ++ [i, i] }
      else scan_loop rest (i + 1) buf1 (w ++ [i])
    else { buf := buf, io := c :: rest, stop := ScanStop.full, written := w }

/-- The outcome of one activation of `read_frame_`: the protocol object, the buffer, the
bytes left in the source, the frame handed to `reader` (if any), the text handed to the
dispatch (if any), and the buffer indices that `read_frame_` itself wrote. -/
structure ReadOut where
  proto : Proto
  buf_ : List Char
  io : List Char
  frame : Option Frame
  dispatched : Option (List Char)
  written : List Nat
deriving DecidableEq, Repr

/-- The method `read_frame_`: the loop, the test for a line that is too long, the test for
an empty line, the dispatch, and `reset_buf_` on every path. The result is `none` when the
dispatch reads the flow-rate table out of bounds. -/
def read_frame_ (k : LtConsts) (p : Proto) (buf_ : List Char) (io : List Char) :
    Option ReadOut :=
  let s := scan_loop io 0 buf_ []
  match s.stop with
  | ScanStop.failed =>
    some { proto := p, buf_ := reset_buf_, io := s.io, frame := none, dispatched := none,
           written := s.written }
  | ScanStop.full =>
    some { proto := p, buf_ := reset_buf_, io := s.io, frame := none, dispatched := none,
           written := s.written }
  | ScanStop.newline _ =>
    if s.buf[0]? = some NUL then
      some { proto := p, buf_ := reset_buf_, io := s.io, frame := none, dispatched := none,
             written := s.written }
    else
      match parse_line k p.busy_ p.t_data s.buf with
      | none => none
      | some r =>
        some { proto := { p with t_data := r.1 }, buf_ := reset_buf_, io := s.io,
               frame := r.2, dispatched := some (cstr s.buf), written := s.written }

/-! ## The state engine `TionApiBase` -/

/-- The canonical state `TionState`: the fields the engine reads or writes. A gate
position is the value of its `TionGatePosition` enumerator. -/
structure TionState where
  power_state : Bool
  heater_state : Bool
  sound_state : Bool
  led_state : Bool
  /-- Field of type `uint8_t`. -/
  fan_speed : Nat
  /-- Field of type `int8_t`. -/
  target_temperature : Int
  /-- Field of type `int8_t`. -/
  outdoor_temperature : Int
  /-- Field of type `int8_t`. -/
  current_temperature : Int
  gate_position : Nat
  /-- Field of type `uint32_t`. -/
  work_time : Nat
  boost_time_left : Nat
deriving DecidableEq, Repr

/-- The capabilities `TionTraits`: the fields the engine reads. -/
structure TionTraits where
  /-- Field of type `uint8_t`. -/
  max_fan_speed : Nat
  /-- Field of type `int8_t`. -/
  min_target_temperature : Int
  /-- Field of type `int8_t`. -/
  max_target_temperature : Int
  supports_sound_state : Bool
  supports_led_state : Bool
  supports_gate_position_change : Bool
  supports_gate_position_change_mixed : Bool
  supports_antifrize : Bool
  supports_boost : Bool
  /-- Boost duration in seconds, a `uint16_t`. -/
  boost_time : Nat
  /-- Tri-state `int8_t`: negative when not configured. -/
  boost_heater_state : Int
  /-- Field of type `int8_t`: 0 when not configured. -/
  boost_target_temperature : Int
deriving DecidableEq, Repr

/-- The change-set `TionStateCall`: one optional value per field. -/
structure TionStateCall where
  fan_speed : Option Nat
  power_state : Option Bool
  heater_state : Option Bool
  target_temperature : Option Int
  sound_state : Option Bool
  led_state : Option Bool
  gate_position : Option Nat
  auto_state : Option Bool
deriving DecidableEq, Repr

/-- A freshly constructed `TionStateCall`: nothing is set. -/
def TionStateCall.empty : TionStateCall :=
  { fan_speed := none, power_state := none, heater_state := none,
    target_temperature := none, sound_state := none, led_state := none,
    gate_position := none, auto_state := none }

/-- The record `PresetData`; `power_state` and `heater_state` are tri-state `int8_t`. -/
structure PresetData where
  fan_speed : Nat
  target_temperature : Int
  heater_state : Int
  power_state : Int
  gate_position : Nat
deriving DecidableEq, Repr

/-- The record `boost_save_`: a `PresetData` and the work time at which boost started. -/
structure BoostSave where
  preset : PresetData
  /-- Field of type `uint32_t`. -/
  start_time : Nat
deriving DecidableEq, Repr

/-- The declarations of `tion-api.h` that the engine uses and that are taken as given:
the values of the `TionGatePosition` enumerators, `TionState::is_initialized` and the
value-initialised `PresetData`. The three labels of the `switch` in `make_write_state_`
are distinct, as C++ requires. -/
structure Decls where
  OUTDOOR : Nat
  INDOOR : Nat
  MIXED : Nat
  NONE : Nat
  UNKNOWN : Nat
  is_initialized : TionState → TionTraits → Bool
  preset_default : PresetData
  outdoor_ne_indoor : OUTDOOR ≠ INDOOR
  outdoor_ne_mixed : OUTDOOR ≠ MIXED
  indoor_ne_mixed : INDOOR ≠ MIXED

/-- Modelled from the spec: the reserved preset name `PRESET_NONE` (declared in
`tion-api.h`), the name none. -/
def PRESET_NONE : String := "none"

/-- What the engine does to its collaborators, in order. -/
inductive Effect where
  /-- The call `api_->write_state(call)` made by `TionStateCall::perform`. -/
  | write_state (call : TionStateCall)
  /-- The call `enable_native_boost_(state)`. -/
  | native_boost (state : Bool)
  /-- The call `on_state_fn.call_if(state_, request_id)`. -/
  | on_state (state : TionState) (request_id : Nat)
deriving DecidableEq, Repr

/-- The object `TionApiBase`: canonical state, traits, boost snapshot, active preset and
the preset map (one entry per key). -/
structure Api where
  state_ : TionState
  traits_ : TionTraits
  boost_save_ : BoostSave
  active_preset_ : String
  presets_ : List (String × PresetData)
deriving DecidableEq, Repr

/-- The fan-speed part of `make_write_state_`. -/
def merge_fan_speed (tr : TionTraits) (cs : TionState) (ns : TionState)
    (call : TionStateCall) : TionState × TionStateCall :=
  match call.fan_speed with
  | none => (ns, call)
  | some fan_speed =>
    if fan_speed = 0 then
      if call.power_state.getD cs.power_state then
        (ns, { call with power_state := some false, fan_speed := some cs.fan_speed })
      else (ns, call)
    else if fan_speed > tr.max_fan_speed then
      (ns, { call with fan_speed := some cs.fan_speed })
    else ({ ns with fan_speed := fan_speed }, call)

/-- The gate-position part of `make_write_state_`. -/
def merge_gate_position (d : Decls) (tr : TionTraits) (cs : TionState) (ns : TionState)
    (call : TionStateCall) : TionState :=
  if tr.supports_gate_position_change then
    match call.gate_position with
    | none => ns
    | some gate_position =>
      if gate_position = d.OUTDOOR then { ns with gate_position := gate_position }
      else if gate_position = d.INDOOR then
        { ns with heater_state := false, gate_position := gate_position }
      else if gate_position = d.MIXED then
        if tr.supports_gate_position_change_mixed then
          { ns with gate_position := gate_position }
        else { ns with gate_position := cs.gate_position }
      else { ns with gate_position := cs.gate_position }
  else ns

/-- The power part of `make_write_state_`. -/
def merge_power (call : TionStateCall) (ns : TionState) : TionState :=
  match call.power_state with
  | some power_state => { ns with power_state := power_state }
  | none => ns

/-- The heater part of `make_write_state_`. -/
def merge_heater (call : TionStateCall) (ns : TionState) : TionState :=
  match call.heater_state with
  | some heater_state => { ns with heater_state := heater_state }
  | none => ns

/-- The target-temperature part of `make_write_state_`. -/
def merge_target (call : TionStateCall) (ns : TionState) : TionState :=
  match call.target_temperature with
  | some target_temperature => { ns with target_temperature := target_temperature }
  | none => ns

/-- The sound part of `make_write_state_`. -/
def merge_sound (tr : TionTraits) (call : TionStateCall) (ns : TionState) : TionState :=
  if tr.supports_sound_state then
    match call.sound_state with
    | some sound_state => { ns with sound_state := sound_state }
    | none => ns
  else ns

/-- The led part of `make_write_state_`. -/
def merge_led (tr : TionTraits) (call : TionStateCall) (ns : TionState) : TionState :=
  if tr.supports_led_state then
    match call.led_state with
    | some led_state => { ns with led_state := led_state }
    | none => ns
  else ns

/-- The part of `make_write_state_` before the antifreeze check: the new state and the
change-set as the function leaves it. The parts run in the order of the source: fan speed,
power, heater, target temperature, sound, led, gate position. -/
def merge_state (d : Decls) (tr : TionTraits) (cs : TionState) (call : TionStateCall) :
    TionState × TionStateCall :=
  let r := merge_fan_speed tr cs cs call
  let ns1 := merge_power r.2 r.1
  let ns2 := merge_heater r.2 ns1
  let ns3 := merge_target r.2 ns2
  let ns4 := merge_sound tr r.2 ns3
  let ns5 := merge_led tr r.2 ns4
  (merge_gate_position d tr cs ns5 r.2, r.2)

/-- The antifreeze predicate: power on, heater off, outdoor temperature below zero. -/
def antifrize_pred (s : TionState) : Bool :=
  s.power_state && !s.heater_state && decide (s.outdoor_temperature < 0)

/-- The antifreeze check that ends `make_write_state_`. -/
def antifrize (tr : TionTraits) (ns : TionState) : TionState :=
  if tr.supports_antifrize then
    if antifrize_pred ns then { ns with heater_state := true } else ns
  else ns

/-- The method `make_write_state_`: the state to write and the change-set as the function
leaves it. -/
def make_write_state_ (d : Decls) (tr : TionTraits) (cs : TionState) (call : TionStateCall) :
    TionState × TionStateCall :=
  let r := merge_state d tr cs call
  (antifrize tr r.1, r.2)

/-- The setter calls of `enable_preset_` on a change-set. -/
def preset_call (d : Decls) (preset : PresetData) (call : TionStateCall) : TionStateCall :=
  let c1 := if preset.power_state ≥ 0
    then { call with power_state := some (decide (preset.power_state > 0)) } else call
  let c2 := if preset.heater_state ≥ 0
    then { c1 with heater_state := some (decide (preset.heater_state > 0)) } else c1
  let c3 := if preset.fan_speed ≠ 0 then { c2 with fan_speed := some preset.fan_speed } else c2
  let c4 := if preset.target_temperature ≠ 0
    then { c3 with target_temperature := some preset.target_temperature } else c3
  if preset.gate_position ≠ d.UNKNOWN
    then { c4 with gate_position := some preset.gate_position } else c4

/-- The method `enable_preset_`: with an external change-set the fields are set on it and
it is handed back; without one an internal change-set is performed. -/
def enable_preset_ (d : Decls) (preset : PresetData) (ext_call : Option TionStateCall) :
    Option TionStateCall × List Effect :=
  match ext_call with
  | some c => (some (preset_call d preset c), [])
  | none => (none, [Effect.write_state (preset_call d preset TionStateCall.empty)])

/-- The method `boost_save_state_`. -/
def boost_save_state_ (a : Api) (save_fan : Bool) : Api :=
  { a with boost_save_ :=
    { start_time := a.state_.work_time
      preset :=
      { power_state := if a.state_.power_state then 1 else 0
        heater_state := if a.state_.heater_state then 1 else 0
        fan_speed := if save_fan then a.state_.fan_speed else a.boost_save_.preset.fan_speed
        target_temperature := a.state_.target_temperature
        gate_position := a.state_.gate_position } } }

/-- The method `boost_cancel_`. -/
def boost_cancel_ (d : Decls) (a : Api) (ext_call : Option TionStateCall) :
    Api × Option TionStateCall × List Effect :=
  if ¬ (a.state_.boost_time_left > 0) then (a, ext_call, [])
  else if a.traits_.supports_boost then (a, ext_call, [Effect.native_boost false])
  else
    let a1 := { a with state_ := { a.state_ with boost_time_left := 0 } }
    let r := enable_preset_ d a1.boost_save_.preset ext_call
    (a1, r.1, r.2)

/-- The setter calls of `boost_enable_` on a change-set. -/
def boost_call (d : Decls) (tr : TionTraits) (call : TionStateCall) : TionStateCall :=
  let c1 := { call with fan_speed := some tr.max_fan_speed, power_state := some true,
                        gate_position := some d.OUTDOOR }
  let c2 := if tr.boost_heater_state ≥ 0
    then { c1 with heater_state := some (decide (tr.boost_heater_state > 0)) } else c1
  if tr.boost_target_temperature ≠ 0
    then { c2 with target_temperature := some tr.boost_target_temperature } else c2

/-- The method `boost_enable_`. -/
def boost_enable_ (d : Decls) (a : Api) (ext_call : Option TionStateCall) :
    Api × Option TionStateCall × List Effect :=
  if ¬ d.is_initialized a.state_ a.traits_ then (a, ext_call, [])
  else if a.state_.boost_time_left > 0 then (a, ext_call, [])
  else if a.state_.fan_speed = a.traits_.max_fan_speed then (a, ext_call, [])
  else if a.traits_.boost_time = 0 then (a, ext_call, [])
  else if a.traits_.supports_boost then (a, ext_call, [Effect.native_boost true])
  else
    let a1 := boost_save_state_ a true
    let a2 := { a1 with state_ := { a1.state_ with boost_time_left := a1.traits_.boost_time } }
    match ext_call with
    | some c => (a2, some (boost_call d a2.traits_ c), [])
    | none => (a2, none, [Effect.write_state (boost_call d a2.traits_ TionStateCall.empty)])

/-- The method `enable_boost`. -/
def enable_boost (d : Decls) (a : Api) (state : Bool) (ext_call : Option TionStateCall) :
    Api × Option TionStateCall × List Effect :=
  if state then boost_enable_ d a ext_call else boost_cancel_ d a ext_call

/-- The lambda `is_preset_modified` of `notify_state_`. -/
def is_preset_modified (d : Decls) (pr : PresetData) (st : TionState) : Bool :=
  if pr.power_state ≥ 0 ∧ pr.power_state ≠ (if st.power_state then 1 else 0) then true
  else if pr.heater_state ≥ 0 ∧ pr.heater_state ≠ (if st.heater_state then 1 else 0) then true
  else if pr.fan_speed > 0 ∧ pr.fan_speed ≠ st.fan_speed then true
  else if pr.target_temperature ≠ 0 ∧ pr.target_temperature ≠ st.target_temperature then true
  else if pr.gate_position ≠ d.NONE ∧ pr.gate_position ≠ st.gate_position then true
  else false

/-- The lookup `presets_.find(name)`. -/
def presets_find (presets : List (String × PresetData)) (name : String) : Option PresetData :=
  (presets.find? (fun e => e.1 = name)).map (fun e => e.2)

/-- The access `presets_[name]` of `std::map`: a missing key is inserted with a
value-initialised `PresetData`. -/
def presets_index (d : Decls) (presets : List (String × PresetData)) (name : String) :
    PresetData × List (String × PresetData) :=
  match presets_find presets name with
  | some pr => (pr, presets)
  | none => (d.preset_default, presets ++ [(name, d.preset_default)])

/-- The boost supervision that opens `notify_state_`: the engine afterwards and the
change-set `call` (`none` for `nullptr`), with the effects of `boost_cancel_`. -/
def notify_boost (d : Decls) (a : Api) : Api × Option TionStateCall × List Effect :=
  if a.state_.boost_time_left > 0 then
    if a.state_.fan_speed ≠ a.traits_.max_fan_speed ∨ ¬ a.state_.power_state then
      let a1 := boost_save_state_ a (decide (a.state_.fan_speed ≠ a.traits_.max_fan_speed))
      boost_cancel_ d a1 (some TionStateCall.empty)
    else if ¬ a.traits_.supports_boost then
      let boost_work_time := toU32 ((a.state_.work_time : Int) - a.boost_save_.start_time)
      if boost_work_time < a.traits_.boost_time then
        ({ a with state_ :=
            { a.state_ with boost_time_left := a.traits_.boost_time - boost_work_time } },
          none, [])
      else boost_cancel_ d a (some TionStateCall.empty)
    else (a, none, [])
  else (a, none, [])

/-- The preset check of `notify_state_`. -/
def notify_preset (d : Decls) (a : Api) : Api :=
  if a.active_preset_ ≠ PRESET_NONE then
    let r := presets_index d a.presets_ a.active_preset_
    let a1 := { a with presets_ := r.2 }
    if is_preset_modified d r.1 a1.state_ then { a1 with active_preset_ := PRESET_NONE }
    else a1
  else a

/-- The reactive antifreeze of `notify_state_` on the change-set `call`. -/
def notify_antifrize (a : Api) (call : Option TionStateCall) : Option TionStateCall :=
  if a.traits_.supports_antifrize then
    if antifrize_pred a.state_ then
      some { call.getD TionStateCall.empty with heater_state := some true }
    else call
  else call

/-- The method `notify_state_`: the engine afterwards and its effects in order. -/
def notify_state_ (d : Decls) (a : Api) (request_id : Nat) : Api × List Effect :=
  let r1 := notify_boost d a
  let a2 := notify_preset d r1.1
  let call := notify_antifrize a2 r1.2.1
  let performed := match call with
    | some c => [Effect.write_state c]
    | none => []
  (a2, r1.2.2 ++ performed ++ [Effect.on_state a2.state_ request_id])

/-- The `tolower` of the C locale. -/
def tolower (c : Char) : Char :=
  if 65 ≤ c.toNat ∧ c.toNat ≤ 90 then Char.ofNat (c.toNat + 32) else c

/-- The test `strcasecmp(a, b) == 0` on the C strings of two texts. -/
def strcasecmp_eq (a b : List Char) : Bool :=
  (cstr a).map tolower == (cstr b).map tolower

/-- The first test on `data` in `add_preset`: nothing to change. -/
def preset_no_data (d : Decls) (data : PresetData) : Bool :=
  decide (data.target_temperature = 0 ∧ data.heater_state < 0 ∧ data.power_state < 0 ∧
    data.fan_speed = 0 ∧ data.gate_position = d.UNKNOWN)

/-- The call `presets_.insert_or_assign(name, data)`. -/
def presets_insert_or_assign (presets : List (String × PresetData)) (name : String)
    (data : PresetData) : List (String × PresetData) :=
  match presets_find presets name with
  | some _ => presets.map (fun e => if e.1 = name then (name, data) else e)
  | none => presets ++ [(name, data)]

/-- The method `add_preset`. -/
def add_preset (d : Decls) (a : Api) (name : String) (data : PresetData) : Api :=
  if name = "" then a
  else if strcasecmp_eq name.toList PRESET_NONE.toList then a
  else if preset_no_data d data then a
  else if data.target_temperature < a.traits_.min_target_temperature ∨
      data.target_temperature > a.traits_.max_target_temperature then a
  else if data.fan_speed > a.traits_.max_fan_speed then a
  else { a with presets_ := presets_insert_or_assign a.presets_ name data }

/-- The method `enable_preset`. -/
def enable_preset (d : Decls) (a : Api) (preset : String) (call : Option TionStateCall) :
    Api × Option TionStateCall × List Effect :=
  if preset = "" ∨ strcasecmp_eq preset.toList PRESET_NONE.toList then
    ({ a with active_preset_ := preset }, call, [])
  else
    match presets_find a.presets_ preset with
    | none => (a, call, [])
    | some data =>
      let r := enable_preset_ d data call
      ({ a with active_preset_ := preset }, r.1, r.2)

/-! ## Vocabulary of the statements -/

/-- A text that does not go on with a decimal digit. -/
def endsNumber (rest : List Char) : Prop := ∀ c, rest.head? = some c → isDigitIn 10 c = false

/-- A text without NUL. -/
def noNul (s : List Char) : Prop := ∀ c ∈ s, (c.toNat != 0) = true

/-- The first seven lines of a status report, as the device prints them: mode text `m`,
speed `s`, the three temperatures, heater duty `v` and state `h`, filter time `f`, fan
time `w`, work time `p`. -/
def status_lines (m : List Char) (s : Nat) (a b c : Int) (v h f w p : Nat) :
    List (List Char) :=
  [ ST_MODE ++ m,
    ST_SPEED ++ decimal s,
    ST_SENS ++ (decimalInt a ++ (ST_SENS_OUTDOOR ++ (decimalInt b ++
      (ST_SENS_INDOOR ++ decimalInt c)))),
    ST_HEAT ++ (decimal v ++ ' ' :: decimal h),
    ST_FLT_TIME ++ decimal f,
    ST_FAN_TIME ++ decimal w,
    ST_WRK_TIME ++ decimal p ]

/-- The last line of a status report: the error register `e`. -/
def error_line (e : Nat) : List Char := ST_ERROR ++ ' ' :: decimal e

/-- The mirror after a status report read from the mirror `t`: every reported field holds
the reported value, `sound_state` and `led_state` are those of `t`, and the airflow counter
has advanced by the fan-time difference times the flow rate of speed `s`. -/
def cycle_mirror (k : LtConsts) (t : TData) (m : List Char) (s : Nat) (a b c : Int)
    (v h f w p : Nat) : TData :=
  { power_state := decide (m.head? = some 'W')
    heater_state := decide (h ≠ 0)
    sound_state := t.sound_state
    led_state := t.led_state
    fan_speed := s
    target_temperature := a
    outdoor_temperature := b
    current_temperature := c
    heater_var := v
    work_time := p
    fan_time := w
    filter_time := f
    airflow_counter := (t.airflow_counter +
      toU32 ((w : Int) - t.fan_time) * (PROD k).getD s 0 % 4294967296 / k.AK) % 4294967296 }

/-- The state response expected at the end of a status report with error register `e`. -/
def cycle_response (k : LtConsts) (t : TData) (m : List Char) (s : Nat) (a b c : Int)
    (v h f w p e : Nat) : LtState :=
  { power_state := decide (m.head? = some 'W')
    heater_state := decide (h ≠ 0)
    fan_speed := s
    target_temperature := a
    outdoor_temperature := b
    current_temperature := c
    heater_var := v
    work_time := p
    fan_time := w
    filter_time := f
    errors := e
    airflow_counter := (cycle_mirror k t m s a b c v h f w p).airflow_counter
    filter_state := decide (f / 86400 ≤ 30)
    heater_present := true
    gate_state := if decide (m.head? = some 'W') then GateState.OPENED else GateState.CLOSED
    max_fan_speed := 6 }

/-- Sample constants: six flow rates and a divisor. -/
def sampleConsts : LtConsts := { AUTO_PROD := [30, 45, 60, 75, 90, 120], AK := 10 }

/-- Sample declarations: gate positions NONE 0, OUTDOOR 1, INDOOR 2, MIXED 3, UNKNOWN 15;
every state counts as initialised; a value-initialised preset sets nothing. -/
def sampleDecls : Decls :=
  { OUTDOOR := 1, INDOOR := 2, MIXED := 3, NONE := 0, UNKNOWN := 15,
    is_initialized := fun _ _ => true,
    preset_default := { fan_speed := 0, target_temperature := 0, heater_state := -1,
                        power_state := -1, gate_position := 15 },
    outdoor_ne_indoor := by decide, outdoor_ne_mixed := by decide,
    indoor_ne_mixed := by decide }

/-- Sample traits: six fan speeds, target temperature 10..25, gate change and antifreeze
supported, no native boost, a boost of 600 s without heater or temperature override. -/
def sampleTraits : TionTraits :=
  { max_fan_speed := 6, min_target_temperature := 10, max_target_temperature := 25,
    supports_sound_state := true, supports_led_state := true,
    supports_gate_position_change := true, supports_gate_position_change_mixed := false,
    supports_antifrize := true, supports_boost := false, boost_time := 600,
    boost_heater_state := -1, boost_target_temperature := 0 }

/-- Sample canonical state: power on, heater off, fan speed 3, target 20, outdoor -5,
gate OUTDOOR, no boost. -/
def sampleState : TionState :=
  { power_state := true, heater_state := false, sound_state := false, led_state := false,
    fan_speed := 3, target_temperature := 20, outdoor_temperature := -5,
    current_temperature := 18, gate_position := 1, work_time := 1000, boost_time_left := 0 }

/-- Sample set request: everything as in the value-initialised mirror, no reset flag. -/
def sampleSet : StateSet :=
  { power_state := false, heater_state := false, sound_state := false, led_state := false,
    fan_speed := 0, target_temperature := 0, filter_time := 0, filter_reset := false,
    factory_reset := false, error_reset := false }

/-- Sample change-set: fan speed 7, power on, heater off, target temperature 22. -/
def sampleCallFan7 : TionStateCall :=
  { fan_speed := some 7, power_state := some true, heater_state := some false,
    target_temperature := some 22, sound_state := none, led_state := none,
    gate_position := none, auto_state := none }

/-- Sample change-set: gate position INDOOR of `sampleDecls` and the given heater request. -/
def sampleCallIndoor (heater : Option Bool) : TionStateCall :=
  { fan_speed := none, power_state := none, heater_state := heater,
    target_temperature := none, sound_state := none, led_state := none,
    gate_position := some sampleDecls.INDOOR, auto_state := none }

/-- Sample engine: the sample state and traits, no preset active or registered, an empty
boost snapshot. -/
def sampleApi : Api :=
  { state_ := sampleState, traits_ := sampleTraits,
    boost_save_ := { preset := sampleDecls.preset_default, start_time := 0 },
    active_preset_ := PRESET_NONE, presets_ := [] }

/-- The sample engine after `enable_boost(true)`: the snapshot holds fan speed 3. -/
def sampleBoosted : Api := (enable_boost sampleDecls sampleApi true none).1

/-- The boosted sample engine when a poll has reported the given fan speed, heater state
and work time, power staying on. -/
def samplePolled (fan_speed : Nat) (heater_state : Bool) (work_time : Nat) : Api :=
  { sampleBoosted with
    state_ := { sampleBoosted.state_ with fan_speed := fan_speed, heater_state := heater_state,
                                          work_time := work_time } }

/-- Sample engine whose state has target temperature 0 and whose boost sets the target
temperature to 22. -/
def sampleApiTarget0 : Api :=
  { state_ := { sampleState with target_temperature := 0 },
    traits_ := { sampleTraits with boost_target_temperature := 22 },
    boost_save_ := { preset := sampleDecls.preset_default, start_time := 0 },
    active_preset_ := PRESET_NONE, presets_ := [] }

/-- Sample preset: fan speed 2 and nothing else (target temperature 0, tri-states -1, gate
position UNKNOWN of `sampleDecls`). -/
def samplePresetFan2 : PresetData :=
  { fan_speed := 2, target_temperature := 0, heater_state := -1, power_state := -1,
    gate_position := sampleDecls.UNKNOWN }

/-- Sample engine with the preset `eco` (fan speed 2) registered and active, the state
having fan speed 3. -/
def sampleApiEco : Api :=
  { sampleApi with active_preset_ := "eco", presets_ := [("eco", samplePresetFan2)] }

/-- A status line of 45 bytes with its terminator: 43 characters, CR, LF. -/
def sampleLine45 : List Char :=
  "Sensors T_set: 20, T_In: -100, T_out: -101 ".toList ++ [CR, LF]

/-- A text at whose start `strtol` finds no number: it begins neither with white space, nor
with a sign, nor with a digit. -/
def noNumberAhead (x : List Char) : Prop :=
  ∀ c, x.head? = some c → isDigitIn 10 c = false ∧ isspace c = false ∧ c ≠ '-' ∧ c ≠ '+'

/-- The value-initialised protocol object: the mirror `t_data{}` and `busy_{}`. -/
def Proto.init : Proto := { t_data := TData.init, busy_ := 0 }

/-- An operation on the protocol object: a call of `write_frame` with the writer that is
configured at that time, or one activation of `read_frame_` on the bytes the source
holds. -/
inductive ProtoOp where
  | write (writer : Option (List Char → Bool)) (req : Request)
  | read (io : List Char)

/-- The protocol object together with its line buffer `buf_`. -/
structure ProtoState where
  proto : Proto
  buf_ : List Char
deriving DecidableEq, Repr

/-- One operation on the protocol object; `none` when the dispatch reads the flow-rate
table out of bounds. -/
def proto_step (k : LtConsts) (s : ProtoState) : ProtoOp → Option ProtoState
  | ProtoOp.write writer req =>
    some { proto := (write_frame writer s.proto req).proto, buf_ := s.buf_ }
  | ProtoOp.read io =>
    (read_frame_ k s.proto s.buf_ io).map (fun out => { proto := out.proto, buf_ := out.buf_ })

/-- A sequence of operations on the protocol object, in order. -/
def proto_run (k : LtConsts) : ProtoState → List ProtoOp → Option ProtoState
  | s, [] => some s
  | s, op :: ops =>
    match proto_step k s op with
    | none => none
    | some s1 => proto_run k s1 ops

/-- Sample set request with the flags `filter_reset` and `error_reset` both set and no
filter time. -/
def sampleSetErrorAndFilterReset : StateSet :=
  { sampleSet with filter_reset := true, error_reset := true }

/-- Sample set request: filter reset with a filter time of 49711 days. -/
def sampleSetFilter49711 : StateSet :=
  { sampleSet with filter_reset := true, filter_time := 49711 }

/-- Sample operations: a set request for sound and led on, the line `Speed: 3`, and a state
request. -/
def sampleOps : List ProtoOp :=
  [ ProtoOp.write (some (fun _ => true))
      (Request.StateSetRequest { sampleSet with sound_state := true, led_state := true }),
    ProtoOp.read ("Speed: 3".toList ++ [CR, LF]),
    ProtoOp.write (some (fun _ => true)) Request.StateGetRequest ]

/-- The protocol object after the sample operations: only the fan speed of the mirror has
changed. -/
def sampleOpsFinal : ProtoState :=
  { proto := { t_data := { TData.init with fan_speed := 3 }, busy_ := 0 }, buf_ := reset_buf_ }

/-- Sample set request: filter reset with a filter time of 180 days. -/
def sampleSetFilter180 : StateSet :=
  { sampleSet with filter_reset := true, filter_time := 180 }

/-- Sample set request: sound on, everything else as in the value-initialised mirror. -/
def sampleSetSound : StateSet := { sampleSet with sound_state := true }

/-- Sample preset: fan speed 2 and target temperature 20; power, heater and gate position
are left unset (tri-states -1, gate position UNKNOWN of `sampleDecls`). -/
def samplePresetFan2Target20 : PresetData :=
  { fan_speed := 2, target_temperature := 20, heater_state := -1, power_state := -1,
    gate_position := sampleDecls.UNKNOWN }

/-- Sample engine whose state has fan speed 2, target temperature 20 and gate position
OUTDOOR, with no preset registered. -/
def sampleApiFan2 : Api :=
  { sampleApi with state_ := { sampleState with fan_speed := 2 } }

/-- The engine `sampleApiFan2` after `add_preset` of `eco` (fan speed 2, target temperature
20) and `enable_preset` of it. -/
def sampleApiEcoEnabled : Api :=
  (enable_preset sampleDecls (add_preset sampleDecls sampleApiFan2 "eco"
    samplePresetFan2Target20) "eco" none).1

/-- Sample preset: fan speed 2 and target temperature 50, above the maximum of the sample
traits. -/
def samplePresetTarget50 : PresetData :=
  { fan_speed := 2, target_temperature := 50, heater_state := -1, power_state := -1,
    gate_position := sampleDecls.UNKNOWN }

/-- Sample mirror: fan speed 3 and a fan time six seconds below 2^32. -/
def sampleMirrorLateFanTime : TData :=
  { TData.init with fan_speed := 3, fan_time := 4294967290 }

/-- Sample set request with `error_reset` alone. -/
def sampleSetErrorReset : StateSet := { sampleSet with error_reset := true }

/-- White space of the C locale, character by character: space, TAB, LF, VT, FF, CR. -/
def whiteSpace (c : Char) : Prop :=
  c = ' ' ∨ c = Char.ofNat 9 ∨ c = Char.ofNat 10 ∨ c = Char.ofNat 11 ∨ c = Char.ofNat 12 ∨
    c = Char.ofNat 13

/-- A decimal digit. -/
def decimalDigit (c : Char) : Prop := ∃ d, d < 10 ∧ c = digitChar d

/-- A text that does not begin with a decimal digit. -/
def noDigitAhead (r : List Char) : Prop := ∀ c, r.head? = some c → ¬ decimalDigit c

/-- The sign in front of a number. -/
inductive Sign where
  | absent
  | plus
  | minus
deriving DecidableEq, Repr

/-- The text of a sign. -/
def Sign.text : Sign → List Char
  | Sign.absent => []
  | Sign.plus => ['+']
  | Sign.minus => ['-']

/-- The value of the digits of `n` behind a sign, kept within the range of a 32-bit
`long`. -/
def Sign.value (sg : Sign) (n : Nat) : Int :=
  match sg with
  | Sign.minus => max (-(n : Int)) (-2147483648)
  | _ => min (n : Int) 2147483647

/-- A decimal integer stands at the head of `x`: white space `sp`, an optional sign, leading
zeros and the decimal text of `n`, and then the text `after`, which does not begin with a
digit. Its value is `v`. -/
def NumberAt (x : List Char) (v : Int) (after : List Char) : Prop :=
  ∃ (sp : List Char) (sg : Sign) (zeros n : Nat),
    x = sp ++ (sg.text ++ (List.replicate zeros '0' ++ (decimal n ++ after))) ∧
    (∀ c ∈ sp, whiteSpace c) ∧ noDigitAhead after ∧ v = sg.value n

/-- No decimal integer stands at the head of `x`: after white space `sp` and an optional
sign comes the text `r`, which does not begin with a digit (nor, when there is no sign,
with white space or a sign). -/
def NoNumberAt (x : List Char) : Prop :=
  ∃ (sp : List Char) (sg : Sign) (r : List Char),
    x = sp ++ (sg.text ++ r) ∧ (∀ c ∈ sp, whiteSpace c) ∧ noDigitAhead r ∧
    (sg = Sign.absent → ∀ c, r.head? = some c → ¬ whiteSpace c ∧ c ≠ '+' ∧ c ≠ '-')

/-- Reading a decimal integer at the head of `x`: the value `v` and the text `after` it.
Where no integer stands the value is 0 and the text is `x` itself. -/
def ReadsInt (x : List Char) (v : Int) (after : List Char) : Prop :=
  NumberAt x v after ∨ (NoNumberAt x ∧ v = 0 ∧ after = x)

/-! ## Lemmas on text -/

theorem digitVal_digitChar (d : Nat) (h : d < 10) : digitVal (digitChar d) = some d := by
  interval_cases d <;> rfl

theorem isDigitIn_digitChar (d : Nat) (h : d < 10) : isDigitIn 10 (digitChar d) = true := by
  interval_cases d <;> rfl

theorem digitChar_toNat (d : Nat) (h : d < 10) : (digitChar d).toNat = 48 + d := by
  interval_cases d <;> rfl

theorem decimalAux_fuel (fuel1 : Nat) : ∀ (fuel2 n : Nat), n ≤ fuel1 → n ≤ fuel2 →
    decimalAux fuel1 n = decimalAux fuel2 n := by
  induction fuel1 with
  | zero =>
    intro fuel2 n h1 h2
    have hn : n = 0 := by omega
    subst hn
    cases fuel2 <;> rfl
  | succ f1 ih =>
    intro fuel2 n h1 h2
    cases fuel2 with
    | zero =>
      have hn : n = 0 := by omega
      subst hn
      rfl
    | succ f2 =>
      simp only [decimalAux]
      split
      · rfl
      · rw [ih f2 (n / 10) (by omega) (by omega)]

/-- The defining equation of the decimal text: the last digit follows the text of the
tenth. -/
theorem decimal_unfold (n : Nat) :
    decimal n = if n < 10 then [digitChar n] else decimal (n / 10) ++ [digitChar (n % 10)] := by
  unfold decimal
  cases n with
  | zero => rfl
  | succ m =>
    simp only [decimalAux]
    split
    · rfl
    · rw [decimalAux_fuel m ((m + 1) / 10) ((m + 1) / 10) (by omega) (Nat.le_refl _)]

theorem digitChar_eq (d : Nat) (h : d < 10) : Nat.digitChar d = digitChar d := by
  interval_cases d <;> rfl

theorem toDigitsCore_decimalAux (fuel : Nat) : ∀ (n : Nat) (acc : List Char), n ≤ fuel →
    Nat.toDigitsCore 10 (fuel + 1) n acc = decimalAux fuel n ++ acc := by
  induction fuel with
  | zero =>
    intro n acc h
    have : n = 0 := by omega
    subst this
    simp [Nat.toDigitsCore, decimalAux, digitChar_eq]
  | succ f ih =>
    intro n acc h
    rw [Nat.toDigitsCore, decimalAux]
    by_cases h10 : n < 10
    · have hq : n / 10 = 0 := by omega
      have hm : n % 10 = n := by omega
      simp [hq, hm, h10, digitChar_eq n h10]
    · have hq : ¬ n / 10 = 0 := by omega
      simp only [hq, h10, if_false]
      rw [ih (n / 10) _ (by omega), digitChar_eq (n % 10) (by omega)]
      simp

/-- The decimal text is the one `Nat.repr` produces. -/
theorem decimal_eq_repr (n : Nat) : decimal n = (Nat.repr n).toList := by
  simp [Nat.repr, Nat.toDigits, decimal, toDigitsCore_decimalAux n n [] (Nat.le_refl n)]
  rfl

theorem decimal_ne_nil (n : Nat) : decimal n ≠ [] := by
  rw [decimal_unfold]
  split <;> simp

theorem decimal_digits (n : Nat) : ∀ c ∈ decimal n, ∃ d, d < 10 ∧ c = digitChar d := by
  induction n using Nat.strong_induction_on with
  | _ n ih =>
    intro c hc
    rw [decimal_unfold] at hc
    split at hc
    · simp at hc
      exact ⟨n, by assumption, hc⟩
    · rcases List.mem_append.1 hc with h1 | h1
      · exact ih (n / 10) (by omega) c h1
      · simp at h1
        exact ⟨n % 10, by omega, h1⟩

theorem decimal_isDigit (n : Nat) : ∀ c ∈ decimal n, isDigitIn 10 c = true := by
  intro c hc
  obtain ⟨d, hd, rfl⟩ := decimal_digits n c hc
  exact isDigitIn_digitChar d hd

theorem digitsValue_snoc (base : Nat) (ds : List Char) (c : Char) :
    digitsValue base (ds ++ [c]) = digitsValue base ds * base + (digitVal c).getD 0 := by
  simp [digitsValue, List.foldl_append]

theorem digitsValue_decimal (n : Nat) : digitsValue 10 (decimal n) = n := by
  induction n using Nat.strong_induction_on with
  | _ n ih =>
    rw [decimal_unfold]
    split
    · rename_i h
      simp [digitsValue, digitVal_digitChar n h]
    · rw [digitsValue_snoc, ih (n / 10) (by omega), digitVal_digitChar _ (by omega)]
      simp only [Option.getD_some]
      omega

theorem takeWhile_digits_endsNumber (rest : List Char) (h : endsNumber rest) :
    rest.takeWhile (isDigitIn 10) = [] := by
  cases rest with
  | nil => rfl
  | cons c cs =>
    have := h c rfl
    simp [List.takeWhile_cons, this]

theorem dropWhile_digits_endsNumber (rest : List Char) (h : endsNumber rest) :
    rest.dropWhile (isDigitIn 10) = rest := by
  cases rest with
  | nil => rfl
  | cons c cs =>
    have := h c rfl
    simp [List.dropWhile_cons, this]

theorem takeWhile_decimal (n : Nat) (rest : List Char) (h : endsNumber rest) :
    (decimal n ++ rest).takeWhile (isDigitIn 10) = decimal n := by
  rw [List.takeWhile_append_of_pos (decimal_isDigit n), takeWhile_digits_endsNumber rest h]
  simp

theorem dropWhile_decimal (n : Nat) (rest : List Char) (h : endsNumber rest) :
    (decimal n ++ rest).dropWhile (isDigitIn 10) = rest := by
  rw [List.dropWhile_append_of_pos (decimal_isDigit n), dropWhile_digits_endsNumber rest h]

/-- The first character of a decimal text is a digit. -/
theorem decimal_head (n : Nat) : ∃ d cs, d < 10 ∧ decimal n = digitChar d :: cs := by
  cases hdec : decimal n with
  | nil => exact absurd hdec (decimal_ne_nil n)
  | cons c cs =>
    obtain ⟨d, hd, rfl⟩ := decimal_digits n c (by rw [hdec]; exact List.mem_cons_self _ _)
    exact ⟨d, cs, hd, rfl⟩

theorem dropWhile_isspace_digit (d : Nat) (hd : d < 10) (cs : List Char) :
    (digitChar d :: cs).dropWhile isspace = digitChar d :: cs := by
  have : isspace (digitChar d) = false := by interval_cases d <;> rfl
  simp [List.dropWhile_cons, this]

theorem takeSign_digit (d : Nat) (hd : d < 10) (cs : List Char) :
    takeSign (digitChar d :: cs) = (false, digitChar d :: cs) := by
  interval_cases d <;> rfl

/-- Reading back `%u` text with `strtoul`. -/
theorem strtoul_decimal (n : Nat) (rest : List Char) (h : endsNumber rest) :
    strtoul (decimal n ++ rest) = (min n ULONG_MAX, rest) := by
  obtain ⟨d, cs, hd, hdec⟩ := decimal_head n
  have h1 : (decimal n ++ rest).dropWhile isspace = decimal n ++ rest := by
    rw [hdec]; exact dropWhile_isspace_digit d hd _
  have h2 : takeSign (decimal n ++ rest) = (false, decimal n ++ rest) := by
    rw [hdec]; exact takeSign_digit d hd _
  have h3 : (decimal n).isEmpty = false := by rw [hdec]; rfl
  simp only [strtoul, h1, h2, takeWhile_decimal n rest h, dropWhile_decimal n rest h, h3,
    digitsValue_decimal]
  by_cases hn : ULONG_MAX < n
  · simp [hn, Nat.min_eq_right (Nat.le_of_lt hn)]
  · simp [hn, Nat.min_eq_left (Nat.le_of_not_lt hn)]

/-- Reading back `%u` text with `strtol`. -/
theorem strtol_decimal (n : Nat) (rest : List Char) (h : endsNumber rest) :
    strtol (decimal n ++ rest) = (min (n : Int) LONG_MAX, rest) := by
  obtain ⟨d, cs, hd, hdec⟩ := decimal_head n
  have h1 : (decimal n ++ rest).dropWhile isspace = decimal n ++ rest := by
    rw [hdec]; exact dropWhile_isspace_digit d hd _
  have h2 : takeSign (decimal n ++ rest) = (false, decimal n ++ rest) := by
    rw [hdec]; exact takeSign_digit d hd _
  have h3 : (decimal n).isEmpty = false := by rw [hdec]; rfl
  simp [strtol, h1, h2, takeWhile_decimal n rest h, dropWhile_decimal n rest h, h3,
    digitsValue_decimal]

/-- Reading back `%d` text with `strtol`, for a value that fits in a `long`. -/
theorem strtol_decimalInt (z : Int) (hz : LONG_MIN ≤ z ∧ z ≤ LONG_MAX) (rest : List Char)
    (h : endsNumber rest) : strtol (decimalInt z ++ rest) = (z, rest) := by
  unfold decimalInt
  split
  · rename_i hneg
    have h3 : (decimal (-z).toNat).isEmpty = false := by
      obtain ⟨d, cs, _, hdec⟩ := decimal_head (-z).toNat
      rw [hdec]; rfl
    have h1 : (('-' :: decimal (-z).toNat) ++ rest).dropWhile isspace
        = '-' :: (decimal (-z).toNat ++ rest) := rfl
    have h2 : takeSign ('-' :: (decimal (-z).toNat ++ rest))
        = (true, decimal (-z).toNat ++ rest) := rfl
    simp only [strtol, h1, h2, takeWhile_decimal _ rest h, dropWhile_decimal _ rest h, h3,
      digitsValue_decimal]
    have : ((-z).toNat : Int) = -z := Int.toNat_of_nonneg (by omega)
    simp only [this, neg_neg]
    simp [LONG_MIN] at hz ⊢
    omega
  · rename_i hpos
    rw [strtol_decimal _ rest h]
    have : (z.toNat : Int) = z := Int.toNat_of_nonneg (by omega)
    simp [this, LONG_MAX] at hz ⊢
    omega

/-- White space before a number does not change the value `strtoul` reads. -/
theorem strtoul_space (s : List Char) : (strtoul (' ' :: s)).1 = (strtoul s).1 := by
  have h1 : (' ' :: s).dropWhile isspace = s.dropWhile isspace := rfl
  simp only [strtoul, h1]
  split <;> rfl

theorem skipLit_append (p r : List Char) : skipLit p (p ++ r) = some r := by
  induction p with
  | nil => cases r <;> rfl
  | cons c cs ih => simp [skipLit, ih]

theorem cstr_append (a b : List Char) (h : noNul a) : cstr (a ++ b) = a ++ cstr b := by
  unfold cstr
  exact List.takeWhile_append_of_pos h

theorem cstr_self (a : List Char) (h : noNul a) : cstr a = a := by
  have := cstr_append a [] h
  simpa [cstr] using this

theorem noNul_append (a b : List Char) (ha : noNul a) (hb : noNul b) : noNul (a ++ b) := by
  intro c hc
  rcases List.mem_append.1 hc with h | h
  · exact ha c h
  · exact hb c h

theorem noNul_decimal (n : Nat) : noNul (decimal n) := by
  intro c hc
  obtain ⟨d, hd, rfl⟩ := decimal_digits n c hc
  interval_cases d <;> rfl

theorem noNul_decimalInt (z : Int) : noNul (decimalInt z) := by
  unfold decimalInt
  split
  · intro c hc
    rcases List.mem_cons.1 hc with h | h
    · subst h; rfl
    · exact noNul_decimal _ c h
  · exact noNul_decimal _

/-! ## Lemmas on the dispatch of `read_frame_` -/

theorem noNul_ST_MODE : noNul ST_MODE := by simp [noNul, ST_MODE]
theorem noNul_ST_SPEED : noNul ST_SPEED := by simp [noNul, ST_SPEED]
theorem noNul_ST_SENS : noNul ST_SENS := by simp [noNul, ST_SENS]
theorem noNul_ST_HEAT : noNul ST_HEAT := by simp [noNul, ST_HEAT]
theorem noNul_ST_FLT_TIME : noNul ST_FLT_TIME := by simp [noNul, ST_FLT_TIME]
theorem noNul_ST_FAN_TIME : noNul ST_FAN_TIME := by simp [noNul, ST_FAN_TIME]
theorem noNul_ST_WRK_TIME : noNul ST_WRK_TIME := by simp [noNul, ST_WRK_TIME]
theorem noNul_ST_ERROR : noNul ST_ERROR := by simp [noNul, ST_ERROR]
theorem noNul_ST_SENS_OUTDOOR : noNul ST_SENS_OUTDOOR := by simp [noNul, ST_SENS_OUTDOOR]
theorem noNul_ST_SENS_INDOOR : noNul ST_SENS_INDOOR := by simp [noNul, ST_SENS_INDOOR]

theorem cstr_head_W (m : List Char) : (cstr m).head? = some 'W' ↔ m.head? = some 'W' := by
  cases m with
  | nil => simp [cstr]
  | cons c cs =>
    by_cases hc : c.toNat = 0
    · have h1 : c ≠ 'W' := by
        intro h; rw [h] at hc; exact absurd hc (by decide)
      simp [cstr, List.takeWhile_cons, hc, h1]
    · simp [cstr, List.takeWhile_cons, hc]

theorem parse_line_mode (k : LtConsts) (t : TData) (m : List Char) :
    parse_line k 0 t (ST_MODE ++ m)
      = some ({ t with power_state := decide (m.head? = some 'W') }, none) := by
  unfold parse_line
  rw [cstr_append _ _ noNul_ST_MODE]
  have : decide ((cstr m).head? = some 'W') = decide (m.head? = some 'W') := by
    simp only [cstr_head_W]
  rw [← this]
  rfl

theorem parse_line_speed (k : LtConsts) (t : TData) (r : List Char) :
    parse_line k 0 t (ST_SPEED ++ r)
      = some ({ t with fan_speed := toU8 (strtol (cstr r)).1 }, none) := by
  unfold parse_line
  rw [cstr_append _ _ noNul_ST_SPEED]
  rfl

theorem parse_line_sens (k : LtConsts) (t : TData) (r : List Char) :
    parse_line k 0 t (ST_SENS ++ r) = some (parseSens t (cstr r), none) := by
  unfold parse_line
  rw [cstr_append _ _ noNul_ST_SENS]
  rfl

theorem parse_line_heat (k : LtConsts) (t : TData) (r : List Char) :
    parse_line k 0 t (ST_HEAT ++ r) = some (parseHeat t (cstr r), none) := by
  unfold parse_line
  rw [cstr_append _ _ noNul_ST_HEAT]
  rfl

theorem parse_line_flt_time (k : LtConsts) (t : TData) (r : List Char) :
    parse_line k 0 t (ST_FLT_TIME ++ r)
      = some ({ t with filter_time := (strtoul (cstr r)).1 % 4294967296 }, none) := by
  unfold parse_line
  rw [cstr_append _ _ noNul_ST_FLT_TIME]
  rfl

theorem parse_line_fan_time (k : LtConsts) (t : TData) (r : List Char) :
    parse_line k 0 t (ST_FAN_TIME ++ r)
      = (parseFanTime k t (cstr r)).map (fun t1 => (t1, none)) := by
  unfold parse_line
  rw [cstr_append _ _ noNul_ST_FAN_TIME]
  rfl

theorem parse_line_wrk_time (k : LtConsts) (t : TData) (r : List Char) :
    parse_line k 0 t (ST_WRK_TIME ++ r)
      = some ({ t with work_time := (strtoul (cstr r)).1 % 4294967296 }, none) := by
  unfold parse_line
  rw [cstr_append _ _ noNul_ST_WRK_TIME]
  rfl

theorem parse_line_error (k : LtConsts) (t : TData) (r : List Char) :
    parse_line k 0 t (ST_ERROR ++ r) = some (t, some (stateFrame t (cstr r))) := by
  unfold parse_line
  rw [cstr_append _ _ noNul_ST_ERROR]
  rfl

theorem endsNumber_nil : endsNumber [] := by
  intro c hc; simp at hc

theorem endsNumber_space (r : List Char) : endsNumber (' ' :: r) := by
  intro c hc
  simp at hc
  subst hc
  rfl

theorem endsNumber_OUTDOOR (r : List Char) : endsNumber (ST_SENS_OUTDOOR ++ r) := by
  intro c hc
  simp [ST_SENS_OUTDOOR] at hc
  subst hc
  rfl

theorem endsNumber_INDOOR (r : List Char) : endsNumber (ST_SENS_INDOOR ++ r) := by
  intro c hc
  simp [ST_SENS_INDOOR] at hc
  subst hc
  rfl

theorem strtol_decimalInt_nil (z : Int) (hz : LONG_MIN ≤ z ∧ z ≤ LONG_MAX) :
    strtol (decimalInt z) = (z, []) := by
  have := strtol_decimalInt z hz [] endsNumber_nil
  simpa using this

theorem strtoul_decimal_nil (n : Nat) : strtoul (decimal n) = (min n ULONG_MAX, []) := by
  have := strtoul_decimal n [] endsNumber_nil
  simpa using this

theorem strtol_decimal_nil (n : Nat) : strtol (decimal n) = (min (n : Int) LONG_MAX, []) := by
  have := strtol_decimal n [] endsNumber_nil
  simpa using this

theorem toI8_id (z : Int) (h : -128 ≤ z ∧ z ≤ 127) : toI8 z = z := by
  unfold toI8; omega

theorem toU8_id (n : Nat) (h : n ≤ 255) : toU8 (n : Int) = n := by
  unfold toU8; omega

theorem long_of_i8 (z : Int) (h : -128 ≤ z ∧ z ≤ 127) : LONG_MIN ≤ z ∧ z ≤ LONG_MAX := by
  simp only [LONG_MIN, LONG_MAX]; omega

/-- The `Sensors` line with all three temperatures sets the three fields. -/
theorem parseSens_full (t : TData) (a b c : Int) (ha : -128 ≤ a ∧ a ≤ 127)
    (hb : -128 ≤ b ∧ b ≤ 127) (hc : -128 ≤ c ∧ c ≤ 127) :
    parseSens t (decimalInt a ++ (ST_SENS_OUTDOOR ++ (decimalInt b ++
      (ST_SENS_INDOOR ++ decimalInt c))))
      = { t with target_temperature := a, outdoor_temperature := b,
                 current_temperature := c } := by
  simp only [parseSens, strtol_decimalInt a (long_of_i8 a ha) _ (endsNumber_OUTDOOR _),
    skipLit_append, strtol_decimalInt b (long_of_i8 b hb) _ (endsNumber_INDOOR _),
    strtol_decimalInt_nil c (long_of_i8 c hc), toI8_id a ha, toI8_id b hb, toI8_id c hc]

/-- The `PID_Value` line sets the heater duty and the heater flag. -/
theorem parseHeat_full (t : TData) (v h : Nat) (hv : v ≤ 255) :
    parseHeat t (decimal v ++ ' ' :: decimal h)
      = { t with heater_var := v, heater_state := decide (h ≠ 0) } := by
  have h1 : min v ULONG_MAX = v := by simp only [ULONG_MAX]; omega
  have h2 : decide (min h ULONG_MAX ≠ 0) = decide (h ≠ 0) := by
    simp only [ULONG_MAX]
    by_cases hh : h = 0
    · simp [hh]
    · have : min h 4294967295 ≠ 0 := by omega
      simp [hh, this]
  simp only [parseHeat, strtoul_decimal v _ (endsNumber_space _), strtoul_space,
    strtoul_decimal_nil, h1, h2, toU8_id v hv]

theorem noNul_sens_text (a b c : Int) :
    noNul (decimalInt a ++ (ST_SENS_OUTDOOR ++ (decimalInt b ++
      (ST_SENS_INDOOR ++ decimalInt c)))) :=
  noNul_append _ _ (noNul_decimalInt a) (noNul_append _ _ noNul_ST_SENS_OUTDOOR
    (noNul_append _ _ (noNul_decimalInt b)
      (noNul_append _ _ noNul_ST_SENS_INDOOR (noNul_decimalInt c))))

theorem noNul_space_decimal (n : Nat) : noNul (' ' :: decimal n) := by
  intro c hc
  rcases List.mem_cons.1 hc with h | h
  · subst h; rfl
  · exact noNul_decimal n c h

theorem min_u32 (n : Nat) (h : n < 4294967296) : min n ULONG_MAX % 4294967296 = n := by
  simp only [ULONG_MAX]; omega

/-- The mirror after the first seven lines of a status report. -/
theorem parse_status_lines (k : LtConsts) (hk : k.AUTO_PROD.length = 6) (hAK : 0 < k.AK)
    (t : TData) (m : List Char) (s : Nat) (a b c : Int) (v h f w p : Nat)
    (hs : s ≤ 6) (ha : -128 ≤ a ∧ a ≤ 127) (hb : -128 ≤ b ∧ b ≤ 127)
    (hc : -128 ≤ c ∧ c ≤ 127) (hv : v ≤ 255) (hf : f < 4294967296)
    (hw : w < 4294967296) (hp : p < 4294967296) :
    parse_lines k 0 t (status_lines m s a b c v h f w p)
      = some (cycle_mirror k t m s a b c v h f w p, []) := by
  have hlen : s < (PROD k).length := by simp [PROD, hk]; omega
  have hprod : (PROD k)[s]? = some ((PROD k).getD s 0) := by
    rw [List.getD_eq_getElem?_getD, List.getElem?_eq_getElem hlen]; rfl
  have hAK0 : ¬ k.AK = 0 := by omega
  have hs1 : toU8 (min (s : Int) LONG_MAX) = s := by
    have : min (s : Int) LONG_MAX = (s : Int) := by simp only [LONG_MAX]; omega
    rw [this]; exact toU8_id s (by omega)
  have hheat : noNul (decimal v ++ ' ' :: decimal h) :=
    noNul_append _ _ (noNul_decimal v) (noNul_space_decimal h)
  simp only [cycle_mirror, status_lines, parse_lines, parse_line_mode, parse_line_speed, parse_line_sens,
    parse_line_heat, parse_line_flt_time, parse_line_fan_time, parse_line_wrk_time,
    cstr_self _ (noNul_decimal _), cstr_self _ (noNul_sens_text a b c), cstr_self _ hheat,
    strtol_decimal_nil, strtoul_decimal_nil, hs1, parseSens_full _ a b c ha hb hc,
    parseHeat_full _ v h hv, min_u32 f hf, min_u32 w hw, min_u32 p hp, parseFanTime, hprod,
    hAK0, if_false, Option.map_some', Option.toList_none, List.nil_append]

theorem parse_lines_snoc (k : LtConsts) (busy : Nat) (ls : List (List Char)) :
    ∀ (t t1 t2 : TData) (fs : List Frame) (l : List Char) (f : Option Frame),
      parse_lines k busy t ls = some (t1, fs) → parse_line k busy t1 l = some (t2, f) →
      parse_lines k busy t (ls ++ [l]) = some (t2, fs ++ f.toList) := by
  induction ls with
  | nil =>
    intro t t1 t2 fs l f h1 h2
    simp only [parse_lines, Option.some.injEq, Prod.mk.injEq] at h1
    obtain ⟨rfl, rfl⟩ := h1
    simp [parse_lines, h2]
  | cons x xs ih =>
    intro t t1 t2 fs l f h1 h2
    simp only [parse_lines, List.cons_append] at h1 ⊢
    cases hx : parse_line k busy t x with
    | none => simp [hx] at h1
    | some r =>
      obtain ⟨tx, fx⟩ := r
      simp only [hx] at h1 ⊢
      cases hxs : parse_lines k busy tx xs with
      | none => simp [hxs] at h1
      | some r2 =>
        obtain ⟨ty, fy⟩ := r2
        simp only [hxs, Option.some.injEq, Prod.mk.injEq] at h1
        obtain ⟨rfl, rfl⟩ := h1
        simp [ih tx ty t2 fy l f hxs h2]

/-- The `Error register:` line of a status report emits the state response of the mirror. -/
theorem parse_error_line (k : LtConsts) (t : TData) (m : List Char) (s : Nat) (a b c : Int)
    (v h f w p e : Nat) (he : e < 4294967296) :
    parse_line k 0 (cycle_mirror k t m s a b c v h f w p) (error_line e)
      = some (cycle_mirror k t m s a b c v h f w p,
          some (Frame.StateResponse (cycle_response k t m s a b c v h f w p e))) := by
  simp only [error_line, parse_line_error, cstr_self _ (noNul_space_decimal e), stateFrame,
    strtoul_space, strtoul_decimal_nil, min_u32 e he, cycle_mirror, cycle_response,
    filter_time_left_d]

/-! ## The claims -/

/-- C1: with the busy counter at zero and any prior mirror, the eight lines of a status
report (mode text `m`, speed `s` in 0..6, temperatures `a b c` in the `int8_t` range, heater
duty `v` up to 255, heater state `h`, and 32-bit `f w p e`) delivered in order emit exactly one
frame, on the last line: the state response with power = (`m` starts with W), fan_speed = s,
target_temperature = a, outdoor_temperature = b, current_temperature = c, heater_var = v,
heater_state = (h ≠ 0), filter_time = f, fan_time = w, work_time = p, errors = e. The first
seven lines alone emit no frame. -/
theorem C1_status_cycle_emits_one_state_response (k : LtConsts)
    (hk : k.AUTO_PROD.length = 6) (hAK : 0 < k.AK)
    (t : TData) (m : List Char) (s : Nat) (a b c : Int) (v h f w p e : Nat)
    (hs : s ≤ 6) (ha : -128 ≤ a ∧ a ≤ 127) (hb : -128 ≤ b ∧ b ≤ 127)
    (hc : -128 ≤ c ∧ c ≤ 127) (hv : v ≤ 255) (hf : f < 4294967296)
    (hw : w < 4294967296) (hp : p < 4294967296) (he : e < 4294967296) :
    parse_lines k 0 t (status_lines m s a b c v h f w p)
      = some (cycle_mirror k t m s a b c v h f w p, []) ∧
    parse_line k 0 (cycle_mirror k t m s a b c v h f w p) (error_line e)
      = some (cycle_mirror k t m s a b c v h f w p,
          some (Frame.StateResponse (cycle_response k t m s a b c v h f w p e))) ∧
    parse_lines k 0 t (status_lines m s a b c v h f w p ++ [error_line e])
      = some (cycle_mirror k t m s a b c v h f w p,
          [Frame.StateResponse (cycle_response k t m s a b c v h f w p e)]) ∧
    (cycle_response k t m s a b c v h f w p e).power_state = decide (m.head? = some 'W') ∧
    (cycle_response k t m s a b c v h f w p e).fan_speed = s ∧
    (cycle_response k t m s a b c v h f w p e).target_temperature = a ∧
    (cycle_response k t m s a b c v h f w p e).outdoor_temperature = b ∧
    (cycle_response k t m s a b c v h f w p e).current_temperature = c ∧
    (cycle_response k t m s a b c v h f w p e).heater_var = v ∧
    (cycle_response k t m s a b c v h f w p e).heater_state = decide (h ≠ 0) ∧
    (cycle_response k t m s a b c v h f w p e).filter_time = f ∧
    (cycle_response k t m s a b c v h f w p e).fan_time = w ∧
    (cycle_response k t m s a b c v h f w p e).work_time = p ∧
    (cycle_response k t m s a b c v h f w p e).errors = e := by
  have h7 := parse_status_lines k hk hAK t m s a b c v h f w p hs ha hb hc hv hf hw hp
  have h8 := parse_error_line k t m s a b c v h f w p e he
  refine ⟨h7, h8, ?_, rfl, rfl, rfl, rfl, rfl, rfl, rfl, rfl, rfl, rfl, rfl⟩
  have := parse_lines_snoc k 0 _ t _ _ [] (error_line e) _ h7 h8
  simpa using this

/-- C1 at a sample report: mode Work, speed 3, temperatures 20, -5, 18, heater 55 on. -/
theorem C1_status_cycle_witness :
    parse_lines sampleConsts 0 TData.init
        (status_lines "Work".toList 3 20 (-5) 18 55 1 15000000 1000 2000 ++ [error_line 7])
      = some (cycle_mirror sampleConsts TData.init "Work".toList 3 20 (-5) 18 55 1
                15000000 1000 2000,
          [Frame.StateResponse (cycle_response sampleConsts TData.init "Work".toList 3 20 (-5)
            18 55 1 15000000 1000 2000 7)]) :=
  (C1_status_cycle_emits_one_state_response sampleConsts rfl (by decide) TData.init
    "Work".toList 3 20 (-5) 18 55 1 15000000 1000 2000 7 (by decide) (by decide) (by decide)
    (by decide) (by decide) (by decide) (by decide) (by decide) (by decide)).2.2.1

/-- C2, as stated, fails: a request for fan speed 200 against the value-initialised mirror
writes `set_speed 4294967240`, not `set_speed 200`, because the value is passed as an
`int8_t` and printed with `%u`. -/
theorem C2_counterexample_fan_speed_200 :
    (write_frame (some (fun _ => true)) { t_data := TData.init, busy_ := 0 }
        (Request.StateSetRequest { sampleSet with fan_speed := 200 })).written
      = ["set_speed 4294967240".toList ++ CRLF, "getstate".toList ++ CRLF] ∧
    (write_frame (some (fun _ => true)) { t_data := TData.init, busy_ := 0 }
        (Request.StateSetRequest { sampleSet with fan_speed := 200 })).written
      ≠ ["set_speed 200".toList ++ CRLF, "getstate".toList ++ CRLF] := by
  decide

theorem toU32_toI8_small (n : Nat) (h : n ≤ 127) : toU32 (toI8 (n : Int)) = n := by
  unfold toU32 toI8; omega

/-- C2 (amended): for every mirror and every set request without reset flags whose fan speed
is at most 127, `write_frame` with a writer writes, in this order, `set_speed N`,
`set_temp N`, `set_heater_state 0|1`, `set_sound_state 0|1`, `set_led_state 0|1`,
`pon`/`stby`, each for the requested value and exactly when it differs from the value of
the mirror, and then one `getstate`; when all six values equal those of the mirror the only
command is `getstate`. -/
theorem C2_diffed_commands_then_getstate (w : List Char → Bool) (p : Proto) (set : StateSet)
    (h1 : set.filter_reset = false) (h2 : set.factory_reset = false)
    (h3 : set.error_reset = false) (hfan : set.fan_speed ≤ 127) :
    (write_frame (some w) p (Request.StateSetRequest set)).written
      = (if p.t_data.fan_speed ≠ set.fan_speed
          then ["set_speed ".toList ++ decimal set.fan_speed ++ CRLF] else []) ++
        (if p.t_data.target_temperature ≠ set.target_temperature
          then ["set_temp ".toList ++ decimalInt set.target_temperature ++ CRLF] else []) ++
        (if p.t_data.heater_state ≠ set.heater_state
          then [if set.heater_state then "set_heater_state 1".toList ++ CRLF
                else "set_heater_state 0".toList ++ CRLF] else []) ++
        (if p.t_data.sound_state ≠ set.sound_state
          then [if set.sound_state then "set_sound_state 1".toList ++ CRLF
                else "set_sound_state 0".toList ++ CRLF] else []) ++
        (if p.t_data.led_state ≠ set.led_state
          then [if set.led_state then "set_led_state 1".toList ++ CRLF
                else "set_led_state 0".toList ++ CRLF] else []) ++
        (if p.t_data.power_state ≠ set.power_state
          then [if set.power_state then "pon".toList ++ CRLF else "stby".toList ++ CRLF]
          else []) ++
        ["getstate".toList ++ CRLF] ∧
    (p.t_data.fan_speed = set.fan_speed ∧
      p.t_data.target_temperature = set.target_temperature ∧
      p.t_data.heater_state = set.heater_state ∧ p.t_data.sound_state = set.sound_state ∧
      p.t_data.led_state = set.led_state ∧ p.t_data.power_state = set.power_state →
      (write_frame (some w) p (Request.StateSetRequest set)).written
        = ["getstate".toList ++ CRLF]) := by
  have hw : (write_frame (some w) p (Request.StateSetRequest set)).written
      = diff_cmds p.t_data set ++ [CMD_GET_STATE] := by
    simp [write_frame, h1, h2, h3]
  rw [hw]
  constructor
  · simp only [diff_cmds, CMD_SET_SPEED, toU32_toI8_small _ hfan, CMD_SET_TEMP,
      CMD_SET_HEATER_ON, CMD_SET_HEATER_OFF, CMD_SET_SOUND_STATE_ON, CMD_SET_SOUND_STATE_OFF,
      CMD_SET_LED_STATE_ON, CMD_SET_LED_STATE_OFF, CMD_POWER_ON, CMD_POWER_OFF, CMD_GET_STATE]
  · rintro ⟨e1, e2, e3, e4, e5, e6⟩
    simp [diff_cmds, e1, e2, e3, e4, e5, e6, CMD_GET_STATE]

/-- C2 (amended) at a sample: the mirror is value-initialised, the request asks for fan
speed 3 and power on. -/
theorem C2_diffed_commands_witness :
    (write_frame (some (fun _ => true)) { t_data := TData.init, busy_ := 0 }
        (Request.StateSetRequest { sampleSet with fan_speed := 3, power_state := true })).written
      = ["set_speed 3".toList ++ CRLF, "pon".toList ++ CRLF, "getstate".toList ++ CRLF] := by
  have h := (C2_diffed_commands_then_getstate (fun _ => true)
    { t_data := TData.init, busy_ := 0 }
    { sampleSet with fan_speed := 3, power_state := true } rfl rfl rfl (by decide)).1
  rw [h]
  decide

/-! ### Lemmas on `make_write_state_` -/

theorem merge_gate_position_power (d : Decls) (tr : TionTraits) (cs ns : TionState)
    (call : TionStateCall) :
    (merge_gate_position d tr cs ns call).power_state = ns.power_state := by
  unfold merge_gate_position
  repeat' split
  all_goals rfl

theorem merge_gate_position_fan (d : Decls) (tr : TionTraits) (cs ns : TionState)
    (call : TionStateCall) :
    (merge_gate_position d tr cs ns call).fan_speed = ns.fan_speed := by
  unfold merge_gate_position
  repeat' split
  all_goals rfl

theorem merge_gate_position_target (d : Decls) (tr : TionTraits) (cs ns : TionState)
    (call : TionStateCall) :
    (merge_gate_position d tr cs ns call).target_temperature = ns.target_temperature := by
  unfold merge_gate_position
  repeat' split
  all_goals rfl

theorem merge_gate_position_outdoor (d : Decls) (tr : TionTraits) (cs ns : TionState)
    (call : TionStateCall) :
    (merge_gate_position d tr cs ns call).outdoor_temperature = ns.outdoor_temperature := by
  unfold merge_gate_position
  repeat' split
  all_goals rfl

theorem merge_power_eq (call : TionStateCall) (ns : TionState) :
    merge_power call ns
      = { ns with power_state := call.power_state.getD ns.power_state } := by
  unfold merge_power
  cases call.power_state <;> rfl

theorem merge_heater_eq (call : TionStateCall) (ns : TionState) :
    merge_heater call ns
      = { ns with heater_state := call.heater_state.getD ns.heater_state } := by
  unfold merge_heater
  cases call.heater_state <;> rfl

theorem merge_target_eq (call : TionStateCall) (ns : TionState) :
    merge_target call ns
      = { ns with target_temperature :=
            call.target_temperature.getD ns.target_temperature } := by
  unfold merge_target
  cases call.target_temperature <;> rfl

theorem merge_sound_eq (tr : TionTraits) (call : TionStateCall) (ns : TionState) :
    merge_sound tr call ns
      = { ns with sound_state := if tr.supports_sound_state
            then call.sound_state.getD ns.sound_state else ns.sound_state } := by
  unfold merge_sound
  cases tr.supports_sound_state <;> cases call.sound_state <;> rfl

theorem merge_led_eq (tr : TionTraits) (call : TionStateCall) (ns : TionState) :
    merge_led tr call ns
      = { ns with led_state := if tr.supports_led_state
            then call.led_state.getD ns.led_state else ns.led_state } := by
  unfold merge_led
  cases tr.supports_led_state <;> cases call.led_state <;> rfl

/-- The state that `merge_fan_speed` hands on differs from the one it is given at most in
the fan speed. -/
theorem merge_fan_speed_state (tr : TionTraits) (cs ns : TionState) (call : TionStateCall) :
    (merge_fan_speed tr cs ns call).1
      = { ns with fan_speed := (merge_fan_speed tr cs ns call).1.fan_speed } := by
  unfold merge_fan_speed
  repeat' split
  all_goals rfl

theorem merge_state_call (d : Decls) (tr : TionTraits) (cs : TionState)
    (call : TionStateCall) :
    (merge_state d tr cs call).2 = (merge_fan_speed tr cs cs call).2 := rfl

theorem merge_state_power (d : Decls) (tr : TionTraits) (cs : TionState)
    (call : TionStateCall) :
    (merge_state d tr cs call).1.power_state
      = (merge_fan_speed tr cs cs call).2.power_state.getD cs.power_state := by
  simp only [merge_state, merge_gate_position_power, merge_power_eq, merge_heater_eq,
    merge_target_eq, merge_sound_eq, merge_led_eq]
  rw [merge_fan_speed_state]

theorem merge_state_fan (d : Decls) (tr : TionTraits) (cs : TionState)
    (call : TionStateCall) :
    (merge_state d tr cs call).1.fan_speed = (merge_fan_speed tr cs cs call).1.fan_speed := by
  simp only [merge_state, merge_gate_position_fan, merge_power_eq, merge_heater_eq,
    merge_target_eq, merge_sound_eq, merge_led_eq]

theorem merge_state_target (d : Decls) (tr : TionTraits) (cs : TionState)
    (call : TionStateCall) :
    (merge_state d tr cs call).1.target_temperature
      = (merge_fan_speed tr cs cs call).2.target_temperature.getD cs.target_temperature := by
  simp only [merge_state, merge_gate_position_target, merge_power_eq, merge_heater_eq,
    merge_target_eq, merge_sound_eq, merge_led_eq]
  rw [merge_fan_speed_state]

theorem merge_state_outdoor (d : Decls) (tr : TionTraits) (cs : TionState)
    (call : TionStateCall) :
    (merge_state d tr cs call).1.outdoor_temperature = cs.outdoor_temperature := by
  simp only [merge_state, merge_gate_position_outdoor, merge_power_eq, merge_heater_eq,
    merge_target_eq, merge_sound_eq, merge_led_eq]
  rw [merge_fan_speed_state]

theorem antifrize_power (tr : TionTraits) (ns : TionState) :
    (antifrize tr ns).power_state = ns.power_state := by
  unfold antifrize
  repeat' split
  all_goals rfl

theorem antifrize_fan (tr : TionTraits) (ns : TionState) :
    (antifrize tr ns).fan_speed = ns.fan_speed := by
  unfold antifrize
  repeat' split
  all_goals rfl

theorem antifrize_target (tr : TionTraits) (ns : TionState) :
    (antifrize tr ns).target_temperature = ns.target_temperature := by
  unfold antifrize
  repeat' split
  all_goals rfl

theorem antifrize_outdoor (tr : TionTraits) (ns : TionState) :
    (antifrize tr ns).outdoor_temperature = ns.outdoor_temperature := by
  unfold antifrize
  repeat' split
  all_goals rfl

theorem antifrize_gate (tr : TionTraits) (ns : TionState) :
    (antifrize tr ns).gate_position = ns.gate_position := by
  unfold antifrize
  repeat' split
  all_goals rfl

/-- The heater after the antifreeze check. -/
theorem antifrize_heater (tr : TionTraits) (ns : TionState) :
    (antifrize tr ns).heater_state
      = (ns.heater_state || (tr.supports_antifrize && ns.power_state &&
          decide (ns.outdoor_temperature < 0))) := by
  unfold antifrize antifrize_pred
  cases tr.supports_antifrize <;> cases ns.power_state <;> cases hh : ns.heater_state <;>
    by_cases ho : ns.outdoor_temperature < 0 <;> simp [hh, ho]

/-- C3: with antifreeze enabled, the state returned by `make_write_state_` never has power
on, heater off and outdoor temperature below zero; and its heater differs from the heater
of the merged state (before the antifreeze check) only when the merged state had power on,
heater off and outdoor temperature below zero. -/
theorem C3_antifreeze_holds_on_returned_state (d : Decls) (tr : TionTraits) (cs : TionState)
    (call : TionStateCall) (h : tr.supports_antifrize = true) :
    ¬ ((make_write_state_ d tr cs call).1.power_state = true ∧
       (make_write_state_ d tr cs call).1.heater_state = false ∧
       (make_write_state_ d tr cs call).1.outdoor_temperature < 0) ∧
    ((make_write_state_ d tr cs call).1.heater_state
        ≠ (merge_state d tr cs call).1.heater_state →
      (merge_state d tr cs call).1.power_state = true ∧
      (merge_state d tr cs call).1.heater_state = false ∧
      (merge_state d tr cs call).1.outdoor_temperature < 0) := by
  simp only [make_write_state_, antifrize_power, antifrize_outdoor, antifrize_heater, h]
  generalize (merge_state d tr cs call).1 = ns
  cases ns.power_state <;> cases ns.heater_state <;>
    by_cases ho : ns.outdoor_temperature < 0 <;> simp [ho]

/-- C3 at the sample state (power on, heater off, outdoor -5) with an empty change-set. -/
theorem C3_antifreeze_witness :
    ¬ ((make_write_state_ sampleDecls sampleTraits sampleState TionStateCall.empty).1.power_state
          = true ∧
       (make_write_state_ sampleDecls sampleTraits sampleState TionStateCall.empty).1.heater_state
          = false ∧
       (make_write_state_ sampleDecls sampleTraits sampleState
          TionStateCall.empty).1.outdoor_temperature < 0) :=
  (C3_antifreeze_holds_on_returned_state sampleDecls sampleTraits sampleState
    TionStateCall.empty rfl).1

/-- C4: a change-set that requests fan speed 0 yields a state with power off and the current
fan speed; and when power would otherwise have been on (requested on, or not requested while
currently on) the change-set ends up carrying power = false and the current fan speed. -/
theorem C4_zero_fan_speed_powers_off (d : Decls) (tr : TionTraits) (cs : TionState)
    (call : TionStateCall) (h : call.fan_speed = some 0) :
    (make_write_state_ d tr cs call).1.power_state = false ∧
    (make_write_state_ d tr cs call).1.fan_speed = cs.fan_speed ∧
    (call.power_state.getD cs.power_state = true →
      (make_write_state_ d tr cs call).2.power_state = some false ∧
      (make_write_state_ d tr cs call).2.fan_speed = some cs.fan_speed) := by
  simp only [make_write_state_, antifrize_power, antifrize_fan, merge_state_power,
    merge_state_fan, merge_state_call]
  by_cases hp : call.power_state.getD cs.power_state = true
  · simp [merge_fan_speed, h, hp]
  · simp only [merge_fan_speed, h, hp]
    cases hc : call.power_state with
    | none => simp_all
    | some v => simp_all

/-- C4 at the sample state (power on, fan speed 3): requesting fan speed 0 turns power off. -/
theorem C4_zero_fan_speed_witness :
    (make_write_state_ sampleDecls sampleTraits sampleState
        { TionStateCall.empty with fan_speed := some 0 }).1.power_state = false ∧
    (make_write_state_ sampleDecls sampleTraits sampleState
        { TionStateCall.empty with fan_speed := some 0 }).1.fan_speed = 3 :=
  ⟨(C4_zero_fan_speed_powers_off sampleDecls sampleTraits sampleState
      { TionStateCall.empty with fan_speed := some 0 } rfl).1,
   (C4_zero_fan_speed_powers_off sampleDecls sampleTraits sampleState
      { TionStateCall.empty with fan_speed := some 0 } rfl).2.1⟩

theorem merge_fan_speed_call_heater (tr : TionTraits) (cs ns : TionState)
    (call : TionStateCall) :
    (merge_fan_speed tr cs ns call).2.heater_state = call.heater_state := by
  unfold merge_fan_speed
  repeat' split
  all_goals rfl

theorem merge_fan_speed_call_gate (tr : TionTraits) (cs ns : TionState)
    (call : TionStateCall) :
    (merge_fan_speed tr cs ns call).2.gate_position = call.gate_position := by
  unfold merge_fan_speed
  repeat' split
  all_goals rfl

theorem merge_fan_speed_call_target (tr : TionTraits) (cs ns : TionState)
    (call : TionStateCall) :
    (merge_fan_speed tr cs ns call).2.target_temperature = call.target_temperature := by
  unfold merge_fan_speed
  repeat' split
  all_goals rfl

theorem merge_gate_position_heater (d : Decls) (tr : TionTraits) (cs ns : TionState)
    (call : TionStateCall) :
    (merge_gate_position d tr cs ns call).heater_state
      = (ns.heater_state && !(tr.supports_gate_position_change &&
          decide (call.gate_position = some d.INDOOR))) := by
  have hio := d.outdoor_ne_indoor
  have him := d.indoor_ne_mixed
  unfold merge_gate_position
  cases hs : tr.supports_gate_position_change
  · simp
  · cases hg : call.gate_position with
    | none => simp
    | some g =>
      by_cases h1 : g = d.OUTDOOR
      · have : ¬ g = d.INDOOR := fun h => hio (h1.symm.trans h)
        simp [h1, Ne.symm hio, hio]
      · by_cases h2 : g = d.INDOOR
        · simp [h2, Ne.symm hio]
        · by_cases h3 : g = d.MIXED
          · subst h3
            by_cases h4 : tr.supports_gate_position_change_mixed = true
            · simp [h1, h2, h4]
            · simp [h1, h2, h4]
          · simp [h1, h2, h3]

/-- The heater of the merged state: the requested (else current) value, forced off by a
request for gate position INDOOR on a device that supports gate change. -/
theorem merge_state_heater (d : Decls) (tr : TionTraits) (cs : TionState)
    (call : TionStateCall) :
    (merge_state d tr cs call).1.heater_state
      = (call.heater_state.getD cs.heater_state && !(tr.supports_gate_position_change &&
          decide (call.gate_position = some d.INDOOR))) := by
  simp only [merge_state, merge_gate_position_heater, merge_power_eq, merge_heater_eq,
    merge_target_eq, merge_sound_eq, merge_led_eq, merge_fan_speed_call_gate,
    merge_fan_speed_call_heater]
  rw [merge_fan_speed_state]

theorem merge_gate_position_indoor (d : Decls) (tr : TionTraits) (cs ns : TionState)
    (call : TionStateCall) (hs : tr.supports_gate_position_change = true)
    (hg : call.gate_position = some d.INDOOR) :
    (merge_gate_position d tr cs ns call).gate_position = d.INDOOR := by
  simp [merge_gate_position, hs, hg, Ne.symm d.outdoor_ne_indoor]

theorem merge_fan_speed_excess (tr : TionTraits) (cs : TionState) (call : TionStateCall)
    (f : Nat) (hf : call.fan_speed = some f) (hmax : f > tr.max_fan_speed) :
    merge_fan_speed tr cs cs call = (cs, { call with fan_speed := some cs.fan_speed }) := by
  have h0 : ¬ f = 0 := by omega
  simp [merge_fan_speed, hf, h0, hmax]

/-- C5, as stated, fails: with antifreeze enabled, power on and outdoor temperature -5, a
change-set asking for fan speed 7 (maximum 6), power on, heater off and target 22 returns a
state whose heater is on, not the requested off. -/
theorem C5_counterexample_requested_heater_overridden :
    sampleCallFan7.fan_speed = some 7 ∧ 7 > sampleTraits.max_fan_speed ∧
    sampleCallFan7.heater_state = some false ∧
    (make_write_state_ sampleDecls sampleTraits sampleState
      sampleCallFan7).1.heater_state
      = true := by
  decide

/-- C5 (amended): a change-set that requests a fan speed above `max_fan_speed` yields a state
with the current fan speed and has its own fan speed reset to it; the state returned is the
one the same change-set without a fan speed would give: a requested power and a requested
target temperature are in it, and a requested heater value is in it unless a request for
gate position INDOOR (on a device that supports gate change) forces the heater off or the
antifreeze rule forces it on. -/
theorem C5_excess_fan_speed_rejected_alone (d : Decls) (tr : TionTraits) (cs : TionState)
    (call : TionStateCall) (f : Nat) (hf : call.fan_speed = some f)
    (hmax : f > tr.max_fan_speed) :
    (make_write_state_ d tr cs call).1.fan_speed = cs.fan_speed ∧
    (make_write_state_ d tr cs call).2.fan_speed = some cs.fan_speed ∧
    (make_write_state_ d tr cs call).1
      = (make_write_state_ d tr cs { call with fan_speed := none }).1 ∧
    (∀ v, call.power_state = some v → (make_write_state_ d tr cs call).1.power_state = v) ∧
    (∀ v, call.target_temperature = some v →
      (make_write_state_ d tr cs call).1.target_temperature = v) ∧
    (∀ v, call.heater_state = some v →
      (make_write_state_ d tr cs call).1.heater_state
        = ((v && !(tr.supports_gate_position_change &&
              decide (call.gate_position = some d.INDOOR))) ||
           (tr.supports_antifrize && (make_write_state_ d tr cs call).1.power_state &&
              decide (cs.outdoor_temperature < 0)))) := by
  have hm := merge_fan_speed_excess tr cs call f hf hmax
  refine ⟨?_, ?_, ?_, ?_, ?_, ?_⟩
  · simp only [make_write_state_, antifrize_fan, merge_state_fan, hm]
  · simp only [make_write_state_, merge_state_call, hm]
  · simp only [make_write_state_, merge_state, hm]
    rfl
  · intro v hv
    simp only [make_write_state_, antifrize_power, merge_state_power, hm, hv, Option.getD_some]
  · intro v hv
    simp only [make_write_state_, antifrize_target, merge_state_target, hm, hv,
      Option.getD_some]
  · intro v hv
    simp only [make_write_state_, antifrize_heater, antifrize_power, merge_state_heater,
      merge_state_outdoor, hv, Option.getD_some]

/-- C5 (amended) at the sample state: fan speed 7 is rejected, power and target temperature
are merged. -/
theorem C5_excess_fan_speed_witness :
    (make_write_state_ sampleDecls sampleTraits sampleState
      sampleCallFan7).1.fan_speed
      = sampleState.fan_speed :=
  (C5_excess_fan_speed_rejected_alone sampleDecls sampleTraits sampleState
    sampleCallFan7 7 rfl (by decide)).1

/-- C6, the code at the failing input: with bounds 10..25 and current target temperature 20,
a change-set asking for target temperature 50 returns a state with target temperature 50:
the value is merged, not reverted. The sibling paths do check: the same function reverts a
fan speed of 7 above the maximum 6, and `add_preset` rejects a preset with target
temperature 50. -/
theorem C6_out_of_range_target_merged :
    sampleTraits.min_target_temperature = 10 ∧
    sampleTraits.max_target_temperature = 25 ∧
    sampleState.target_temperature = 20 ∧
    (make_write_state_ sampleDecls sampleTraits sampleState
      { TionStateCall.empty with target_temperature := some 50 }).1.target_temperature
      = 50 ∧
    (make_write_state_ sampleDecls sampleTraits sampleState sampleCallFan7).1.fan_speed
      = sampleState.fan_speed ∧
    add_preset sampleDecls sampleApi "hot" samplePresetTarget50 = sampleApi := by
  decide

/-- The state returned by `make_write_state_` carries every requested target temperature,
inside the bounds of the traits or not: the function does not read the bounds. -/
theorem make_write_state_target (d : Decls) (tr : TionTraits) (cs : TionState)
    (call : TionStateCall) (v : Int) (hv : call.target_temperature = some v) :
    (make_write_state_ d tr cs call).1.target_temperature = v := by
  simp only [make_write_state_, antifrize_target, merge_state_target,
    merge_fan_speed_call_target, hv, Option.getD_some]

/-- C7, as stated, fails: with gate change and antifreeze supported, power on and outdoor
temperature -5, a change-set asking for gate position INDOOR returns a state whose heater
is on. -/
theorem C7_counterexample_indoor_with_antifreeze :
    sampleTraits.supports_gate_position_change = true ∧
    (make_write_state_ sampleDecls sampleTraits sampleState
      (sampleCallIndoor none)).1.gate_position
      = sampleDecls.INDOOR ∧
    (make_write_state_ sampleDecls sampleTraits sampleState
      (sampleCallIndoor none)).1.heater_state
      = true := by
  decide

/-- C7 (amended): on a device that supports gate change, a change-set that requests gate
position INDOOR yields a state with gate position INDOOR whose heater is off, also when the
change-set requests heater on, unless the antifreeze rule applies (antifreeze enabled, power
on in the returned state, outdoor temperature below zero): then the heater is on. -/
theorem C7_indoor_gate_heater (d : Decls) (tr : TionTraits) (cs : TionState)
    (call : TionStateCall) (hs : tr.supports_gate_position_change = true)
    (hg : call.gate_position = some d.INDOOR) :
    (make_write_state_ d tr cs call).1.gate_position = d.INDOOR ∧
    (make_write_state_ d tr cs call).1.heater_state
      = (tr.supports_antifrize && (make_write_state_ d tr cs call).1.power_state &&
          decide (cs.outdoor_temperature < 0)) := by
  constructor
  · simp only [make_write_state_, antifrize_gate, merge_state]
    exact merge_gate_position_indoor d tr cs _ _ hs
      ((merge_fan_speed_call_gate tr cs cs call).trans hg)
  · simp [make_write_state_, antifrize_heater, antifrize_power, merge_state_heater,
      merge_state_outdoor, hs, hg]

/-- C7 (amended) at the sample state with antifreeze switched off: gate INDOOR, heater off
although heater on is requested. -/
theorem C7_indoor_gate_witness :
    (make_write_state_ sampleDecls { sampleTraits with supports_antifrize := false } sampleState
      (sampleCallIndoor (some true))).1.heater_state = false := by
  have h := (C7_indoor_gate_heater sampleDecls { sampleTraits with supports_antifrize := false }
    sampleState (sampleCallIndoor (some true)) rfl rfl).2
  rw [h]
  rfl

/-! ### Lemmas on boost -/

theorem notify_preset_state (d : Decls) (a : Api) : (notify_preset d a).state_ = a.state_ := by
  unfold notify_preset
  split
  · dsimp only
    split <;> rfl
  · rfl

theorem notify_preset_traits (d : Decls) (a : Api) :
    (notify_preset d a).traits_ = a.traits_ := by
  unfold notify_preset
  split
  · dsimp only
    split <;> rfl
  · rfl

theorem notify_preset_boost_save (d : Decls) (a : Api) :
    (notify_preset d a).boost_save_ = a.boost_save_ := by
  unfold notify_preset
  split
  · dsimp only
    split <;> rfl
  · rfl

/-- C8: on a device without native boost, with the state initialised, no boost active, the
fan not at maximum and a non-zero boost duration, `enable_boost(true)` (a) stores the current
power, heater, fan speed, target temperature, gate position and work time in the snapshot,
(b) sets `boost_time_left` to the boost duration and (c) composes a change-set with fan speed
= max, power = true, gate position = OUTDOOR, the heater set exactly when a boost heater
state is configured and the target temperature set exactly when the boost target temperature
is non-zero; without an external change-set it is performed, with one the fields are set on
it. -/
theorem C8_enable_boost_snapshot_and_change_set (d : Decls) (a : Api)
    (hnb : a.traits_.supports_boost = false)
    (hinit : d.is_initialized a.state_ a.traits_ = true)
    (hleft : a.state_.boost_time_left = 0)
    (hfan : a.state_.fan_speed ≠ a.traits_.max_fan_speed)
    (htime : a.traits_.boost_time ≠ 0) :
    (enable_boost d a true none).1.boost_save_
      = { preset := { fan_speed := a.state_.fan_speed,
                      target_temperature := a.state_.target_temperature,
                      heater_state := if a.state_.heater_state then 1 else 0,
                      power_state := if a.state_.power_state then 1 else 0,
                      gate_position := a.state_.gate_position },
          start_time := a.state_.work_time } ∧
    (enable_boost d a true none).1.state_
      = { a.state_ with boost_time_left := a.traits_.boost_time } ∧
    (enable_boost d a true none).2.2
      = [Effect.write_state
          { fan_speed := some a.traits_.max_fan_speed,
            power_state := some true,
            heater_state := if a.traits_.boost_heater_state ≥ 0
              then some (decide (a.traits_.boost_heater_state > 0)) else none,
            target_temperature := if a.traits_.boost_target_temperature ≠ 0
              then some a.traits_.boost_target_temperature else none,
            sound_state := none, led_state := none,
            gate_position := some d.OUTDOOR, auto_state := none }] ∧
    (∀ c : TionStateCall,
      (enable_boost d a true (some c)).1 = (enable_boost d a true none).1 ∧
      (enable_boost d a true (some c)).2.2 = [] ∧
      (enable_boost d a true (some c)).2.1
        = some { fan_speed := some a.traits_.max_fan_speed,
                 power_state := some true,
                 heater_state := if a.traits_.boost_heater_state ≥ 0
                   then some (decide (a.traits_.boost_heater_state > 0)) else c.heater_state,
                 target_temperature := if a.traits_.boost_target_temperature ≠ 0
                   then some a.traits_.boost_target_temperature else c.target_temperature,
                 sound_state := c.sound_state, led_state := c.led_state,
                 gate_position := some d.OUTDOOR, auto_state := c.auto_state }) := by
  have e1 : ∀ ext, enable_boost d a true ext
      = ({ boost_save_state_ a true with
            state_ := { a.state_ with boost_time_left := a.traits_.boost_time } },
         ext.map (boost_call d a.traits_),
         match ext with
         | some _ => []
         | none => [Effect.write_state (boost_call d a.traits_ TionStateCall.empty)]) := by
    intro ext
    simp only [enable_boost, boost_enable_, hinit, hleft, hfan, htime, hnb]
    cases ext <;> simp [boost_save_state_]
  refine ⟨?_, ?_, ?_, ?_⟩
  · rw [e1]; simp [boost_save_state_]
  · rw [e1]
  · rw [e1]
    by_cases h1 : a.traits_.boost_heater_state ≥ 0 <;>
      by_cases h2 : a.traits_.boost_target_temperature = 0 <;>
      simp [boost_call, TionStateCall.empty, h1, h2]
  · intro c
    rw [e1, e1]
    refine ⟨rfl, rfl, ?_⟩
    by_cases h1 : a.traits_.boost_heater_state ≥ 0 <;>
      by_cases h2 : a.traits_.boost_target_temperature = 0 <;>
      simp [boost_call, h1, h2]

/-- C8 at the sample engine (fan speed 3 of 6, boost of 600 s): the change-set performed. -/
theorem C8_enable_boost_witness :
    (enable_boost sampleDecls sampleApi true none).2.2
      = [Effect.write_state
          { fan_speed := some 6, power_state := some true, heater_state := none,
            target_temperature := none, sound_state := none, led_state := none,
            gate_position := some 1, auto_state := none }] :=
  (C8_enable_boost_snapshot_and_change_set sampleDecls sampleApi rfl rfl rfl (by decide)
    (by decide)).2.2.1

/-- The change-set that `enable_preset_` composes from a preset on a fresh change-set. -/
theorem preset_call_empty (d : Decls) (pr : PresetData) :
    preset_call d pr TionStateCall.empty
      = { fan_speed := if pr.fan_speed ≠ 0 then some pr.fan_speed else none,
          power_state := if pr.power_state ≥ 0 then some (decide (pr.power_state > 0)) else none,
          heater_state := if pr.heater_state ≥ 0
            then some (decide (pr.heater_state > 0)) else none,
          target_temperature := if pr.target_temperature ≠ 0
            then some pr.target_temperature else none,
          sound_state := none, led_state := none,
          gate_position := if pr.gate_position ≠ d.UNKNOWN
            then some pr.gate_position else none,
          auto_state := none } := by
  unfold preset_call TionStateCall.empty
  by_cases h1 : pr.power_state ≥ 0 <;> by_cases h2 : pr.heater_state ≥ 0 <;>
    by_cases h3 : pr.fan_speed = 0 <;> by_cases h4 : pr.target_temperature = 0 <;>
    by_cases h5 : pr.gate_position = d.UNKNOWN <;> simp [h1, h2, h3, h4, h5]

/-- The boost supervision when the poll shows a fan speed other than the maximum or power
off: the snapshot is taken again from the polled state (the fan speed only when it is not
the maximum), the timer is cleared and the new snapshot is set on a fresh change-set. -/
theorem notify_boost_user_action (d : Decls) (a : Api)
    (hnb : a.traits_.supports_boost = false) (hb : 0 < a.state_.boost_time_left)
    (hc : a.state_.fan_speed ≠ a.traits_.max_fan_speed ∨ a.state_.power_state = false) :
    notify_boost d a
      = ({ boost_save_state_ a (decide (a.state_.fan_speed ≠ a.traits_.max_fan_speed)) with
            state_ := { a.state_ with boost_time_left := 0 } },
         some (preset_call d
           (boost_save_state_ a
             (decide (a.state_.fan_speed ≠ a.traits_.max_fan_speed))).boost_save_.preset
           TionStateCall.empty),
         []) := by
  have hc1 : a.state_.fan_speed ≠ a.traits_.max_fan_speed ∨ ¬ a.state_.power_state = true := by
    rcases hc with h | h
    · exact Or.inl h
    · exact Or.inr (by simp [h])
  have hb1 : (boost_save_state_ a
      (decide (a.state_.fan_speed ≠ a.traits_.max_fan_speed))).state_.boost_time_left > 0 := hb
  have hnb1 : (boost_save_state_ a
      (decide (a.state_.fan_speed ≠ a.traits_.max_fan_speed))).traits_.supports_boost
        = false := hnb
  simp only [notify_boost, hb, if_true, hc1, boost_cancel_, hb1, not_true_eq_false, if_false,
    hnb1, enable_preset_, Bool.false_eq_true, gt_iff_lt]
  rfl

/-- C9, as stated, fails: boost was enabled at fan speed 3 (maximum 6); a poll then reports
fan speed 2 with power on. The change-set applied asks for fan speed 2, the polled value,
not for the fan speed 3 held before boost. -/
theorem C9_counterexample_polled_fan_speed_restored :
    sampleBoosted.boost_save_.preset.fan_speed = 3 ∧
    0 < (samplePolled 2 true 1010).state_.boost_time_left ∧
    (notify_state_ sampleDecls (samplePolled 2 true 1010) 1).2.head?
      = some (Effect.write_state
          { fan_speed := some 2, power_state := some true, heater_state := some true,
            target_temperature := some 20, sound_state := none, led_state := none,
            gate_position := some 1, auto_state := none }) := by
  decide

/-- C9 (amended): on a device without native boost, when boost is active and the poll shows
a fan speed other than the maximum or power off, `notify_state_` sets `boost_time_left` to 0
and performs one change-set built from a snapshot taken again at this poll. Its power is
the polled power; its heater is the polled heater, forced on when the antifreeze rule fires
at this poll; its target temperature is the polled one, left unset when that is 0; its gate
position is the polled one, left unset when that is UNKNOWN; its fan speed is the polled
one when that differs from the maximum (left unset when it is 0), and otherwise the fan
speed of the snapshot held before (left unset when it is 0). Subscribers are then notified
once. -/
theorem C9_user_action_cancels_boost (d : Decls) (a : Api) (request_id : Nat)
    (hnb : a.traits_.supports_boost = false) (hb : 0 < a.state_.boost_time_left)
    (hc : a.state_.fan_speed ≠ a.traits_.max_fan_speed ∨ a.state_.power_state = false) :
    (notify_state_ d a request_id).1.state_.boost_time_left = 0 ∧
    (notify_state_ d a request_id).2
      = [Effect.write_state
          { fan_speed :=
              if a.state_.fan_speed ≠ a.traits_.max_fan_speed then
                (if a.state_.fan_speed ≠ 0 then some a.state_.fan_speed else none)
              else
                (if a.boost_save_.preset.fan_speed ≠ 0
                  then some a.boost_save_.preset.fan_speed else none),
            power_state := some a.state_.power_state,
            heater_state := some (a.state_.heater_state ||
              (a.traits_.supports_antifrize && a.state_.power_state &&
                decide (a.state_.outdoor_temperature < 0))),
            target_temperature := if a.state_.target_temperature ≠ 0
              then some a.state_.target_temperature else none,
            sound_state := none, led_state := none,
            gate_position := if a.state_.gate_position ≠ d.UNKNOWN
              then some a.state_.gate_position else none,
            auto_state := none },
         Effect.on_state { a.state_ with boost_time_left := 0 } request_id] := by
  have hn := notify_boost_user_action d a hnb hb hc
  simp only [notify_state_, hn, notify_preset_state, notify_preset_traits, notify_antifrize,
    preset_call_empty, boost_save_state_, antifrize_pred, List.nil_append, true_and]
  cases hp : a.state_.power_state <;> cases hh : a.state_.heater_state <;>
    cases hs : a.traits_.supports_antifrize <;>
    by_cases ho : a.state_.outdoor_temperature < 0 <;>
    by_cases hf : a.state_.fan_speed = a.traits_.max_fan_speed <;>
    simp [ho, hf]

/-- C9 (amended) at the boosted sample engine when the poll reports fan speed 2: the timer
is cleared and the change-set asks for fan speed 2. -/
theorem C9_user_action_witness :
    (notify_state_ sampleDecls (samplePolled 2 true 1010) 1).1.state_.boost_time_left = 0 ∧
    (notify_state_ sampleDecls (samplePolled 2 true 1010) 1).2
      = [Effect.write_state
          { fan_speed := some 2, power_state := some true, heater_state := some true,
            target_temperature := some 20, sound_state := none, led_state := none,
            gate_position := some 1, auto_state := none },
         Effect.on_state { (samplePolled 2 true 1010).state_ with boost_time_left := 0 } 1] :=
  C9_user_action_cancels_boost sampleDecls (samplePolled 2 true 1010) 1 rfl (by decide)
    (Or.inl (by decide))

/-- The boost supervision when the poll shows the fan at maximum and power on, on a device
without native boost: the time left is recomputed from the work time, and once the boost
duration has elapsed the timer is cleared and the snapshot is set on a fresh change-set. -/
theorem notify_boost_timer (d : Decls) (a : Api) (elapsed : Nat)
    (hnb : a.traits_.supports_boost = false) (hb : 0 < a.state_.boost_time_left)
    (hfan : a.state_.fan_speed = a.traits_.max_fan_speed)
    (hp : a.state_.power_state = true)
    (he : elapsed = toU32 ((a.state_.work_time : Int) - a.boost_save_.start_time)) :
    notify_boost d a
      = if elapsed < a.traits_.boost_time then
          ({ a with state_ :=
              { a.state_ with boost_time_left := a.traits_.boost_time - elapsed } },
            none, [])
        else
          ({ a with state_ := { a.state_ with boost_time_left := 0 } },
           some (preset_call d a.boost_save_.preset TionStateCall.empty), []) := by
  have hb1 : a.state_.boost_time_left > 0 := hb
  subst he
  simp only [notify_boost, hb1, if_true, hfan, hp, ne_eq, not_true_eq_false, or_self, if_false,
    hnb, Bool.false_eq_true, not_false_eq_true, boost_cancel_, enable_preset_]

/-- C10, as stated, fails in its last clause: boost was enabled with the heater off; a poll
then shows fan speed 6 (the maximum), power on, heater off and outdoor temperature -5 after
1000 s of a 600 s boost. Boost is cancelled, but the change-set applied asks for heater on
(the antifreeze of the same poll), while the saved state has the heater off. -/
theorem C10_counterexample_antifreeze_over_saved_heater :
    sampleBoosted.boost_save_.preset.heater_state = 0 ∧
    sampleBoosted.boost_save_.start_time = 1000 ∧
    (notify_state_ sampleDecls (samplePolled 6 false 2000) 1).1.state_.boost_time_left = 0 ∧
    (notify_state_ sampleDecls (samplePolled 6 false 2000) 1).2.head?
      = some (Effect.write_state
          { fan_speed := some 3, power_state := some true, heater_state := some true,
            target_temperature := some 20, sound_state := none, led_state := none,
            gate_position := some 1, auto_state := none }) := by
  decide

/-- The difference of two 32-bit values in `uint32_t` arithmetic. -/
theorem toU32_sub (x y : Nat) (hx : x < 4294967296) (hy : y < 4294967296) :
    toU32 ((x : Int) - y) = (x + 4294967296 - y) % 4294967296 := by
  unfold toU32
  omega

/-- C10 (amended): on a device without native boost, when a poll completes with boost active,
the fan at maximum and power on, let `elapsed` be the work time minus the start time of the
snapshot in 32-bit unsigned arithmetic, that is `(work_time + 2^32 - start_time) mod 2^32`.
If `elapsed` is below the boost duration, `boost_time_left` becomes the duration minus
`elapsed`, which is positive, and no change-set comes from boost (the only one possible is
the heater-on of the antifreeze rule). Otherwise `boost_time_left` becomes 0 and the saved
state is performed as one change-set: the saved power and heater (when the saved tri-state
is not negative), the saved fan speed unless it is 0, the saved target temperature unless
it is 0, the saved gate position unless it is UNKNOWN; the heater of the change-set is on,
whatever was saved, when the antifreeze rule fires at this poll. -/
theorem C10_boost_timer (d : Decls) (a : Api) (request_id elapsed : Nat)
    (hnb : a.traits_.supports_boost = false) (hb : 0 < a.state_.boost_time_left)
    (hfan : a.state_.fan_speed = a.traits_.max_fan_speed)
    (hp : a.state_.power_state = true)
    (hwt : a.state_.work_time < 4294967296) (hst : a.boost_save_.start_time < 4294967296)
    (hel : elapsed
      = (a.state_.work_time + 4294967296 - a.boost_save_.start_time) % 4294967296) :
    (elapsed < a.traits_.boost_time →
      (notify_state_ d a request_id).1.state_.boost_time_left
        = a.traits_.boost_time - elapsed ∧
      0 < a.traits_.boost_time - elapsed ∧
      (notify_state_ d a request_id).2
        = (if a.traits_.supports_antifrize = true ∧ a.state_.heater_state = false ∧
              a.state_.outdoor_temperature < 0
            then [Effect.write_state
              { fan_speed := none, power_state := none, heater_state := some true,
                target_temperature := none, sound_state := none, led_state := none,
                gate_position := none, auto_state := none }]
            else []) ++
          [Effect.on_state
            { a.state_ with boost_time_left := a.traits_.boost_time - elapsed } request_id]) ∧
    (¬ elapsed < a.traits_.boost_time →
      (notify_state_ d a request_id).1.state_.boost_time_left = 0 ∧
      (notify_state_ d a request_id).2
        = [Effect.write_state
            { fan_speed := if a.boost_save_.preset.fan_speed ≠ 0
                then some a.boost_save_.preset.fan_speed else none,
              power_state := if a.boost_save_.preset.power_state ≥ 0
                then some (decide (a.boost_save_.preset.power_state > 0)) else none,
              heater_state :=
                if a.traits_.supports_antifrize = true ∧ a.state_.heater_state = false ∧
                    a.state_.outdoor_temperature < 0
                then some true
                else if a.boost_save_.preset.heater_state ≥ 0
                  then some (decide (a.boost_save_.preset.heater_state > 0)) else none,
              target_temperature := if a.boost_save_.preset.target_temperature ≠ 0
                then some a.boost_save_.preset.target_temperature else none,
              sound_state := none, led_state := none,
              gate_position := if a.boost_save_.preset.gate_position ≠ d.UNKNOWN
                then some a.boost_save_.preset.gate_position else none,
              auto_state := none },
           Effect.on_state { a.state_ with boost_time_left := 0 } request_id]) := by
  have he : elapsed = toU32 ((a.state_.work_time : Int) - a.boost_save_.start_time) := by
    rw [hel, toU32_sub _ _ hwt hst]
  have hn := notify_boost_timer d a elapsed hnb hb hfan hp he
  constructor
  · intro hlt
    rw [if_pos hlt] at hn
    refine ⟨?_, by omega, ?_⟩
    · simp only [notify_state_, hn, notify_preset_state]
    · simp only [notify_state_, hn, notify_preset_state, notify_preset_traits,
        notify_antifrize, antifrize_pred, hp, List.nil_append, TionStateCall.empty]
      cases hh : a.state_.heater_state <;> cases hs : a.traits_.supports_antifrize <;>
        by_cases ho : a.state_.outdoor_temperature < 0 <;> simp [ho]
  · intro hge
    rw [if_neg hge] at hn
    refine ⟨?_, ?_⟩
    · simp only [notify_state_, hn, notify_preset_state]
    · simp only [notify_state_, hn, notify_preset_state, notify_preset_traits,
        notify_antifrize, antifrize_pred, hp, List.nil_append, preset_call_empty]
      cases hh : a.state_.heater_state <;> cases hs : a.traits_.supports_antifrize <;>
        by_cases ho : a.state_.outdoor_temperature < 0 <;> simp [ho]

/-- C10 (amended) at the boosted sample engine: 100 s after the start of a 600 s boost the
time left is 500 s. -/
theorem C10_boost_timer_witness :
    (notify_state_ sampleDecls (samplePolled 6 true 1100) 1).1.state_.boost_time_left
      = 600 - 100 :=
  ((C10_boost_timer sampleDecls (samplePolled 6 true 1100) 1 100 rfl (by decide) rfl rfl
    (by decide) (by decide) (by decide)).1 (by decide)).1

/-! ### Lemmas on `notify_state_` -/

theorem boost_cancel_frame (d : Decls) (a : Api) (ext_call : Option TionStateCall) :
    (boost_cancel_ d a ext_call).1.state_
      = { a.state_ with
          boost_time_left := (boost_cancel_ d a ext_call).1.state_.boost_time_left } ∧
    (boost_cancel_ d a ext_call).1.traits_ = a.traits_ ∧
    (boost_cancel_ d a ext_call).1.active_preset_ = a.active_preset_ ∧
    (boost_cancel_ d a ext_call).1.presets_ = a.presets_ := by
  unfold boost_cancel_
  by_cases h1 : ¬ (a.state_.boost_time_left > 0)
  · rw [if_pos h1]
    exact ⟨rfl, rfl, rfl, rfl⟩
  · rw [if_neg h1]
    by_cases h2 : a.traits_.supports_boost = true
    · rw [if_pos h2]
      exact ⟨rfl, rfl, rfl, rfl⟩
    · rw [if_neg h2]
      exact ⟨rfl, rfl, rfl, rfl⟩

/-- The boost supervision touches the boost timer and the snapshot only. -/
theorem notify_boost_frame (d : Decls) (a : Api) :
    (notify_boost d a).1.state_
      = { a.state_ with boost_time_left := (notify_boost d a).1.state_.boost_time_left } ∧
    (notify_boost d a).1.traits_ = a.traits_ ∧
    (notify_boost d a).1.active_preset_ = a.active_preset_ ∧
    (notify_boost d a).1.presets_ = a.presets_ := by
  unfold notify_boost
  by_cases h1 : a.state_.boost_time_left > 0
  · rw [if_pos h1]
    by_cases h2 : a.state_.fan_speed ≠ a.traits_.max_fan_speed ∨ ¬ a.state_.power_state = true
    · rw [if_pos h2]
      exact boost_cancel_frame d (boost_save_state_ a _) _
    · rw [if_neg h2]
      by_cases h3 : ¬ a.traits_.supports_boost = true
      · rw [if_pos h3]
        dsimp only
        split
        · exact ⟨rfl, rfl, rfl, rfl⟩
        · exact boost_cancel_frame d a _
      · rw [if_neg h3]
        exact ⟨rfl, rfl, rfl, rfl⟩
  · rw [if_neg h1]
    exact ⟨rfl, rfl, rfl, rfl⟩

theorem notify_boost_idle (d : Decls) (a : Api) (h : a.state_.boost_time_left = 0) :
    notify_boost d a = (a, none, []) := by
  simp [notify_boost, h]

theorem notify_state_api (d : Decls) (a : Api) (request_id : Nat) :
    (notify_state_ d a request_id).1 = notify_preset d (notify_boost d a).1 := rfl

/-- C11: on a device without native boost, if boost is still active after `notify_state_`
(`boost_time_left` > 0), then the canonical fan speed is `max_fan_speed`, power is on and
`boost_time_left` is at most the boost duration. -/
theorem C11_boost_active_after_poll (d : Decls) (a : Api) (request_id : Nat)
    (hnb : a.traits_.supports_boost = false)
    (h : 0 < (notify_state_ d a request_id).1.state_.boost_time_left) :
    (notify_state_ d a request_id).1.state_.fan_speed
      = (notify_state_ d a request_id).1.traits_.max_fan_speed ∧
    (notify_state_ d a request_id).1.state_.power_state = true ∧
    (notify_state_ d a request_id).1.state_.boost_time_left
      ≤ (notify_state_ d a request_id).1.traits_.boost_time := by
  rw [notify_state_api, notify_preset_state, notify_preset_traits] at *
  by_cases hb : 0 < a.state_.boost_time_left
  · by_cases hc : a.state_.fan_speed ≠ a.traits_.max_fan_speed ∨ a.state_.power_state = false
    · rw [notify_boost_user_action d a hnb hb hc] at h
      exact absurd h (by simp)
    · have hfan : a.state_.fan_speed = a.traits_.max_fan_speed := by
        by_contra hne; exact hc (Or.inl hne)
      have hp : a.state_.power_state = true := by
        cases hpw : a.state_.power_state
        · exact absurd (Or.inr hpw) hc
        · rfl
      have hn := notify_boost_timer d a _ hnb hb hfan hp rfl
      rw [hn] at h ⊢
      split
      · rename_i hlt
        exact ⟨hfan, hp, Nat.sub_le _ _⟩
      · rename_i hge
        rw [if_neg hge] at h
        exact absurd h (by simp)
  · have h0 : a.state_.boost_time_left = 0 := by omega
    rw [notify_boost_idle d a h0] at h
    simp only [h0] at h
    omega

/-- C11 at the boosted sample engine, 100 s into a boost of 600 s. -/
theorem C11_boost_active_witness :
    (notify_state_ sampleDecls (samplePolled 6 true 1100) 1).1.state_.fan_speed = 6 ∧
    (notify_state_ sampleDecls (samplePolled 6 true 1100) 1).1.state_.power_state = true ∧
    (notify_state_ sampleDecls (samplePolled 6 true 1100) 1).1.state_.boost_time_left ≤ 600 :=
  C11_boost_active_after_poll sampleDecls (samplePolled 6 true 1100) 1 rfl (by decide)

/-- C12, as stated, fails: boost is enabled on a state with target temperature 0 (the boost
sets it to 22) and cancelled at once; the restoring change-set leaves the target temperature
unset instead of setting it to 0. -/
theorem C12_counterexample_zero_target_not_restored :
    sampleApiTarget0.state_.target_temperature = 0 ∧
    (enable_boost sampleDecls sampleApiTarget0 true none).2.2
      = [Effect.write_state
          { fan_speed := some 6, power_state := some true, heater_state := none,
            target_temperature := some 22, sound_state := none, led_state := none,
            gate_position := some 1, auto_state := none }] ∧
    (enable_boost sampleDecls (enable_boost sampleDecls sampleApiTarget0 true none).1
        false none).2.2
      = [Effect.write_state
          { fan_speed := some 3, power_state := some true, heater_state := some false,
            target_temperature := none, sound_state := none, led_state := none,
            gate_position := some 1, auto_state := none }] := by
  decide

/-- C12 (amended): on a device without native boost, when `enable_boost(true)` is accepted,
`enable_boost(true)` followed at once by `enable_boost(false)` leaves `boost_time_left` = 0
and performs one change-set that sets power and heater to their values from before boost,
and sets fan speed, target temperature and gate position to their values from before boost
unless that value is 0, 0 or UNKNOWN respectively: such a field is left unset. And
`enable_boost(false)` while boost is not active changes nothing. -/
theorem C12_enable_then_cancel_boost (d : Decls) (a : Api)
    (hnb : a.traits_.supports_boost = false)
    (hinit : d.is_initialized a.state_ a.traits_ = true)
    (hleft : a.state_.boost_time_left = 0)
    (hfan : a.state_.fan_speed ≠ a.traits_.max_fan_speed)
    (htime : a.traits_.boost_time ≠ 0) :
    (enable_boost d (enable_boost d a true none).1 false none).1.state_.boost_time_left = 0 ∧
    (enable_boost d (enable_boost d a true none).1 false none).2.2
      = [Effect.write_state
          { fan_speed := if a.state_.fan_speed ≠ 0 then some a.state_.fan_speed else none,
            power_state := some a.state_.power_state,
            heater_state := some a.state_.heater_state,
            target_temperature := if a.state_.target_temperature ≠ 0
              then some a.state_.target_temperature else none,
            sound_state := none, led_state := none,
            gate_position := if a.state_.gate_position ≠ d.UNKNOWN
              then some a.state_.gate_position else none,
            auto_state := none }] ∧
    (∀ (b : Api) (ext_call : Option TionStateCall), b.state_.boost_time_left = 0 →
      enable_boost d b false ext_call = (b, ext_call, [])) := by
  have e1 : (enable_boost d a true none).1
      = { boost_save_state_ a true with
            state_ := { a.state_ with boost_time_left := a.traits_.boost_time } } := by
    simp only [enable_boost, boost_enable_, hinit, hleft, hfan, htime, hnb]
    simp [boost_save_state_]
  have hpos : 0 < a.traits_.boost_time := Nat.pos_of_ne_zero htime
  refine ⟨?_, ?_, ?_⟩
  · rw [e1]
    simp [enable_boost, boost_cancel_, hpos, hnb, boost_save_state_]
  · rw [e1]
    simp only [enable_boost, boost_cancel_, boost_save_state_, enable_preset_,
      preset_call_empty, hnb, gt_iff_lt, hpos, not_true_eq_false, if_false,
      Bool.false_eq_true]
    cases a.state_.power_state <;> cases a.state_.heater_state <;> simp
  · intro b ext_call hb
    simp [enable_boost, boost_cancel_, hb]

/-- C12 (amended) at the sample engine (fan speed 3, target 20, gate OUTDOOR). -/
theorem C12_enable_then_cancel_witness :
    (enable_boost sampleDecls (enable_boost sampleDecls sampleApi true none).1
        false none).1.state_.boost_time_left = 0 :=
  (C12_enable_then_cancel_boost sampleDecls sampleApi rfl rfl rfl (by decide)
    (by decide)).1

/-- C13: `enable_boost(true)` changes nothing (engine, snapshot and external change-set are
as before, nothing is performed) whenever the state is not initialised, or boost is active,
or the fan is at `max_fan_speed`, or the boost duration is zero. -/
theorem C13_enable_boost_rejected (d : Decls) (a : Api) (ext_call : Option TionStateCall)
    (h : d.is_initialized a.state_ a.traits_ = false ∨ 0 < a.state_.boost_time_left ∨
      a.state_.fan_speed = a.traits_.max_fan_speed ∨ a.traits_.boost_time = 0) :
    enable_boost d a true ext_call = (a, ext_call, []) := by
  simp only [enable_boost, boost_enable_, if_true]
  by_cases h1 : d.is_initialized a.state_ a.traits_ = true
  · by_cases h2 : a.state_.boost_time_left > 0
    · simp [h1, h2]
    · by_cases h3 : a.state_.fan_speed = a.traits_.max_fan_speed
      · simp [h1, h2, h3]
      · by_cases h4 : a.traits_.boost_time = 0
        · simp [h1, h2, h3, h4]
        · rcases h with h | h | h | h
          · rw [h] at h1; exact absurd h1 (by decide)
          · exact absurd h h2
          · exact absurd h h3
          · exact absurd h h4
  · simp [h1]

/-- C13 at the boosted sample engine: a second `enable_boost(true)` is rejected. -/
theorem C13_enable_boost_rejected_witness :
    enable_boost sampleDecls sampleBoosted true (some sampleCallFan7)
      = (sampleBoosted, some sampleCallFan7, []) :=
  C13_enable_boost_rejected sampleDecls sampleBoosted (some sampleCallFan7)
    (Or.inr (Or.inl (by decide)))

/-! ### Lemmas on presets -/

theorem is_preset_modified_raw (d : Decls) (pr : PresetData) (st : TionState) :
    is_preset_modified d pr st = true ↔
      ((pr.power_state ≥ 0 ∧ pr.power_state ≠ (if st.power_state then 1 else 0)) ∨
       (pr.heater_state ≥ 0 ∧ pr.heater_state ≠ (if st.heater_state then 1 else 0)) ∨
       (pr.fan_speed > 0 ∧ pr.fan_speed ≠ st.fan_speed) ∨
       (pr.target_temperature ≠ 0 ∧ pr.target_temperature ≠ st.target_temperature) ∨
       (pr.gate_position ≠ d.NONE ∧ pr.gate_position ≠ st.gate_position)) := by
  unfold is_preset_modified
  by_cases h1 : pr.power_state ≥ 0 ∧ pr.power_state ≠ (if st.power_state then 1 else 0)
  · rw [if_pos h1]
    exact ⟨fun _ => Or.inl h1, fun _ => rfl⟩
  · rw [if_neg h1]
    by_cases h2 : pr.heater_state ≥ 0 ∧ pr.heater_state ≠ (if st.heater_state then 1 else 0)
    · rw [if_pos h2]
      exact ⟨fun _ => Or.inr (Or.inl h2), fun _ => rfl⟩
    · rw [if_neg h2]
      by_cases h3 : pr.fan_speed > 0 ∧ pr.fan_speed ≠ st.fan_speed
      · rw [if_pos h3]
        exact ⟨fun _ => Or.inr (Or.inr (Or.inl h3)), fun _ => rfl⟩
      · rw [if_neg h3]
        by_cases h4 : pr.target_temperature ≠ 0 ∧
            pr.target_temperature ≠ st.target_temperature
        · rw [if_pos h4]
          exact ⟨fun _ => Or.inr (Or.inr (Or.inr (Or.inl h4))), fun _ => rfl⟩
        · rw [if_neg h4]
          by_cases h5 : pr.gate_position ≠ d.NONE ∧ pr.gate_position ≠ st.gate_position
          · rw [if_pos h5]
            exact ⟨fun _ => Or.inr (Or.inr (Or.inr (Or.inr h5))), fun _ => rfl⟩
          · rw [if_neg h5]
            constructor
            · intro h
              exact absurd h (by decide)
            · intro h
              rcases h with h | h | h | h | h
              · exact absurd h h1
              · exact absurd h h2
              · exact absurd h h3
              · exact absurd h h4
              · exact absurd h h5

theorem tristate_differs (x : Int) (b : Bool) (hx : x = -1 ∨ x = 0 ∨ x = 1) :
    (x ≥ 0 ∧ x ≠ (if b then 1 else 0)) ↔ (x ≠ -1 ∧ decide (x = 1) ≠ b) := by
  rcases hx with h | h | h <;> subst h <;> cases b <;> simp

/-- What the lambda `is_preset_modified` decides, for tri-states in -1, 0, 1: some field that
the preset specifies differs from the state. -/
theorem is_preset_modified_iff (d : Decls) (pr : PresetData) (st : TionState)
    (hp : pr.power_state = -1 ∨ pr.power_state = 0 ∨ pr.power_state = 1)
    (hh : pr.heater_state = -1 ∨ pr.heater_state = 0 ∨ pr.heater_state = 1) :
    is_preset_modified d pr st = true ↔
      ((pr.power_state ≠ -1 ∧ decide (pr.power_state = 1) ≠ st.power_state) ∨
       (pr.heater_state ≠ -1 ∧ decide (pr.heater_state = 1) ≠ st.heater_state) ∨
       (pr.fan_speed ≠ 0 ∧ pr.fan_speed ≠ st.fan_speed) ∨
       (pr.target_temperature ≠ 0 ∧ pr.target_temperature ≠ st.target_temperature) ∨
       (pr.gate_position ≠ d.NONE ∧ pr.gate_position ≠ st.gate_position)) := by
  have hfan : pr.fan_speed > 0 ↔ pr.fan_speed ≠ 0 := Nat.pos_iff_ne_zero
  rw [is_preset_modified_raw, tristate_differs _ _ hp, tristate_differs _ _ hh, hfan]

theorem is_preset_modified_boost_time (d : Decls) (pr : PresetData) (st : TionState)
    (n : Nat) :
    is_preset_modified d pr { st with boost_time_left := n } = is_preset_modified d pr st :=
  rfl

/-- The preset check when the active preset is registered. -/
theorem notify_preset_registered (d : Decls) (a : Api) (pr : PresetData)
    (hact : a.active_preset_ ≠ PRESET_NONE)
    (hreg : presets_find a.presets_ a.active_preset_ = some pr) :
    notify_preset d a
      = if is_preset_modified d pr a.state_ then { a with active_preset_ := PRESET_NONE }
        else a := by
  simp only [notify_preset, hact, ne_eq, not_false_eq_true, if_true, presets_index, hreg]

/-- The preset check of `notify_state_` while a registered preset `pr` is active (tri-states
in -1, 0, 1): the marker becomes `none` if and only if the lambda finds a difference, and the
lambda takes the gate position of the preset as specified when it is not the enumerator
NONE. Otherwise the marker is unchanged. The check changes no field of the canonical state
and no entry of the registry. -/
theorem notify_state_preset_check (d : Decls) (a : Api) (request_id : Nat)
    (pr : PresetData) (hact : a.active_preset_ ≠ PRESET_NONE)
    (hreg : presets_find a.presets_ a.active_preset_ = some pr)
    (hp : pr.power_state = -1 ∨ pr.power_state = 0 ∨ pr.power_state = 1)
    (hh : pr.heater_state = -1 ∨ pr.heater_state = 0 ∨ pr.heater_state = 1) :
    ((notify_state_ d a request_id).1.active_preset_ = PRESET_NONE ↔
      ((pr.power_state ≠ -1 ∧ decide (pr.power_state = 1) ≠ a.state_.power_state) ∨
       (pr.heater_state ≠ -1 ∧ decide (pr.heater_state = 1) ≠ a.state_.heater_state) ∨
       (pr.fan_speed ≠ 0 ∧ pr.fan_speed ≠ a.state_.fan_speed) ∨
       (pr.target_temperature ≠ 0 ∧ pr.target_temperature ≠ a.state_.target_temperature) ∨
       (pr.gate_position ≠ d.NONE ∧ pr.gate_position ≠ a.state_.gate_position))) ∧
    ((notify_state_ d a request_id).1.active_preset_ ≠ PRESET_NONE →
      (notify_state_ d a request_id).1.active_preset_ = a.active_preset_) ∧
    (notify_state_ d a request_id).1.state_ = (notify_boost d a).1.state_ ∧
    (notify_state_ d a request_id).1.presets_ = a.presets_ := by
  obtain ⟨hst, _, hap, hps⟩ := notify_boost_frame d a
  have hact1 : (notify_boost d a).1.active_preset_ ≠ PRESET_NONE := by rw [hap]; exact hact
  have hreg1 : presets_find (notify_boost d a).1.presets_ (notify_boost d a).1.active_preset_
      = some pr := by rw [hap, hps]; exact hreg
  have hmod : is_preset_modified d pr (notify_boost d a).1.state_
      = is_preset_modified d pr a.state_ := by
    rw [hst]; rfl
  rw [notify_state_api, notify_preset_registered d _ pr hact1 hreg1, hmod,
    ← is_preset_modified_iff d pr a.state_ hp hh]
  cases hm : is_preset_modified d pr a.state_
  · simp only [Bool.false_eq_true, if_false, hap, hps, ne_eq, implies_true, and_true,
      iff_false, true_and]
    exact hact
  · simp only [if_true, ne_eq, not_true_eq_false, false_imp_iff, hps, and_self]

/-- C14, the code at the failing input: the preset `eco` sets fan speed 2 and target
temperature 20 and leaves power, heater and gate position unset (UNKNOWN); it is accepted by
`add_preset` and enabled, and `enable_preset` asks for fan speed 2 and target temperature 20
only. The state agrees with it in both fields, yet `notify_state_` clears the marker: the
lambda takes the unset gate position UNKNOWN as specified, because it compares with NONE,
and it differs from the gate position OUTDOOR of the state. -/
theorem C14_unset_gate_preset_cleared :
    sampleDecls.NONE ≠ sampleDecls.UNKNOWN ∧
    presets_find sampleApiEcoEnabled.presets_ "eco" = some samplePresetFan2Target20 ∧
    sampleApiEcoEnabled.active_preset_ = "eco" ∧
    (enable_preset sampleDecls (add_preset sampleDecls sampleApiFan2 "eco"
        samplePresetFan2Target20) "eco" none).2.2
      = [Effect.write_state
          { fan_speed := some 2, power_state := none, heater_state := none,
            target_temperature := some 20, sound_state := none, led_state := none,
            gate_position := none, auto_state := none }] ∧
    sampleApiEcoEnabled.state_.fan_speed = samplePresetFan2Target20.fan_speed ∧
    sampleApiEcoEnabled.state_.target_temperature
      = samplePresetFan2Target20.target_temperature ∧
    samplePresetFan2Target20.power_state = -1 ∧
    samplePresetFan2Target20.heater_state = -1 ∧
    samplePresetFan2Target20.gate_position = sampleDecls.UNKNOWN ∧
    sampleApiEcoEnabled.state_.gate_position = sampleDecls.OUTDOOR ∧
    (notify_state_ sampleDecls sampleApiEcoEnabled 1).1.active_preset_ = PRESET_NONE := by
  decide

/-- Where the two enumerators NONE and UNKNOWN have the same value, the lambda finds a
difference exactly in the fields that `enable_preset_` sets. -/
theorem is_preset_modified_unknown (d : Decls) (pr : PresetData) (st : TionState)
    (hnone : d.NONE = d.UNKNOWN)
    (hp : pr.power_state = -1 ∨ pr.power_state = 0 ∨ pr.power_state = 1)
    (hh : pr.heater_state = -1 ∨ pr.heater_state = 0 ∨ pr.heater_state = 1) :
    is_preset_modified d pr st = true ↔
      ((pr.power_state ≠ -1 ∧ decide (pr.power_state = 1) ≠ st.power_state) ∨
       (pr.heater_state ≠ -1 ∧ decide (pr.heater_state = 1) ≠ st.heater_state) ∨
       (pr.fan_speed ≠ 0 ∧ pr.fan_speed ≠ st.fan_speed) ∨
       (pr.target_temperature ≠ 0 ∧ pr.target_temperature ≠ st.target_temperature) ∨
       (pr.gate_position ≠ d.UNKNOWN ∧ pr.gate_position ≠ st.gate_position)) := by
  rw [is_preset_modified_iff d pr st hp hh, hnone]

/-- What `add_preset` does: the entry is stored exactly when the five tests of the source
pass; the range test on the target temperature is applied to every value, 0 included. -/
theorem add_preset_eq (d : Decls) (a : Api) (name : String) (data : PresetData) :
    add_preset d a name data
      = if name ≠ "" ∧ strcasecmp_eq name.toList PRESET_NONE.toList = false ∧
            preset_no_data d data = false ∧
            a.traits_.min_target_temperature ≤ data.target_temperature ∧
            data.target_temperature ≤ a.traits_.max_target_temperature ∧
            data.fan_speed ≤ a.traits_.max_fan_speed
        then { a with presets_ := presets_insert_or_assign a.presets_ name data }
        else a := by
  unfold add_preset
  by_cases h1 : name = ""
  · rw [if_pos h1, if_neg (fun hc => hc.1 h1)]
  · rw [if_neg h1]
    by_cases h2 : strcasecmp_eq name.toList PRESET_NONE.toList = true
    · rw [if_pos h2, if_neg]
      intro hc
      rw [hc.2.1] at h2
      exact absurd h2 (by decide)
    · rw [if_neg h2]
      by_cases h3 : preset_no_data d data = true
      · rw [if_pos h3, if_neg]
        intro hc
        rw [hc.2.2.1] at h3
        exact absurd h3 (by decide)
      · rw [if_neg h3]
        by_cases h4 : data.target_temperature < a.traits_.min_target_temperature ∨
            data.target_temperature > a.traits_.max_target_temperature
        · rw [if_pos h4, if_neg]
          intro hc
          have h5 := hc.2.2.2.1
          have h6 := hc.2.2.2.2.1
          omega
        · rw [if_neg h4]
          by_cases h5 : data.fan_speed > a.traits_.max_fan_speed
          · rw [if_pos h5, if_neg]
            intro hc
            have h6 := hc.2.2.2.2.2
            omega
          · rw [if_neg h5, if_pos]
            exact ⟨h1, (Bool.not_eq_true _).mp h2, (Bool.not_eq_true _).mp h3, by omega,
              by omega, by omega⟩

/-- C15, the code at the failing input: with target temperature bounds 10..25, the preset
`eco` that sets fan speed 2 and leaves the target temperature unset (0) is not stored,
because the range test is applied to the unset value 0. -/
theorem C15_unset_target_temperature_rejected :
    sampleApi.traits_.min_target_temperature = 10 ∧
    sampleApi.traits_.max_target_temperature = 25 ∧
    samplePresetFan2.fan_speed ≤ sampleApi.traits_.max_fan_speed ∧
    samplePresetFan2.target_temperature = 0 ∧
    add_preset sampleDecls sampleApi "eco" samplePresetFan2 = sampleApi ∧
    presets_find (add_preset sampleDecls sampleApi "eco" samplePresetFan2).presets_ "eco"
      = none := by
  decide

/-- C16, the code at the failing input: `enable_preset` with the name None, which equals the
reserved name ignoring case, stores the name as given; the marker then differs from
`PRESET_NONE`, and the next `notify_state_` takes a preset as active and indexes the registry
with None, which adds an entry under that name. -/
theorem C16_none_variant_kept_as_marker :
    strcasecmp_eq "None".toList PRESET_NONE.toList = true ∧
    (enable_preset sampleDecls sampleApi "None" none).1.active_preset_ = "None" ∧
    (enable_preset sampleDecls sampleApi "None" none).1.active_preset_ ≠ PRESET_NONE ∧
    sampleApi.presets_ = [] ∧
    (notify_state_ sampleDecls (enable_preset sampleDecls sampleApi "None" none).1 1).1.presets_
      = [("None", sampleDecls.preset_default)] := by
  decide

/-- C17: with antifreeze enabled and no boost active, `notify_state_` performs a change-set
exactly when the canonical state has power on, heater off and outdoor temperature below
zero; it is then a single change-set whose only set field is heater = true; in both cases
the subscribers are notified once, after it, with the canonical state and the request id,
and the canonical state is unchanged. -/
theorem C17_reactive_antifreeze (d : Decls) (a : Api) (request_id : Nat)
    (hs : a.traits_.supports_antifrize = true) (hb : a.state_.boost_time_left = 0) :
    (notify_state_ d a request_id).2
      = (if a.state_.power_state = true ∧ a.state_.heater_state = false ∧
            a.state_.outdoor_temperature < 0
          then [Effect.write_state
            { fan_speed := none, power_state := none, heater_state := some true,
              target_temperature := none, sound_state := none, led_state := none,
              gate_position := none, auto_state := none }]
          else []) ++ [Effect.on_state a.state_ request_id] ∧
    (notify_state_ d a request_id).1.state_ = a.state_ := by
  have hn := notify_boost_idle d a hb
  constructor
  · simp only [notify_state_, hn, notify_preset_state, notify_preset_traits, notify_antifrize,
      antifrize_pred, hs, List.nil_append, TionStateCall.empty]
    cases hp : a.state_.power_state <;> cases hh : a.state_.heater_state <;>
      by_cases ho : a.state_.outdoor_temperature < 0 <;> simp [ho]
  · simp only [notify_state_, hn, notify_preset_state]

/-- C17 at the sample engine (power on, heater off, outdoor -5): one heater-on change-set,
then the notification. -/
theorem C17_reactive_antifreeze_witness :
    (notify_state_ sampleDecls sampleApi 7).2
      = [Effect.write_state
          { fan_speed := none, power_state := none, heater_state := some true,
            target_temperature := none, sound_state := none, led_state := none,
            gate_position := none, auto_state := none },
         Effect.on_state sampleState 7] := by
  have h := (C17_reactive_antifreeze sampleDecls sampleApi 7 rfl rfl).1
  rw [h]
  decide

/-! ### Lemmas on the byte reader -/

theorem set_append_cons (pre : List Char) (x : Char) (post : List Char) (c : Char) :
    (pre ++ x :: post).set pre.length c = pre ++ c :: post := by
  induction pre with
  | nil => rfl
  | cons y ys ih => simp [List.set, ih]

theorem getElem?_append_cons (pre : List Char) (x : Char) (post : List Char) :
    (pre ++ x :: post)[pre.length]? = some x := by
  induction pre with
  | nil => simp
  | cons y ys ih => simpa using ih

/-- The loop on a text without line feed that fits: the text is stored from the current
position on, one index after the other. -/
theorem scan_loop_text (l : List Char) : ∀ (io pre post : List Char) (w : List Nat),
    LF ∉ l → pre.length + l.length ≤ BUF_SIZE - 1 → l.length ≤ post.length →
    scan_loop (l ++ io) pre.length (pre ++ post) w
      = scan_loop io (pre.length + l.length) (pre ++ l ++ post.drop l.length)
          (w ++ List.range' pre.length l.length) := by
  induction l with
  | nil =>
    intro io pre post w _ _ _
    simp
  | cons c l ih =>
    intro io pre post w hlf hlen hpost
    cases post with
    | nil => simp at hpost
    | cons x post =>
      have hc : ¬ c = LF := fun h => hlf (by rw [h]; exact List.mem_cons_self _ _)
      have hl : LF ∉ l := fun h => hlf (List.mem_cons_of_mem _ h)
      have hi : pre.length < BUF_SIZE - 1 := by simp only [List.length_cons] at hlen; omega
      simp only [List.cons_append, scan_loop, hi, if_true, hc, if_false, set_append_cons]
      have := ih io (pre ++ [c]) post (w ++ [pre.length]) hl
        (by simp only [List.length_append, List.length_cons, List.length_nil] at hlen ⊢; omega)
        (by simpa using hpost)
      simp only [List.length_append, List.length_cons, List.length_nil, List.append_assoc,
        List.singleton_append, zero_add] at this
      have e : l.append io = l ++ io := rfl
      rw [e, this]
      simp only [List.length_cons, List.drop_succ_cons, List.append_assoc, List.cons_append,
        List.range'_succ, List.singleton_append, List.nil_append]
      congr 1
      omega

theorem drop_cons_of_lt (buf : List Char) (n : Nat) (h : n < buf.length) :
    ∃ x, buf.drop n = x :: buf.drop (n + 1) := by
  induction buf generalizing n with
  | nil => simp at h
  | cons b bs ih =>
    cases n with
    | zero => exact ⟨b, rfl⟩
    | succ m =>
      simp only [List.length_cons] at h
      obtain ⟨x, hx⟩ := ih m (by omega)
      exact ⟨x, by simpa using hx⟩

/-- The loop on a text `pre ++ [y]` without line feed that is followed by a line feed: the
terminator replaces the last character `y` when it is a carriage return, and the line feed
otherwise. -/
theorem scan_loop_line (pre : List Char) (y : Char) (rest buf : List Char)
    (hbuf : buf.length = BUF_SIZE) (hlf : LF ∉ pre) (hy : y ≠ LF)
    (hlen : pre.length + 2 ≤ BUF_SIZE - 1) :
    scan_loop (pre ++ y :: LF :: rest) 0 buf []
      = if y = CR then
          { buf := pre ++ NUL :: LF :: buf.drop (pre.length + 2), io := rest,
            stop := ScanStop.newline (pre.length + 1),
            written := List.range' 0 (pre.length + 1) ++ [pre.length + 1, pre.length] }
        else
          { buf := pre ++ y :: NUL :: buf.drop (pre.length + 2), io := rest,
            stop := ScanStop.newline (pre.length + 1),
            written := List.range' 0 (pre.length + 1) ++ [pre.length + 1, pre.length + 1] } := by
  have hlf1 : LF ∉ pre ++ [y] := by
    intro h
    rcases List.mem_append.1 h with h | h
    · exact hlf h
    · simp at h; exact hy h.symm
  have h1 := scan_loop_text (pre ++ [y]) (LF :: rest) [] buf [] hlf1
    (by simp only [List.length_nil, List.length_append, List.length_cons]; omega)
    (by simp only [List.length_append, List.length_cons, List.length_nil, hbuf, BUF_SIZE]
        simp only [BUF_SIZE] at hlen; omega)
  simp only [List.append_assoc, List.singleton_append, List.length_nil, zero_add,
    List.nil_append, List.length_append, List.length_cons] at h1
  obtain ⟨x, hx⟩ := drop_cons_of_lt buf (pre.length + 1)
    (by rw [hbuf]; simp only [BUF_SIZE] at hlen ⊢; omega)
  rw [h1, hx]
  have hi : pre.length + 1 < BUF_SIZE - 1 := by omega
  have e1 : (pre ++ y :: x :: buf.drop (pre.length + 1 + 1)).set (pre.length + 1) LF
      = pre ++ y :: LF :: buf.drop (pre.length + 1 + 1) := by
    simp
  have e2 : (pre ++ y :: LF :: buf.drop (pre.length + 1 + 1))[pre.length]? = some y :=
    getElem?_append_cons pre y _
  have e3 : (pre ++ y :: LF :: buf.drop (pre.length + 1 + 1)).set pre.length NUL
      = pre ++ NUL :: LF :: buf.drop (pre.length + 1 + 1) := set_append_cons pre y _ NUL
  have e4 : (pre ++ y :: LF :: buf.drop (pre.length + 1 + 1)).set (pre.length + 1) NUL
      = pre ++ y :: NUL :: buf.drop (pre.length + 1 + 1) := by
    simp
  simp only [scan_loop, hi, if_true, e1, Nat.add_sub_cancel, e2, Option.some.injEq, e3, e4,
    gt_iff_lt, Nat.zero_lt_succ, true_and]

theorem cstr_idem (s : List Char) : cstr (cstr s) = cstr s := by
  unfold cstr
  induction s with
  | nil => rfl
  | cons c cs ih =>
    by_cases h : (c.toNat != 0) = true
    · simp [List.takeWhile_cons, h, ih]
    · simp [List.takeWhile_cons, h]

/-- The dispatch reads the C string of the buffer only. -/
theorem parse_line_cstr (k : LtConsts) (busy : Nat) (t : TData) (buf : List Char) :
    parse_line k busy t buf = parse_line k busy t (cstr buf) := by
  unfold parse_line
  rw [cstr_idem]

theorem cstr_terminated (l tail : List Char) (h : noNul l) : cstr (l ++ NUL :: tail) = l := by
  rw [cstr_append l _ h]
  simp [cstr, NUL]

/-- The part of `read_frame_` after the loop, when the loop has left a terminated text
without NUL in the buffer: the text is dispatched. -/
theorem read_frame_of_scan (k : LtConsts) (p : Proto) (buf_ io l tail rest : List Char)
    (n : Nat) (w : List Nat) (hne : l ≠ []) (hnul : noNul l)
    (hs : scan_loop io 0 buf_ []
      = { buf := l ++ NUL :: tail, io := rest, stop := ScanStop.newline n, written := w }) :
    read_frame_ k p buf_ io
      = (parse_line k p.busy_ p.t_data l).map (fun r =>
          { proto := { p with t_data := r.1 }, buf_ := reset_buf_, io := rest, frame := r.2,
            dispatched := some l, written := w }) := by
  have h0 : ¬ (l ++ NUL :: tail)[0]? = some NUL := by
    cases l with
    | nil => exact absurd rfl hne
    | cons c cs =>
      have hc := hnul c (List.mem_cons_self _ _)
      intro h
      simp only [List.cons_append, List.getElem?_cons_zero, Option.some.injEq] at h
      rw [h] at hc
      exact absurd hc (by decide)
  unfold read_frame_
  simp only [hs, h0, if_false]
  rw [parse_line_cstr, cstr_terminated l tail hnul]
  cases parse_line k p.busy_ p.t_data l <;> rfl

/-- The loop on 44 bytes without line feed: it stops at `end` with the 44 bytes consumed. -/
theorem scan_loop_full (io buf : List Char) (hbuf : buf.length = BUF_SIZE)
    (hlen : BUF_SIZE - 1 ≤ io.length) (hlf : LF ∉ io.take (BUF_SIZE - 1)) :
    (scan_loop io 0 buf []).stop = ScanStop.full ∧
    (scan_loop io 0 buf []).io = io.drop (BUF_SIZE - 1) ∧
    (scan_loop io 0 buf []).written = List.range' 0 (BUF_SIZE - 1) := by
  have hl : (io.take (BUF_SIZE - 1)).length = BUF_SIZE - 1 := by
    rw [List.length_take]; omega
  have h1 := scan_loop_text (io.take (BUF_SIZE - 1)) (io.drop (BUF_SIZE - 1)) [] buf [] hlf
    (by rw [hl]; simp) (by rw [hl, hbuf]; simp [BUF_SIZE])
  rw [List.take_append_drop] at h1
  simp only [List.length_nil, hl, zero_add, List.nil_append] at h1
  rw [h1]
  cases io.drop (BUF_SIZE - 1) with
  | nil => simp [scan_loop]
  | cons c cs => simp [scan_loop]

/-- C18, as stated, fails: a status line of 45 bytes with its terminator (43 characters, CR,
LF) is not delivered. The activation consumes 44 bytes, dispatches nothing and leaves the
mirror as it was; the line feed stays in the source. -/
theorem C18_counterexample_line_of_45_bytes_dropped :
    sampleLine45.length = 45 ∧
    read_frame_ sampleConsts { t_data := TData.init, busy_ := 0 } reset_buf_ sampleLine45
      = some { proto := { t_data := TData.init, busy_ := 0 }, buf_ := reset_buf_, io := [LF],
               frame := none, dispatched := none, written := List.range' 0 44 } := by
  decide

/-- C18 (amended): with the buffer of 45 bytes, every non-empty line of text without NUL
whose total length with its terminator is at most 44 bytes is handed to the dispatch complete
and without its terminator, be the terminator CR LF or LF (the text before a lone LF not
ending in CR); the bytes after the line stay in the source. A line whose first 44 bytes hold
no line feed is dropped: the activation consumes these 44 bytes and dispatches nothing. -/
theorem C18_lines_of_at_most_44_bytes_delivered (k : LtConsts) (p : Proto)
    (buf_ l rest : List Char) (hbuf : buf_.length = BUF_SIZE) (hne : l ≠ [])
    (hnul : noNul l) (hlf : LF ∉ l) :
    (l.length + 2 ≤ 44 →
      read_frame_ k p buf_ (l ++ CR :: LF :: rest)
        = (parse_line k p.busy_ p.t_data l).map (fun r =>
            { proto := { p with t_data := r.1 }, buf_ := reset_buf_, io := rest,
              frame := r.2, dispatched := some l,
              written := List.range' 0 (l.length + 1) ++ [l.length + 1, l.length] })) ∧
    (l.length + 1 ≤ 44 → l.getLast? ≠ some CR →
      read_frame_ k p buf_ (l ++ LF :: rest)
        = (parse_line k p.busy_ p.t_data l).map (fun r =>
            { proto := { p with t_data := r.1 }, buf_ := reset_buf_, io := rest,
              frame := r.2, dispatched := some l,
              written := List.range' 0 l.length ++ [l.length, l.length] })) ∧
    (∀ io : List Char, 44 ≤ io.length → LF ∉ io.take 44 →
      read_frame_ k p buf_ io
        = some { proto := p, buf_ := reset_buf_, io := io.drop 44, frame := none,
                 dispatched := none, written := List.range' 0 44 }) := by
  refine ⟨?_, ?_, ?_⟩
  · intro hlen
    have hs := scan_loop_line l CR rest buf_ hbuf hlf (by decide)
      (by simp only [BUF_SIZE]; omega)
    rw [if_pos rfl] at hs
    exact read_frame_of_scan k p buf_ _ l _ rest _ _ hne hnul hs
  · intro hlen hlast
    rcases List.eq_nil_or_concat l with h | ⟨l0, y, h⟩
    · exact absurd h hne
    · rw [List.concat_eq_append] at h
      subst h
      have hy : y ≠ LF := fun hc => hlf (by rw [hc]; simp)
      have hl0 : LF ∉ l0 := fun hc => hlf (List.mem_append_left _ hc)
      have hcr : ¬ y = CR := by
        intro hc
        apply hlast
        rw [hc]
        simp
      have hs := scan_loop_line l0 y rest buf_ hbuf hl0 hy
        (by simp only [List.length_append, List.length_cons, List.length_nil] at hlen
            simp only [BUF_SIZE]; omega)
      rw [if_neg hcr] at hs
      have e1 : l0 ++ y :: LF :: rest = (l0 ++ [y]) ++ LF :: rest := by simp
      have e2 : l0 ++ y :: NUL :: buf_.drop (l0.length + 2)
          = (l0 ++ [y]) ++ NUL :: buf_.drop (l0.length + 2) := by simp
      rw [e1, e2] at hs
      have := read_frame_of_scan k p buf_ _ (l0 ++ [y]) _ rest _ _ hne hnul hs
      simpa using this
  · intro io hlen hno
    obtain ⟨h1, h2, h3⟩ := scan_loop_full io buf_ hbuf (by simpa [BUF_SIZE] using hlen)
      (by simpa [BUF_SIZE] using hno)
    unfold read_frame_
    simp only [h1, h2, h3, BUF_SIZE]

/-- C18 (amended) at a sample: the line `Speed: 3` with CR LF, followed by other bytes. -/
theorem C18_lines_delivered_witness :
    read_frame_ sampleConsts { t_data := TData.init, busy_ := 0 } reset_buf_
        ("Speed: 3".toList ++ CR :: LF :: "Sens".toList)
      = (parse_line sampleConsts 0 TData.init "Speed: 3".toList).map (fun r =>
          { proto := { t_data := r.1, busy_ := 0 }, buf_ := reset_buf_, io := "Sens".toList,
            frame := r.2, dispatched := some "Speed: 3".toList,
            written := List.range' 0 9 ++ [9, 8] }) :=
  (C18_lines_of_at_most_44_bytes_delivered sampleConsts { t_data := TData.init, busy_ := 0 }
    reset_buf_ "Speed: 3".toList "Sens".toList rfl (by decide) (by unfold noNul; decide)
    (by decide)).1 (by decide)

/-- Every index the loop writes is below `BUF_SIZE - 1`. -/
theorem scan_loop_written (io : List Char) : ∀ (i : Nat) (buf : List Char) (w : List Nat)
    (j : Nat), j ∈ (scan_loop io i buf w).written → j ∈ w ∨ j < BUF_SIZE - 1 := by
  induction io with
  | nil =>
    intro i buf w j hj
    simp only [scan_loop] at hj
    split at hj <;> exact Or.inl hj
  | cons c rest ih =>
    intro i buf w j hj
    simp only [scan_loop] at hj
    by_cases hi : i < BUF_SIZE - 1
    · simp only [hi, if_true] at hj
      by_cases hc : c = LF
      · simp only [hc, if_true] at hj
        split at hj
        · simp only [List.mem_append, List.mem_cons, List.mem_singleton, List.mem_nil_iff,
            or_false] at hj
          rcases hj with h | h | h
          · exact Or.inl h
          · exact Or.inr (by omega)
          · exact Or.inr (by omega)
        · simp only [List.mem_append, List.mem_cons, List.mem_singleton, List.mem_nil_iff,
            or_false, or_self] at hj
          rcases hj with h | h
          · exact Or.inl h
          · exact Or.inr (by omega)
      · simp only [hc, if_false] at hj
        rcases ih _ _ _ j hj with h | h
        · simp only [List.mem_append, List.mem_singleton] at h
          rcases h with h | h
          · exact Or.inl h
          · exact Or.inr (by omega)
        · exact Or.inr h
    · simp only [hi, if_false] at hj
      exact Or.inl hj

/-- The loop consumes at most the bytes that fit before `end`, and without a line feed among
them it ends on a failed read or at `end`. -/
theorem scan_loop_consumed (io : List Char) : ∀ (i : Nat) (buf : List Char) (w : List Nat),
    ∃ n, n ≤ BUF_SIZE - 1 - i ∧ (scan_loop io i buf w).io = io.drop n ∧
      (LF ∉ io.take n → (scan_loop io i buf w).stop = ScanStop.failed ∨
        (scan_loop io i buf w).stop = ScanStop.full) := by
  induction io with
  | nil =>
    intro i buf w
    refine ⟨0, Nat.zero_le _, ?_, ?_⟩
    · simp only [scan_loop]
      split <;> rfl
    · intro _
      simp only [scan_loop]
      split
      · exact Or.inl rfl
      · exact Or.inr rfl
  | cons c rest ih =>
    intro i buf w
    by_cases hi : i < BUF_SIZE - 1
    · by_cases hc : c = LF
      · refine ⟨1, by omega, ?_, ?_⟩
        · simp only [scan_loop, hi, if_true, hc]
          split <;> rfl
        · intro h
          exact absurd (by simp [hc]) h
      · obtain ⟨n, hn, hio, hstop⟩ := ih (i + 1) (buf.set i c) (w ++ [i])
        refine ⟨n + 1, by omega, ?_, ?_⟩
        · simp only [scan_loop, hi, if_true, hc, if_false, List.drop_succ_cons]
          exact hio
        · intro h
          simp only [scan_loop, hi, if_true, hc, if_false]
          apply hstop
          intro hmem
          exact h (by simp [List.take_succ_cons, hmem])
    · refine ⟨0, Nat.zero_le _, ?_, ?_⟩
      · simp only [scan_loop, hi, if_false, List.drop_zero]
      · intro _
        simp [scan_loop, hi]

/-- What `read_frame_` reports of the loop: the indices written, the bytes left and the
reset buffer. -/
theorem read_frame_of_loop (k : LtConsts) (p : Proto) (buf_ io : List Char) (out : ReadOut)
    (h : read_frame_ k p buf_ io = some out) :
    out.written = (scan_loop io 0 buf_ []).written ∧
    out.io = (scan_loop io 0 buf_ []).io ∧ out.buf_ = reset_buf_ := by
  unfold read_frame_ at h
  dsimp only at h
  generalize scan_loop io 0 buf_ [] = s at h ⊢
  cases hstop : s.stop with
  | failed =>
    simp only [hstop, Option.some.injEq] at h
    subst h
    exact ⟨rfl, rfl, rfl⟩
  | full =>
    simp only [hstop, Option.some.injEq] at h
    subst h
    exact ⟨rfl, rfl, rfl⟩
  | newline n =>
    simp only [hstop] at h
    by_cases h0 : s.buf[0]? = some NUL
    · simp only [h0, if_true, Option.some.injEq] at h
      subst h
      exact ⟨rfl, rfl, rfl⟩
    · simp only [h0, if_false] at h
      cases hp : parse_line k p.busy_ p.t_data s.buf with
      | none => simp [hp] at h
      | some r =>
        simp only [hp, Option.some.injEq] at h
        subst h
        exact ⟨rfl, rfl, rfl⟩

/-- C19: for any bytes in the source, the loop of one activation of `read_frame_` writes
buffer indices below 44 only (0..43 of the 45-byte buffer) and consumes at most 44 bytes;
if no consumed byte is a line feed, nothing is dispatched: the mirror is unchanged, no frame
is emitted and the buffer is reset. Whatever the activation returns carries the written
indices and the remaining bytes of the loop, and the reset buffer. -/
theorem C19_one_activation_is_bounded (k : LtConsts) (p : Proto) (buf_ io : List Char) :
    (∀ j ∈ (scan_loop io 0 buf_ []).written, j < BUF_SIZE - 1) ∧
    (∃ n, n ≤ 44 ∧ (scan_loop io 0 buf_ []).io = io.drop n ∧
      (LF ∉ io.take n →
        read_frame_ k p buf_ io
          = some { proto := p, buf_ := reset_buf_, io := io.drop n, frame := none,
                   dispatched := none, written := (scan_loop io 0 buf_ []).written })) ∧
    (∀ out, read_frame_ k p buf_ io = some out →
      out.written = (scan_loop io 0 buf_ []).written ∧
      out.io = (scan_loop io 0 buf_ []).io ∧ out.buf_ = reset_buf_) := by
  refine ⟨?_, ?_, ?_⟩
  · intro j hj
    rcases scan_loop_written io 0 buf_ [] j hj with h | h
    · simp at h
    · exact h
  · obtain ⟨n, hn, hio, hstop⟩ := scan_loop_consumed io 0 buf_ []
    refine ⟨n, by simpa [BUF_SIZE] using hn, hio, ?_⟩
    intro hlf
    unfold read_frame_
    rcases hstop hlf with h | h
    · simp only [h, hio]
    · simp only [h, hio]
  · intro out h
    exact read_frame_of_loop k p buf_ io out h

/-! ### Lemmas on the `Sensors` line -/

theorem takeSign_other (c : Char) (cs : List Char) (h1 : c ≠ '-') (h2 : c ≠ '+') :
    takeSign (c :: cs) = (false, c :: cs) := by
  unfold takeSign
  split
  · rename_i t heq
    simp only [List.cons.injEq] at heq
    exact absurd heq.1 h1
  · rename_i t heq
    simp only [List.cons.injEq] at heq
    exact absurd heq.1 h2
  · rfl

/-- Without a number ahead `strtol` yields 0 and leaves `end` at the start. -/
theorem strtol_noNumberAhead (x : List Char) (h : noNumberAhead x) : strtol x = (0, x) := by
  cases x with
  | nil => rfl
  | cons c cs =>
    obtain ⟨hd, hs, hm, hp⟩ := h c rfl
    have e1 : (c :: cs).dropWhile isspace = c :: cs := by
      simp [List.dropWhile_cons, hs]
    have e2 : (c :: cs).takeWhile (isDigitIn 10) = [] := by
      simp [List.takeWhile_cons, hd]
    simp only [strtol, e1, takeSign_other c cs hm hp, e2, List.isEmpty_nil, if_true]

theorem skipLit_some (p : List Char) : ∀ (s r : List Char), skipLit p s = some r →
    s = p ++ r := by
  induction p with
  | nil =>
    intro s r h
    cases s <;> simp [skipLit] at h <;> simp [h]
  | cons c cs ih =>
    intro s r h
    cases s with
    | nil => simp [skipLit] at h
    | cons x xs =>
      simp only [skipLit] at h
      by_cases hc : c = x
      · simp only [hc, if_true] at h
        rw [hc, ih xs r h]
        rfl
      · simp [hc] at h

theorem skipLit_none (p s : List Char) (h : ∀ r, s ≠ p ++ r) : skipLit p s = none := by
  cases hs : skipLit p s with
  | none => rfl
  | some r => exact absurd (skipLit_some p s r hs) (h r)

theorem noNul_ST_SENS_OUTDOOR_append (r : List Char) (h : noNul (ST_SENS_OUTDOOR ++ r)) :
    noNul r := fun c hc => h c (List.mem_append_right _ hc)

/-- The `Sensors` line with a target temperature `a` in range: what the dispatch computes. -/
theorem parse_sens_line (k : LtConsts) (t : TData) (a : Int) (rest : List Char)
    (ha : -128 ≤ a ∧ a ≤ 127) (hrest : endsNumber rest) (hnul : noNul rest) :
    parse_line k 0 t (ST_SENS ++ (decimalInt a ++ rest))
      = some (match skipLit ST_SENS_OUTDOOR rest with
          | none => { t with target_temperature := a }
          | some s2 =>
            match skipLit ST_SENS_INDOOR (strtol s2).2 with
            | none => { t with target_temperature := a,
                               outdoor_temperature := toI8 (strtol s2).1 }
            | some s3 => { t with target_temperature := a,
                                  outdoor_temperature := toI8 (strtol s2).1,
                                  current_temperature := toI8 (strtol s3).1 }, none) := by
  rw [parse_line_sens, cstr_self _ (noNul_append _ _ (noNul_decimalInt a) hnul)]
  simp only [parseSens, strtol_decimalInt a (long_of_i8 a ha) rest hrest, toI8_id a ha]

/-! ### Reading a number at the head of a text -/

theorem isspace_iff (c : Char) : isspace c = true ↔ whiteSpace c := by
  constructor
  · intro h
    unfold isspace at h
    have hc : c = Char.ofNat c.toNat := (Char.ofNat_toNat c).symm
    simp only [Bool.or_eq_true, beq_iff_eq, Bool.and_eq_true, decide_eq_true_eq] at h
    unfold whiteSpace
    rcases h with h | ⟨h1, h2⟩
    · exact Or.inl (by rw [hc, h])
    · have : c.toNat = 9 ∨ c.toNat = 10 ∨ c.toNat = 11 ∨ c.toNat = 12 ∨ c.toNat = 13 := by
        omega
      rcases this with h | h | h | h | h
      · exact Or.inr (Or.inl (by rw [hc, h]))
      · exact Or.inr (Or.inr (Or.inl (by rw [hc, h])))
      · exact Or.inr (Or.inr (Or.inr (Or.inl (by rw [hc, h]))))
      · exact Or.inr (Or.inr (Or.inr (Or.inr (Or.inl (by rw [hc, h])))))
      · exact Or.inr (Or.inr (Or.inr (Or.inr (Or.inr (by rw [hc, h])))))
  · intro h
    rcases h with h | h | h | h | h | h <;> subst h <;> rfl

theorem isDigitIn_iff (c : Char) : isDigitIn 10 c = true ↔ decimalDigit c := by
  constructor
  · intro h
    unfold isDigitIn digitVal at h
    have hc : c = Char.ofNat c.toNat := (Char.ofNat_toNat c).symm
    dsimp only at h
    split at h
    · rename_i d hd
      split at hd
      · rename_i hr
        refine ⟨c.toNat - 48, by omega, ?_⟩
        have : 48 + (c.toNat - 48) = c.toNat := by omega
        rw [digitChar, this]; exact hc
      · split at hd
        · simp only [Option.some.injEq] at hd
          simp only [decide_eq_true_eq] at h
          omega
        · split at hd
          · simp only [Option.some.injEq] at hd
            simp only [decide_eq_true_eq] at h
            omega
          · simp at hd
    · simp at h
  · rintro ⟨d, hd, rfl⟩
    exact isDigitIn_digitChar d hd

theorem endsNumber_iff (r : List Char) : endsNumber r ↔ noDigitAhead r := by
  unfold endsNumber noDigitAhead
  constructor
  · intro h c hc hd
    have := h c hc
    rw [(isDigitIn_iff c).mpr hd] at this
    exact absurd this (by decide)
  · intro h c hc
    cases hdig : isDigitIn 10 c with
    | false => rfl
    | true => exact absurd ((isDigitIn_iff c).mp hdig) (h c hc)

theorem dropWhile_isspace_append (sp r : List Char) (hsp : ∀ c ∈ sp, whiteSpace c)
    (hr : ∀ c, r.head? = some c → ¬ whiteSpace c) :
    (sp ++ r).dropWhile isspace = r := by
  rw [List.dropWhile_append_of_pos (fun c hc => (isspace_iff c).mpr (hsp c hc))]
  cases r with
  | nil => rfl
  | cons c cs =>
    have : isspace c = false := by
      cases h : isspace c with
      | false => rfl
      | true => exact absurd ((isspace_iff c).mp h) (hr c rfl)
    simp [List.dropWhile_cons, this]

theorem not_whiteSpace_digit (c : Char) (h : decimalDigit c) : ¬ whiteSpace c := by
  obtain ⟨d, hd, rfl⟩ := h
  intro hw
  have : isspace (digitChar d) = true := (isspace_iff _).mpr hw
  have h2 : isspace (digitChar d) = false := by interval_cases d <;> rfl
  rw [h2] at this
  exact absurd this (by decide)

theorem digitsValue_zeros (k : Nat) (ds : List Char) :
    digitsValue 10 (List.replicate k '0' ++ ds) = digitsValue 10 ds := by
  induction k with
  | zero => rfl
  | succ k ih =>
    have : digitsValue 10 (List.replicate (k + 1) '0' ++ ds)
        = digitsValue 10 (List.replicate k '0' ++ ds) := by
      have h1 : ∀ (m : Nat) (l : List Char),
          List.foldl (fun acc c => acc * 10 + (digitVal c).getD 0) 0 (List.replicate m '0' ++ l)
            = List.foldl (fun acc c => acc * 10 + (digitVal c).getD 0) 0 l := by
        intro m l
        induction m with
        | zero => rfl
        | succ m ihm =>
          rw [List.replicate_succ, List.cons_append, List.foldl_cons]
          exact ihm
      unfold digitsValue
      rw [h1, h1]
    rw [this, ih]

/-- The digits of a number text: leading zeros and the decimal text of `n`. -/
theorem digits_of_number (zeros n : Nat) (after : List Char) (h : noDigitAhead after) :
    (List.replicate zeros '0' ++ (decimal n ++ after)).takeWhile (isDigitIn 10)
      = List.replicate zeros '0' ++ decimal n ∧
    (List.replicate zeros '0' ++ (decimal n ++ after)).dropWhile (isDigitIn 10) = after ∧
    digitsValue 10 (List.replicate zeros '0' ++ decimal n) = n ∧
    (List.replicate zeros '0' ++ decimal n).isEmpty = false ∧
    ∃ d cs, d < 10 ∧ List.replicate zeros '0' ++ (decimal n ++ after) = digitChar d :: cs := by
  have hall : ∀ c ∈ List.replicate zeros '0' ++ decimal n, isDigitIn 10 c = true := by
    intro c hc
    rcases List.mem_append.1 hc with h1 | h1
    · rw [List.eq_of_mem_replicate h1]; rfl
    · exact decimal_isDigit n c h1
  have he := (endsNumber_iff after).mpr h
  refine ⟨?_, ?_, ?_, ?_, ?_⟩
  · rw [← List.append_assoc, List.takeWhile_append_of_pos hall,
      takeWhile_digits_endsNumber after he]
    simp
  · rw [← List.append_assoc, List.dropWhile_append_of_pos hall,
      dropWhile_digits_endsNumber after he]
  · rw [digitsValue_zeros, digitsValue_decimal]
  · obtain ⟨d, cs, _, hdec⟩ := decimal_head n
    rw [hdec]
    cases zeros <;> rfl
  · cases zeros with
    | zero =>
      obtain ⟨d, cs, hd, hdec⟩ := decimal_head n
      exact ⟨d, cs ++ after, hd, by rw [hdec]; rfl⟩
    | succ z => exact ⟨0, _, by decide, rfl⟩

/-- The function `strtol` on a text at whose head a number stands. -/
theorem strtol_NumberAt (x : List Char) (v : Int) (after : List Char)
    (h : NumberAt x v after) : strtol x = (v, after) := by
  obtain ⟨sp, sg, zeros, n, rfl, hsp, hafter, rfl⟩ := h
  obtain ⟨h1, h2, h3, h4, d, cs, hd, hhead⟩ := digits_of_number zeros n after hafter
  have hdrop : (sp ++ (sg.text ++ (List.replicate zeros '0' ++ (decimal n ++ after)))).dropWhile
      isspace = sg.text ++ (List.replicate zeros '0' ++ (decimal n ++ after)) := by
    apply dropWhile_isspace_append _ _ hsp
    intro c hc
    cases sg with
    | absent =>
      rw [hhead] at hc
      simp only [Sign.text, List.nil_append, List.head?_cons, Option.some.injEq] at hc
      exact not_whiteSpace_digit c ⟨d, hd, hc.symm⟩
    | plus =>
      simp only [Sign.text, List.cons_append, List.head?_cons, Option.some.injEq] at hc
      rw [← hc]; intro hw
      exact absurd ((isspace_iff _).mpr hw) (by decide)
    | minus =>
      simp only [Sign.text, List.cons_append, List.head?_cons, Option.some.injEq] at hc
      rw [← hc]; intro hw
      exact absurd ((isspace_iff _).mpr hw) (by decide)
  have hsign : takeSign (sg.text ++ (List.replicate zeros '0' ++ (decimal n ++ after)))
      = (decide (sg = Sign.minus), List.replicate zeros '0' ++ (decimal n ++ after)) := by
    cases sg with
    | absent =>
      rw [hhead]
      exact takeSign_digit d hd cs
    | plus => rfl
    | minus => rfl
  unfold strtol
  simp only [hdrop, hsign, h1, h2, h3, h4]
  cases sg <;> simp [Sign.value, LONG_MIN, LONG_MAX]

/-- The function `strtol` on a text at whose head no number stands. -/
theorem strtol_NoNumberAt (x : List Char) (h : NoNumberAt x) : strtol x = (0, x) := by
  obtain ⟨sp, sg, r, rfl, hsp, hr, hsg⟩ := h
  have hdrop : (sp ++ (sg.text ++ r)).dropWhile isspace = sg.text ++ r := by
    apply dropWhile_isspace_append _ _ hsp
    intro c hc
    cases sg with
    | absent =>
      simp only [Sign.text, List.nil_append] at hc
      exact (hsg rfl c hc).1
    | plus =>
      simp only [Sign.text, List.cons_append, List.head?_cons, Option.some.injEq] at hc
      rw [← hc]; intro hw
      exact absurd ((isspace_iff _).mpr hw) (by decide)
    | minus =>
      simp only [Sign.text, List.cons_append, List.head?_cons, Option.some.injEq] at hc
      rw [← hc]; intro hw
      exact absurd ((isspace_iff _).mpr hw) (by decide)
  have hsign : (takeSign (sg.text ++ r)).2 = r := by
    cases sg with
    | absent =>
      simp only [Sign.text, List.nil_append]
      cases r with
      | nil => rfl
      | cons c cs =>
        have := hsg rfl c rfl
        rw [takeSign_other c cs this.2.2 this.2.1]
    | plus => rfl
    | minus => rfl
  have htake : r.takeWhile (isDigitIn 10) = [] :=
    takeWhile_digits_endsNumber r ((endsNumber_iff r).mpr hr)
  unfold strtol
  simp only [hdrop, hsign, htake, List.isEmpty_nil, if_true]

/-- Every non-empty run of digits is leading zeros followed by the decimal text of a
number. -/
theorem digit_run (ds : List Char) : (∀ c ∈ ds, decimalDigit c) → ds ≠ [] →
    ∃ k n, ds = List.replicate k '0' ++ decimal n := by
  induction ds using List.reverseRecOn with
  | nil => intro _ h; exact absurd rfl h
  | append_singleton l c ih =>
    intro hall _
    obtain ⟨d, hd, rfl⟩ := hall c (by simp)
    by_cases hl : l = []
    · subst hl
      refine ⟨0, d, ?_⟩
      rw [decimal_unfold, if_pos hd]
      rfl
    · obtain ⟨k, n, hkn⟩ := ih (fun c hc => hall c (List.mem_append_left _ hc)) hl
      by_cases hn : n = 0
      · subst hn
        refine ⟨k + 1, d, ?_⟩
        have h0 : decimal 0 = ['0'] := rfl
        rw [hkn, h0, decimal_unfold d, if_pos hd, List.replicate_succ', List.append_assoc]
      · refine ⟨k, 10 * n + d, ?_⟩
        have h10 : ¬ 10 * n + d < 10 := by omega
        have hq : (10 * n + d) / 10 = n := by omega
        have hm : (10 * n + d) % 10 = d := by omega
        rw [hkn, decimal_unfold (10 * n + d), if_neg h10, hq, hm, List.append_assoc]

/-- Every text is a run of digits followed by a text that does not begin with a digit. -/
theorem split_digits (z : List Char) :
    ∃ ds after, z = ds ++ after ∧ (∀ c ∈ ds, decimalDigit c) ∧ noDigitAhead after := by
  refine ⟨z.takeWhile (isDigitIn 10), z.dropWhile (isDigitIn 10),
    (List.takeWhile_append_dropWhile _ z).symm, ?_, ?_⟩
  · intro c hc
    exact (isDigitIn_iff c).mp (List.mem_takeWhile_imp hc)
  · intro c hc hd
    have h1 : (z.dropWhile (isDigitIn 10)).head? = some c := hc
    have := List.head?_dropWhile_not (isDigitIn 10) z
    rw [h1] at this
    simp only [Option.all_some, Bool.not_eq_true'] at this
    rw [(isDigitIn_iff c).mpr hd] at this
    exact absurd this (by decide)

/-- What stands behind an optional sign: a number or no number. -/
theorem reads_after_sign (sp : List Char) (sg : Sign) (z : List Char)
    (hsp : ∀ c ∈ sp, whiteSpace c)
    (hsg : sg = Sign.absent → ∀ c, z.head? = some c → ¬ whiteSpace c ∧ c ≠ '+' ∧ c ≠ '-') :
    ∃ v after, ReadsInt (sp ++ (sg.text ++ z)) v after := by
  obtain ⟨ds, after, rfl, hds, hafter⟩ := split_digits z
  by_cases hne : ds = []
  · subst hne
    exact ⟨0, _, Or.inr ⟨⟨sp, sg, after, rfl, hsp, hafter, hsg⟩, rfl, rfl⟩⟩
  · obtain ⟨k, n, rfl⟩ := digit_run ds hds hne
    exact ⟨sg.value n, after, Or.inl ⟨sp, sg, k, n, by rw [List.append_assoc], hsp, hafter, rfl⟩⟩

/-- Every text reads as a number with the text after it, or as no number. -/
theorem readsInt_total (x : List Char) : ∃ v after, ReadsInt x v after := by
  have key : ∃ sp y, x = sp ++ y ∧ (∀ c ∈ sp, whiteSpace c) ∧
      (∀ c, y.head? = some c → ¬ whiteSpace c) := by
    refine ⟨x.takeWhile isspace, x.dropWhile isspace,
      (List.takeWhile_append_dropWhile _ x).symm,
      fun c hc => (isspace_iff c).mp (List.mem_takeWhile_imp hc), ?_⟩
    intro c hc hw
    have := List.head?_dropWhile_not isspace x
    rw [hc] at this
    simp only [Option.all_some, Bool.not_eq_true'] at this
    rw [(isspace_iff c).mpr hw] at this
    exact absurd this (by decide)
  obtain ⟨sp, y, rfl, hsp, hhead⟩ := key
  cases y with
  | nil =>
    exact reads_after_sign sp Sign.absent [] hsp (fun _ c hc => by simp at hc)
  | cons c z =>
    by_cases hm : c = '-'
    · subst hm
      exact reads_after_sign sp Sign.minus z hsp (fun h => by cases h)
    · by_cases hp : c = '+'
      · subst hp
        exact reads_after_sign sp Sign.plus z hsp (fun h => by cases h)
      · refine reads_after_sign sp Sign.absent (c :: z) hsp ?_
        intro _ c1 hc1
        simp only [List.head?_cons, Option.some.injEq] at hc1
        subst hc1
        exact ⟨hhead c rfl, hp, hm⟩

/-- What a text reads as is what `strtol` yields on it. -/
theorem strtol_ReadsInt (x : List Char) (v : Int) (after : List Char)
    (h : ReadsInt x v after) : strtol x = (v, after) := by
  rcases h with h | ⟨h, rfl, rfl⟩
  · exact strtol_NumberAt x v after h
  · exact strtol_NoNumberAt _ h

/-- C20, as stated, fails: in the line `Sensors T_set: 5, T_In: x` no number follows
`, T_In: `, yet the outdoor temperature of the mirror goes from -5 to 0. -/
theorem C20_counterexample_outdoor_zeroed_without_number :
    parse_line sampleConsts 0 { TData.init with outdoor_temperature := -5 }
        "Sensors T_set: 5, T_In: x".toList
      = some ({ TData.init with target_temperature := 5, outdoor_temperature := 0 }, none) := by
  decide

/-- The `Sensors T_set: ` line through `parseSens`. -/
theorem parse_sens_text (k : LtConsts) (t : TData) (x : List Char) (hnul : noNul x) :
    parse_line k 0 t (ST_SENS ++ x) = some (parseSens t x, none) := by
  rw [parse_line_sens, cstr_self x hnul]

/-- C20 (amended): for every line `Sensors T_set: <x>` (`x` without NUL) dispatched with the
busy counter zero, no frame is emitted, and with `v1` the number read at the head of `x` and
`r1` the text after it (`ReadsInt`: white space, an optional sign and digits are a number;
without digits the number is 0 and the text after it is the text itself), the target
temperature becomes `v1` as an `int8_t`. If `r1` does not begin with `, T_In: ` nothing else
changes. If it does, the outdoor temperature becomes the number `v2` read after the literal;
if the text `r2` after that number does not begin with `, T_out: ` nothing else changes; if
it does, the current temperature becomes the number `v3` read after the literal. Every text
reads in one of the two ways. The value of a number `v` as an `int8_t` is
`(v + 128) mod 256 - 128`, which is `v` itself for `v` in -128..127. -/
theorem C20_sensors_chain (k : LtConsts) (t : TData) (x : List Char) (hnul : noNul x)
    (v1 : Int) (r1 : List Char) (h1 : ReadsInt x v1 r1) :
    (parse_line k 0 t (ST_SENS ++ x)).map (fun r => r.2) = some none ∧
    ((∀ y, r1 ≠ ST_SENS_OUTDOOR ++ y) →
      parse_line k 0 t (ST_SENS ++ x)
        = some ({ t with target_temperature := (v1 + 128) % 256 - 128 }, none)) ∧
    (∀ (x2 : List Char) (v2 : Int) (r2 : List Char),
      r1 = ST_SENS_OUTDOOR ++ x2 → ReadsInt x2 v2 r2 →
      ((∀ y, r2 ≠ ST_SENS_INDOOR ++ y) →
        parse_line k 0 t (ST_SENS ++ x)
          = some ({ t with target_temperature := (v1 + 128) % 256 - 128,
                           outdoor_temperature := (v2 + 128) % 256 - 128 }, none)) ∧
      (∀ (x3 : List Char) (v3 : Int) (r3 : List Char),
        r2 = ST_SENS_INDOOR ++ x3 → ReadsInt x3 v3 r3 →
        parse_line k 0 t (ST_SENS ++ x)
          = some ({ t with target_temperature := (v1 + 128) % 256 - 128,
                           outdoor_temperature := (v2 + 128) % 256 - 128,
                           current_temperature := (v3 + 128) % 256 - 128 }, none))) ∧
    (∀ y : List Char, ∃ v after, ReadsInt y v after) ∧
    (∀ v : Int, -128 ≤ v → v ≤ 127 → (v + 128) % 256 - 128 = v) := by
  have hp := parse_sens_text k t x hnul
  have hs1 := strtol_ReadsInt x v1 r1 h1
  refine ⟨by rw [hp]; rfl, ?_, ?_, readsInt_total, fun v ha hb => by omega⟩
  · intro hno
    rw [hp]
    simp only [parseSens, hs1, skipLit_none _ _ hno, toI8]
  · intro x2 v2 r2 hr1 h2
    have hs2 := strtol_ReadsInt x2 v2 r2 h2
    constructor
    · intro hno
      rw [hp]
      simp only [parseSens, hs1, hr1, skipLit_append, hs2, skipLit_none _ _ hno, toI8]
    · intro x3 v3 r3 hr2 h3
      have hs3 := strtol_ReadsInt x3 v3 r3 h3
      rw [hp]
      simp only [parseSens, hs1, hr1, skipLit_append, hs2, hr2, hs3, toI8]

/-- C20 (amended) at two lines. In `Sensors T_set: 5, T_out: 7` the number 5 is read, the
text after it does not begin with `, T_In: `, and only the target temperature changes. In
`Sensors T_set: 5, T_In:  -3, T_out: +007` all three stages match: the numbers read are 5,
-3 (behind white space) and 7 (behind a sign and leading zeros). -/
theorem C20_sensors_chain_witness :
    parse_line sampleConsts 0 TData.init (ST_SENS ++ "5, T_out: 7".toList)
      = some ({ TData.init with target_temperature := 5 }, none) ∧
    parse_line sampleConsts 0 TData.init (ST_SENS ++ "5, T_In:  -3, T_out: +007".toList)
      = some ({ TData.init with target_temperature := 5, outdoor_temperature := -3,
                                current_temperature := 7 }, none) := by
  have h5 : ∀ r : List Char, endsNumber r → ReadsInt ("5".toList ++ r) 5 r := fun r hr =>
    Or.inl ⟨[], Sign.absent, 0, 5, rfl, by simp, (endsNumber_iff r).mp hr, rfl⟩
  have h3 : ReadsInt " -3, T_out: +007".toList (-3) ", T_out: +007".toList :=
    Or.inl ⟨[' '], Sign.minus, 0, 3, by decide, by simp [whiteSpace],
      (endsNumber_iff _).mp (by unfold endsNumber; decide), by decide⟩
  have h7 : ReadsInt "+007".toList 7 [] :=
    Or.inl ⟨[], Sign.plus, 2, 7, by decide, by simp, (endsNumber_iff _).mp endsNumber_nil, rfl⟩
  constructor
  · exact (C20_sensors_chain sampleConsts TData.init "5, T_out: 7".toList
      (by unfold noNul; decide) 5 ", T_out: 7".toList
      (h5 _ (by unfold endsNumber; decide))).2.1
      (by intro r h; exact absurd h (by simp [ST_SENS_OUTDOOR]))
  · have h := ((C20_sensors_chain sampleConsts TData.init "5, T_In:  -3, T_out: +007".toList
      (by unfold noNul; decide) 5 ", T_In:  -3, T_out: +007".toList
      (h5 _ (by unfold endsNumber; decide))).2.2.1
      " -3, T_out: +007".toList (-3) ", T_out: +007".toList (by decide) h3).2
      "+007".toList 7 [] (by decide) h7
    rw [h]
    decide

/-! ### Claims on the `Working Time` line and on `write_frame` -/

/-- The `Working Time: ` line carrying the 32-bit number `w`, for a mirror whose fan speed
indexes the table. -/
theorem parse_fan_time_line (k : LtConsts) (t : TData) (w prod : Nat) (rest : List Char)
    (hAK : 0 < k.AK) (hw : w < 4294967296) (hprod : (PROD k)[t.fan_speed]? = some prod)
    (hrest : endsNumber rest) (hnul : noNul rest) :
    parse_line k 0 t (ST_FAN_TIME ++ (decimal w ++ rest))
      = some ({ t with
          airflow_counter := (t.airflow_counter +
            toU32 ((w : Int) - t.fan_time) * prod % 4294967296 / k.AK) % 4294967296,
          fan_time := w }, none) := by
  have hAK0 : ¬ k.AK = 0 := by omega
  rw [parse_line_fan_time, cstr_self _ (noNul_append _ _ (noNul_decimal w) hnul)]
  simp only [parseFanTime, strtoul_decimal w rest hrest, min_u32 w hw, hprod, hAK0, if_false,
    Option.map_some']

/-- C21: for a line `Working Time: <w>` (`w` a 32-bit number) dispatched with the busy
counter zero, a table of seven flow rates and a mirror (of 32-bit counters) with fan speed
`s` in 0..6, the airflow counter becomes `(old + dif * PROD[s] mod 2^32 / AK) mod 2^32`
where `dif = (w + 2^32 - old fan_time) mod 2^32` is the difference in 32-bit unsigned
arithmetic: `w - old fan_time` when `w` is not below the old fan time, and
`w + 2^32 - old fan_time` when it is. The fan speed and fan time are those the mirror held
before the line; afterwards the fan time is `w`; no other field changes and no frame is
emitted. With `s = 0` or `w` equal to the old fan time the airflow counter is unchanged. -/
theorem C21_working_time_airflow (k : LtConsts) (hk : k.AUTO_PROD.length = 6)
    (hAK : 0 < k.AK) (t : TData) (w : Nat) (rest : List Char) (hw : w < 4294967296)
    (hs : t.fan_speed ≤ 6) (hft : t.fan_time < 4294967296)
    (hac : t.airflow_counter < 4294967296) (hrest : endsNumber rest) (hnul : noNul rest) :
    parse_line k 0 t (ST_FAN_TIME ++ (decimal w ++ rest))
      = some ({ t with
          airflow_counter := (t.airflow_counter +
            (w + 4294967296 - t.fan_time) % 4294967296 * (PROD k).getD t.fan_speed 0
              % 4294967296 / k.AK) % 4294967296,
          fan_time := w }, none) ∧
    (t.fan_time ≤ w →
      (w + 4294967296 - t.fan_time) % 4294967296 = w - t.fan_time) ∧
    (w < t.fan_time →
      (w + 4294967296 - t.fan_time) % 4294967296 = w + 4294967296 - t.fan_time) ∧
    (t.fan_speed = 0 ∨ w = t.fan_time →
      parse_line k 0 t (ST_FAN_TIME ++ (decimal w ++ rest))
        = some ({ t with fan_time := w }, none)) := by
  have hlen : t.fan_speed < (PROD k).length := by simp [PROD, hk]; omega
  have hprod : (PROD k)[t.fan_speed]? = some ((PROD k).getD t.fan_speed 0) := by
    rw [List.getD_eq_getElem?_getD, List.getElem?_eq_getElem hlen]; rfl
  have hp := parse_fan_time_line k t w _ rest hAK hw hprod hrest hnul
  rw [toU32_sub w t.fan_time hw hft] at hp
  refine ⟨hp, fun h => by omega, fun h => by omega, ?_⟩
  intro h
  rw [hp]
  have hz : (w + 4294967296 - t.fan_time) % 4294967296 * (PROD k).getD t.fan_speed 0
      % 4294967296 / k.AK = 0 := by
    rcases h with h | h
    · rw [h]; simp [PROD]
    · rw [h]
      have : (t.fan_time + 4294967296 - t.fan_time) % 4294967296 = 0 := by omega
      rw [this]; simp
  rw [hz, Nat.add_zero, Nat.mod_eq_of_lt hac]

/-- C21 at a sample where the fan time has wrapped: fan speed 3 (flow rate 60), old fan time
2^32 - 6, the line `Working Time: 10`: the difference is 16 and the airflow counter
advances by 16 * 60 / 10 = 96. -/
theorem C21_working_time_witness :
    parse_line sampleConsts 0 sampleMirrorLateFanTime (ST_FAN_TIME ++ (decimal 10 ++ []))
      = some ({ sampleMirrorLateFanTime with fan_time := 10, airflow_counter := 96 },
          none) :=
  (C21_working_time_airflow sampleConsts rfl (by decide) sampleMirrorLateFanTime 10 []
    (by decide) (by decide) (by decide) (by decide) endsNumber_nil
    (by unfold noNul; decide)).1

/-- C22, as stated, fails: a set request with `error_reset` and `filter_reset` both set
(filter time 0) is not rejected: `write_frame` writes `ftreset` and returns what the writer
answers, here true. -/
theorem C22_counterexample_error_reset_with_filter_reset :
    sampleSetErrorAndFilterReset.error_reset = true ∧
    (write_frame (some (fun _ => true)) Proto.init
        (Request.StateSetRequest sampleSetErrorAndFilterReset)).written
      = ["ftreset".toList ++ CRLF] ∧
    (write_frame (some (fun _ => true)) Proto.init
        (Request.StateSetRequest sampleSetErrorAndFilterReset)).ret = true := by
  decide

/-- C22 (amended): for every set request in which `error_reset` is set and neither
`filter_reset` nor `factory_reset` is, `write_frame` writes nothing, returns false and
leaves the protocol object as it was, with or without a writer. When `filter_reset` is set
as well it is served first: a configured writer is given the filter command alone,
`set_filtertime N` with `N = filter_time * 86400 mod 2^32` for a filter time other than 0
and `ftreset` for the filter time 0. When `factory_reset` is set and `filter_reset` is not,
the writer is given `factoryreset` alone. In these cases the value returned is the answer
of the writer. -/
theorem C22_error_reset_rejected (writer : Option (List Char → Bool)) (p : Proto)
    (set : StateSet) (he : set.error_reset = true) :
    (set.filter_reset = false → set.factory_reset = false →
      write_frame writer p (Request.StateSetRequest set)
        = { ret := false, written := [], proto := p }) ∧
    (∀ w : List Char → Bool, set.filter_reset = true → set.filter_time ≠ 0 →
      write_frame (some w) p (Request.StateSetRequest set)
        = { ret := w ("set_filtertime ".toList
                ++ decimal (set.filter_time * 86400 % 4294967296) ++ CRLF),
            written := ["set_filtertime ".toList
                ++ decimal (set.filter_time * 86400 % 4294967296) ++ CRLF],
            proto := p }) ∧
    (∀ w : List Char → Bool, set.filter_reset = true → set.filter_time = 0 →
      write_frame (some w) p (Request.StateSetRequest set)
        = { ret := w ("ftreset".toList ++ CRLF), written := ["ftreset".toList ++ CRLF],
            proto := p }) ∧
    (∀ w : List Char → Bool, set.filter_reset = false → set.factory_reset = true →
      write_frame (some w) p (Request.StateSetRequest set)
        = { ret := w ("factoryreset".toList ++ CRLF),
            written := ["factoryreset".toList ++ CRLF], proto := p }) := by
  refine ⟨?_, ?_, ?_, ?_⟩
  · intro h1 h2
    cases writer with
    | none => rfl
    | some w => simp [write_frame, h1, h2, he]
  · intro w h1 h0
    simp only [write_frame, h1, if_true, h0, ne_eq, not_false_eq_true, CMD_SET_FILTER_TIME]
  · intro w h1 h0
    simp only [write_frame, h1, if_true, h0, ne_eq, not_true_eq_false, if_false,
      CMD_FILTER_RESET]
  · intro w h1 h2
    simp [write_frame, h1, h2, CMD_FACTORY_RESET]

/-- C22 (amended) at a sample: `error_reset` alone. -/
theorem C22_error_reset_witness :
    write_frame (some (fun _ => true)) Proto.init (Request.StateSetRequest sampleSetErrorReset)
      = { ret := false, written := [], proto := Proto.init } :=
  (C22_error_reset_rejected (some (fun _ => true)) Proto.init sampleSetErrorReset rfl).1
    rfl rfl

/-- C23, as stated, fails: for a filter time of 49711 days the product 49711 * 86400 =
4295030400 does not fit the 32-bit parameter, and the command written is
`set_filtertime 63104`. -/
theorem C23_counterexample_49711_days_wrap :
    sampleSetFilter49711.filter_time * 86400 = 4295030400 ∧
    (write_frame (some (fun _ => true)) Proto.init
        (Request.StateSetRequest sampleSetFilter49711)).written
      = ["set_filtertime 63104".toList ++ CRLF] := by
  decide

/-- C23 (amended): for every set request with `filter_reset` set, `write_frame` with a
writer writes exactly one command and leaves the protocol object as it was: for a filter
time of `d` days, `0 < d ≤ 49710`, the command `set_filtertime N` with `N = d * 86400`; for
the filter time 0 the command `ftreset`. The value returned is the answer of the writer. -/
theorem C23_filter_reset_command (w : List Char → Bool) (p : Proto) (set : StateSet)
    (hf : set.filter_reset = true) :
    (set.filter_time ≠ 0 → set.filter_time ≤ 49710 →
      write_frame (some w) p (Request.StateSetRequest set)
        = { ret := w ("set_filtertime ".toList ++ decimal (set.filter_time * 86400) ++ CRLF),
            written := ["set_filtertime ".toList ++ decimal (set.filter_time * 86400) ++ CRLF],
            proto := p }) ∧
    (set.filter_time = 0 →
      write_frame (some w) p (Request.StateSetRequest set)
        = { ret := w ("ftreset".toList ++ CRLF), written := ["ftreset".toList ++ CRLF],
            proto := p }) := by
  constructor
  · intro h0 hle
    have hm : set.filter_time * 86400 % 4294967296 = set.filter_time * 86400 :=
      Nat.mod_eq_of_lt (by omega)
    simp only [write_frame, hf, if_true, h0, ne_eq, not_false_eq_true, hm,
      CMD_SET_FILTER_TIME]
  · intro h0
    simp only [write_frame, hf, if_true, h0, ne_eq, not_true_eq_false, if_false,
      CMD_FILTER_RESET]

/-- C23 (amended) at a sample: a filter time of 180 days gives `set_filtertime 15552000`. -/
theorem C23_filter_reset_witness :
    (write_frame (some (fun _ => true)) Proto.init
        (Request.StateSetRequest sampleSetFilter180)).written
      = ["set_filtertime 15552000".toList ++ CRLF] := by
  have h := (C23_filter_reset_command (fun _ => true) Proto.init sampleSetFilter180 rfl).1
    (by decide) (by decide)
  rw [h]
  decide

/-- C24: `write_frame` returns false exactly when no writer is configured, or the frame is
of no known kind, or the set request reaches the `error_reset` test with the flag set
(neither `filter_reset` nor `factory_reset` set), or the frame is a device-info request, a
state request, a filter reset or a factory reset and the writer refused its single command.
Without a writer nothing is written, for every frame; for an unknown kind nothing is
written; a set request without reset flags returns true whatever the writer answers. -/
theorem C24_write_frame_returns_false_iff (writer : Option (List Char → Bool)) (p : Proto)
    (req : Request) :
    ((write_frame writer p req).ret = false ↔
      (writer = none ∨
       (∃ type, req = Request.Other type) ∨
       (∃ set, req = Request.StateSetRequest set ∧ set.filter_reset = false ∧
          set.factory_reset = false ∧ set.error_reset = true) ∨
       (∃ w cmd, writer = some w ∧
          (req = Request.DeviceInfoRequest ∨ req = Request.StateGetRequest ∨
            ∃ set, req = Request.StateSetRequest set ∧
              (set.filter_reset = true ∨ set.factory_reset = true)) ∧
          (write_frame writer p req).written = [cmd] ∧ w cmd = false))) ∧
    (write_frame none p req).written = [] ∧
    (write_frame none p req).ret = false ∧
    (∀ type, (write_frame writer p (Request.Other type)).written = []) ∧
    (∀ (w : List Char → Bool) (set : StateSet), set.filter_reset = false →
      set.factory_reset = false → set.error_reset = false →
      (write_frame (some w) p (Request.StateSetRequest set)).ret = true) := by
  refine ⟨?_, rfl, rfl, ?_, ?_⟩
  · cases writer with
    | none => simp [write_frame]
    | some w =>
      cases req with
      | DeviceInfoRequest => simp [write_frame]
      | StateGetRequest => simp [write_frame]
      | Other type => simp [write_frame]
      | StateSetRequest set =>
        by_cases h1 : set.filter_reset = true
        · by_cases h0 : set.filter_time = 0
          · simp [write_frame, h1, h0]
          · simp [write_frame, h1, h0]
        · by_cases h2 : set.factory_reset = true
          · simp [write_frame, h1, h2]
          · by_cases h3 : set.error_reset = true
            · simp [write_frame, h1, h2, h3]
            · simp [write_frame, h1, h2, h3]
  · intro type
    cases writer <;> rfl
  · intro w set h1 h2 h3
    simp [write_frame, h1, h2, h3]

/-- C24 at a sample: a writer that refuses every command; the set request without reset
flags returns true all the same. -/
theorem C24_write_frame_witness :
    (write_frame (some (fun _ => false)) Proto.init (Request.StateSetRequest sampleSet)).ret
      = true :=
  (C24_write_frame_returns_false_iff (some (fun _ => false)) Proto.init
    (Request.StateSetRequest sampleSet)).2.2.2.2 (fun _ => false) sampleSet rfl rfl rfl

/-- C25: every line that begins with `Error register:`, dispatched with the busy counter
zero, emits one state response and leaves the mirror as it was; in the response the gate
state is OPENED if and only if the mirror has power on and CLOSED otherwise, the heater is
present, the maximum fan speed is 6, and the filter flag is set if and only if the filter
time of the mirror in whole days, `filter_time_left_d`, is at most 30. -/
theorem C25_state_response_derived_fields (k : LtConsts) (t : TData) (r : List Char) :
    ∃ st : LtState,
      parse_line k 0 t (ST_ERROR ++ r) = some (t, some (Frame.StateResponse st)) ∧
      (st.gate_state = GateState.OPENED ↔ t.power_state = true) ∧
      (st.gate_state = GateState.CLOSED ↔ t.power_state = false) ∧
      st.heater_present = true ∧
      st.max_fan_speed = 6 ∧
      (st.filter_state = true ↔ filter_time_left_d t.filter_time ≤ 30) ∧
      st.filter_time = t.filter_time := by
  refine ⟨_, parse_line_error k t r, ?_, ?_, rfl, rfl, ?_, rfl⟩
  · cases h : t.power_state <;> simp [h]
  · cases h : t.power_state <;> simp [h]
  · simp

/-! ### Lemmas on sequences of protocol operations -/

/-- The method `write_frame` gives back the protocol object it was given: the mirror is not
written and `busy_` is raised and lowered once. -/
theorem write_frame_proto (writer : Option (List Char → Bool)) (p : Proto) (req : Request)
    (hb : p.busy_ < 4294967296) : (write_frame writer p req).proto = p := by
  cases writer with
  | none => rfl
  | some w =>
    cases req with
    | DeviceInfoRequest => rfl
    | StateGetRequest => rfl
    | Other type => rfl
    | StateSetRequest set =>
      have hbusy : ((p.busy_ + 1) % 4294967296 + 4294967295) % 4294967296 = p.busy_ := by
        omega
      unfold write_frame
      dsimp only
      split
      · split <;> rfl
      · split
        · rfl
        · split
          · rfl
          · simp only [hbusy]

theorem parseSens_flags (t : TData) (str : List Char) :
    (parseSens t str).sound_state = t.sound_state ∧
    (parseSens t str).led_state = t.led_state := by
  unfold parseSens
  dsimp only
  split
  · exact ⟨rfl, rfl⟩
  · split <;> exact ⟨rfl, rfl⟩

theorem parseFanTime_flags (k : LtConsts) (t t1 : TData) (str : List Char)
    (h : parseFanTime k t str = some t1) :
    t1.sound_state = t.sound_state ∧ t1.led_state = t.led_state := by
  unfold parseFanTime at h
  dsimp only at h
  split at h
  · simp at h
  · split at h
    · simp at h
    · simp only [Option.some.injEq] at h
      subst h
      exact ⟨rfl, rfl⟩

/-- No branch of the dispatch writes the sound and led flags of the mirror. -/
theorem parse_line_flags (k : LtConsts) (busy : Nat) (t t1 : TData) (buf : List Char)
    (f : Option Frame) (h : parse_line k busy t buf = some (t1, f)) :
    t1.sound_state = t.sound_state ∧ t1.led_state = t.led_state := by
  unfold parse_line at h
  dsimp only at h
  split at h
  · simp only [Option.some.injEq, Prod.mk.injEq] at h
    rw [← h.1]; exact ⟨rfl, rfl⟩
  · split at h
    · simp only [Option.some.injEq, Prod.mk.injEq] at h
      rw [← h.1]; exact ⟨rfl, rfl⟩
    · split at h
      · simp only [Option.some.injEq, Prod.mk.injEq] at h
        rw [← h.1]; exact ⟨rfl, rfl⟩
      · split at h
        · simp only [Option.some.injEq, Prod.mk.injEq] at h
          rw [← h.1]; exact parseSens_flags t _
        · split at h
          · simp only [Option.some.injEq, Prod.mk.injEq] at h
            rw [← h.1]; exact ⟨rfl, rfl⟩
          · split at h
            · simp only [Option.some.injEq, Prod.mk.injEq] at h
              rw [← h.1]; exact ⟨rfl, rfl⟩
            · split at h
              · rename_i s _
                cases hp : parseFanTime k t s with
                | none => simp [hp] at h
                | some t2 =>
                  simp only [hp, Option.map_some', Option.some.injEq, Prod.mk.injEq] at h
                  rw [← h.1]; exact parseFanTime_flags k t t2 s hp
              · split at h
                · simp only [Option.some.injEq, Prod.mk.injEq] at h
                  rw [← h.1]; exact ⟨rfl, rfl⟩
                · split at h
                  · simp only [Option.some.injEq, Prod.mk.injEq] at h
                    rw [← h.1]; exact ⟨rfl, rfl⟩
                  · split at h
                    · simp only [Option.some.injEq, Prod.mk.injEq] at h
                      rw [← h.1]; exact ⟨rfl, rfl⟩
                    · split at h
                      · simp only [Option.some.injEq, Prod.mk.injEq] at h
                        rw [← h.1]; exact ⟨rfl, rfl⟩
                      · split at h
                        · simp only [Option.some.injEq, Prod.mk.injEq] at h
                          rw [← h.1]; exact ⟨rfl, rfl⟩
                        · simp only [Option.some.injEq, Prod.mk.injEq] at h
                          rw [← h.1]; exact ⟨rfl, rfl⟩

/-- One activation of `read_frame_` keeps `busy_` and the sound and led flags of the
mirror. -/
theorem read_frame_keeps (k : LtConsts) (p : Proto) (buf_ io : List Char) (out : ReadOut)
    (h : read_frame_ k p buf_ io = some out) :
    out.proto.busy_ = p.busy_ ∧ out.proto.t_data.sound_state = p.t_data.sound_state ∧
    out.proto.t_data.led_state = p.t_data.led_state := by
  unfold read_frame_ at h
  dsimp only at h
  generalize scan_loop io 0 buf_ [] = s at h
  cases hstop : s.stop with
  | failed =>
    simp only [hstop, Option.some.injEq] at h
    subst h
    exact ⟨rfl, rfl, rfl⟩
  | full =>
    simp only [hstop, Option.some.injEq] at h
    subst h
    exact ⟨rfl, rfl, rfl⟩
  | newline n =>
    simp only [hstop] at h
    by_cases h0 : s.buf[0]? = some NUL
    · simp only [h0, if_true, Option.some.injEq] at h
      subst h
      exact ⟨rfl, rfl, rfl⟩
    · simp only [h0, if_false] at h
      cases hp : parse_line k p.busy_ p.t_data s.buf with
      | none => simp [hp] at h
      | some r =>
        simp only [hp, Option.some.injEq] at h
        subst h
        obtain ⟨t1, f⟩ := r
        have := parse_line_flags k p.busy_ p.t_data t1 s.buf f hp
        exact ⟨rfl, this.1, this.2⟩

/-- One operation keeps a 32-bit `busy_` and the sound and led flags of the mirror. -/
theorem proto_step_keeps (k : LtConsts) (s s1 : ProtoState) (op : ProtoOp)
    (hb : s.proto.busy_ < 4294967296) (h : proto_step k s op = some s1) :
    s1.proto.busy_ = s.proto.busy_ ∧
    s1.proto.t_data.sound_state = s.proto.t_data.sound_state ∧
    s1.proto.t_data.led_state = s.proto.t_data.led_state := by
  cases op with
  | write writer req =>
    simp only [proto_step, Option.some.injEq] at h
    subst h
    dsimp only
    rw [write_frame_proto writer s.proto req hb]
    exact ⟨rfl, rfl, rfl⟩
  | read io =>
    simp only [proto_step] at h
    cases hr : read_frame_ k s.proto s.buf_ io with
    | none => simp [hr] at h
    | some out =>
      simp only [hr, Option.map_some', Option.some.injEq] at h
      subst h
      exact read_frame_keeps k s.proto s.buf_ io out hr

/-- A sequence of operations keeps a 32-bit `busy_` and the sound and led flags of the
mirror. -/
theorem proto_run_keeps (k : LtConsts) (ops : List ProtoOp) : ∀ (s s1 : ProtoState),
    s.proto.busy_ < 4294967296 → proto_run k s ops = some s1 →
    s1.proto.busy_ = s.proto.busy_ ∧
    s1.proto.t_data.sound_state = s.proto.t_data.sound_state ∧
    s1.proto.t_data.led_state = s.proto.t_data.led_state := by
  induction ops with
  | nil =>
    intro s s1 _ h
    simp only [proto_run, Option.some.injEq] at h
    subst h
    exact ⟨rfl, rfl, rfl⟩
  | cons op ops ih =>
    intro s s1 hb h
    simp only [proto_run] at h
    cases hs : proto_step k s op with
    | none => simp [hs] at h
    | some s2 =>
      simp only [hs] at h
      obtain ⟨e1, e2, e3⟩ := proto_step_keeps k s s2 op hb hs
      obtain ⟨f1, f2, f3⟩ := ih s2 s1 (by rw [e1]; exact hb) h
      exact ⟨by rw [f1, e1], by rw [f2, e2], by rw [f3, e3]⟩

/-- C26: `write_frame`, for every writer, frame and payload, gives back the protocol object
it was given: every field of the mirror and the value of the (32-bit) busy counter. Hence
after any sequence of `write_frame` calls and `read_frame_` activations from the
value-initialised protocol object the busy counter is 0: the test `busy_ > 0` of the
dispatch fails, and the next activation dispatches its line as with a zero counter. -/
theorem C26_busy_counter_is_zero_between_operations (k : LtConsts) (buf0 : List Char)
    (ops : List ProtoOp) (s : ProtoState)
    (h : proto_run k { proto := Proto.init, buf_ := buf0 } ops = some s) :
    (∀ (writer : Option (List Char → Bool)) (p : Proto) (req : Request),
      p.busy_ < 4294967296 → (write_frame writer p req).proto = p) ∧
    s.proto.busy_ = 0 ∧ ¬ (s.proto.busy_ > 0) ∧
    (∀ (writer : Option (List Char → Bool)) (req : Request),
      (write_frame writer s.proto req).proto.busy_ = 0) ∧
    (∀ io : List Char,
      read_frame_ k s.proto s.buf_ io = read_frame_ k { s.proto with busy_ := 0 } s.buf_ io) := by
  have hb : s.proto.busy_ = 0 :=
    (proto_run_keeps k ops { proto := Proto.init, buf_ := buf0 } s
      (show (0 : Nat) < 4294967296 by decide) h).1
  refine ⟨write_frame_proto, hb, by omega, ?_, ?_⟩
  · intro writer req
    rw [write_frame_proto writer s.proto req (by omega)]
    exact hb
  · intro io
    have : s.proto = { s.proto with busy_ := 0 } := by
      rw [← hb]
    rw [← this]

/-- C26 at the sample operations: they run to the end, and the busy counter is 0 then. -/
theorem C26_busy_counter_witness :
    proto_run sampleConsts { proto := Proto.init, buf_ := reset_buf_ } sampleOps
      = some sampleOpsFinal ∧
    sampleOpsFinal.proto.busy_ = 0 :=
  ⟨by decide,
   (C26_busy_counter_is_zero_between_operations sampleConsts reset_buf_ sampleOps
      sampleOpsFinal (by decide)).2.1⟩



/-- A command that is a sound or led command is none of the other commands of a set
request. -/
theorem flag_cmd_ne (c : List Char)
    (hc : c = CMD_SET_SOUND_STATE_ON ∨ c = CMD_SET_SOUND_STATE_OFF ∨
      c = CMD_SET_LED_STATE_ON ∨ c = CMD_SET_LED_STATE_OFF) :
    (∀ x, c ≠ CMD_SET_SPEED x) ∧ (∀ x, c ≠ CMD_SET_TEMP x) ∧ c ≠ CMD_SET_HEATER_ON ∧
    c ≠ CMD_SET_HEATER_OFF ∧ c ≠ CMD_POWER_ON ∧ c ≠ CMD_POWER_OFF ∧ c ≠ CMD_GET_STATE := by
  rcases hc with h | h | h | h <;> subst h <;>
    refine ⟨fun x => ?_, fun x => ?_, ?_, ?_, ?_, ?_, ?_⟩ <;>
    simp [CMD_SET_SOUND_STATE_ON, CMD_SET_SOUND_STATE_OFF, CMD_SET_LED_STATE_ON,
      CMD_SET_LED_STATE_OFF, CMD_SET_SPEED, CMD_SET_TEMP, CMD_SET_HEATER_ON,
      CMD_SET_HEATER_OFF, CMD_POWER_ON, CMD_POWER_OFF, CMD_GET_STATE]

/-- A sound or led command is among the commands of a set request only in its own place. -/
theorem mem_diff_cmds_flag (t : TData) (set : StateSet) (c : List Char)
    (hc : c = CMD_SET_SOUND_STATE_ON ∨ c = CMD_SET_SOUND_STATE_OFF ∨
      c = CMD_SET_LED_STATE_ON ∨ c = CMD_SET_LED_STATE_OFF) :
    c ∈ diff_cmds t set ++ [CMD_GET_STATE] ↔
      (t.sound_state ≠ set.sound_state ∧
        c = (if set.sound_state then CMD_SET_SOUND_STATE_ON else CMD_SET_SOUND_STATE_OFF)) ∨
      (t.led_state ≠ set.led_state ∧
        c = (if set.led_state then CMD_SET_LED_STATE_ON else CMD_SET_LED_STATE_OFF)) := by
  obtain ⟨n1, n2, n3, n4, n5, n6, n7⟩ := flag_cmd_ne c hc
  have m1 : c ∉ (if t.fan_speed ≠ set.fan_speed then [CMD_SET_SPEED (toI8 set.fan_speed)]
      else []) := by
    split <;> simp [n1]
  have m2 : c ∉ (if t.target_temperature ≠ set.target_temperature
      then [CMD_SET_TEMP set.target_temperature] else []) := by
    split <;> simp [n2]
  have m3 : c ∉ (if t.heater_state ≠ set.heater_state
      then [if set.heater_state then CMD_SET_HEATER_ON else CMD_SET_HEATER_OFF] else []) := by
    split
    · cases set.heater_state <;> simp [n3, n4]
    · simp
  have m6 : c ∉ (if t.power_state ≠ set.power_state
      then [if set.power_state then CMD_POWER_ON else CMD_POWER_OFF] else []) := by
    split
    · cases set.power_state <;> simp [n5, n6]
    · simp
  have m4 : c ∈ (if t.sound_state ≠ set.sound_state
      then [if set.sound_state then CMD_SET_SOUND_STATE_ON else CMD_SET_SOUND_STATE_OFF]
      else []) ↔ (t.sound_state ≠ set.sound_state ∧
        c = (if set.sound_state then CMD_SET_SOUND_STATE_ON else CMD_SET_SOUND_STATE_OFF)) := by
    split
    · rename_i h; simp [h]
    · rename_i h; simp [h]
  have m5 : c ∈ (if t.led_state ≠ set.led_state
      then [if set.led_state then CMD_SET_LED_STATE_ON else CMD_SET_LED_STATE_OFF]
      else []) ↔ (t.led_state ≠ set.led_state ∧
        c = (if set.led_state then CMD_SET_LED_STATE_ON else CMD_SET_LED_STATE_OFF)) := by
    split
    · rename_i h; simp [h]
    · rename_i h; simp [h]
  unfold diff_cmds
  simp only [List.mem_append, m1, m2, m3, m4, m5, m6, List.mem_singleton, n7, false_or,
    or_false]

/-- The set request without reset flags: what `write_frame` writes with a writer. -/
theorem write_frame_set_written (w : List Char → Bool) (p : Proto) (set : StateSet)
    (h1 : set.filter_reset = false) (h2 : set.factory_reset = false)
    (h3 : set.error_reset = false) :
    (write_frame (some w) p (Request.StateSetRequest set)).written
      = diff_cmds p.t_data set ++ [CMD_GET_STATE] := by
  simp [write_frame, h1, h2, h3]

/-- C27: after any sequence of `write_frame` calls and `read_frame_` activations from the
value-initialised protocol object the sound and led flags of the mirror are false, as they
were at the start. Consequently a set request without reset flags, written with a writer,
contains `set_sound_state 1` if and only if the request has the sound flag set and never
contains `set_sound_state 0`, and likewise `set_led_state 1` and `set_led_state 0` for
the led flag; the flags are still false afterwards. -/
theorem C27_sound_and_led_flags_stay_false (k : LtConsts) (buf0 : List Char)
    (ops : List ProtoOp) (s : ProtoState)
    (h : proto_run k { proto := Proto.init, buf_ := buf0 } ops = some s)
    (w : List Char → Bool) (set : StateSet) (h1 : set.filter_reset = false)
    (h2 : set.factory_reset = false) (h3 : set.error_reset = false) :
    s.proto.t_data.sound_state = false ∧ s.proto.t_data.led_state = false ∧
    ("set_sound_state 1".toList ++ CRLF
        ∈ (write_frame (some w) s.proto (Request.StateSetRequest set)).written
      ↔ set.sound_state = true) ∧
    "set_sound_state 0".toList ++ CRLF
      ∉ (write_frame (some w) s.proto (Request.StateSetRequest set)).written ∧
    ("set_led_state 1".toList ++ CRLF
        ∈ (write_frame (some w) s.proto (Request.StateSetRequest set)).written
      ↔ set.led_state = true) ∧
    "set_led_state 0".toList ++ CRLF
      ∉ (write_frame (some w) s.proto (Request.StateSetRequest set)).written ∧
    (write_frame (some w) s.proto (Request.StateSetRequest set)).proto.t_data.sound_state
      = false ∧
    (write_frame (some w) s.proto (Request.StateSetRequest set)).proto.t_data.led_state
      = false := by
  obtain ⟨hb, hs, hl⟩ := proto_run_keeps k ops { proto := Proto.init, buf_ := buf0 } s
    (show (0 : Nat) < 4294967296 by decide) h
  have hs0 : s.proto.t_data.sound_state = false := hs
  have hl0 : s.proto.t_data.led_state = false := hl
  have hbusy : s.proto.busy_ < 4294967296 := by
    have : s.proto.busy_ = 0 := hb
    omega
  have e1 : "set_sound_state 1".toList ++ CRLF = CMD_SET_SOUND_STATE_ON := rfl
  have e2 : "set_sound_state 0".toList ++ CRLF = CMD_SET_SOUND_STATE_OFF := rfl
  have e3 : "set_led_state 1".toList ++ CRLF = CMD_SET_LED_STATE_ON := rfl
  have e4 : "set_led_state 0".toList ++ CRLF = CMD_SET_LED_STATE_OFF := rfl
  have d1 : CMD_SET_SOUND_STATE_ON ≠ CMD_SET_SOUND_STATE_OFF := by decide
  have d2 : CMD_SET_SOUND_STATE_ON ≠ CMD_SET_LED_STATE_ON := by decide
  have d3 : CMD_SET_SOUND_STATE_ON ≠ CMD_SET_LED_STATE_OFF := by decide
  have d4 : CMD_SET_SOUND_STATE_OFF ≠ CMD_SET_LED_STATE_ON := by decide
  have d5 : CMD_SET_SOUND_STATE_OFF ≠ CMD_SET_LED_STATE_OFF := by decide
  have d6 : CMD_SET_LED_STATE_ON ≠ CMD_SET_LED_STATE_OFF := by decide
  rw [e1, e2, e3, e4, write_frame_set_written w s.proto set h1 h2 h3,
    write_frame_proto (some w) s.proto _ hbusy,
    mem_diff_cmds_flag _ _ _ (Or.inl rfl), mem_diff_cmds_flag _ _ _ (Or.inr (Or.inl rfl)),
    mem_diff_cmds_flag _ _ _ (Or.inr (Or.inr (Or.inl rfl))),
    mem_diff_cmds_flag _ _ _ (Or.inr (Or.inr (Or.inr rfl))), hs0, hl0]
  refine ⟨rfl, rfl, ?_, ?_, ?_, ?_, rfl, rfl⟩
  · cases set.sound_state <;> cases set.led_state <;> simp [d1, d2, d3]
  · cases set.sound_state <;> cases set.led_state <;> simp [d1.symm, d4, d5]
  · cases set.sound_state <;> cases set.led_state <;> simp [d2.symm, d4.symm, d6]
  · cases set.sound_state <;> cases set.led_state <;> simp [d3.symm, d5.symm, d6.symm]

/-- C27 at the sample operations: the flags are false after them, and a request for sound
on is written with `set_sound_state 1`. -/
theorem C27_sound_and_led_flags_witness :
    sampleOpsFinal.proto.t_data.sound_state = false ∧
    sampleOpsFinal.proto.t_data.led_state = false ∧
    "set_sound_state 1".toList ++ CRLF
      ∈ (write_frame (some (fun _ => true)) sampleOpsFinal.proto
          (Request.StateSetRequest sampleSetSound)).written :=
  have h := C27_sound_and_led_flags_stay_false sampleConsts reset_buf_ sampleOps
    sampleOpsFinal (by decide) (fun _ => true) sampleSetSound rfl rfl rfl
  ⟨h.1, h.2.1, h.2.2.1.mpr rfl⟩

/-! ### The flow-rate table and the preset registry at their failing inputs -/

/-- C28, the code at the failing input: with a table of seven flow rates, the line
`Speed: 7` stores fan speed 7 in the mirror, and the line `Working Time: 1` then reads
`PROD[7]`, past the end of the table: the dispatch has no defined result. The same happens
with `Speed: -1`, which stores 255. -/
theorem C28_speed_7_reads_past_the_table :
    (PROD sampleConsts).length = 7 ∧
    parse_line sampleConsts 0 TData.init "Speed: 7".toList
      = some ({ TData.init with fan_speed := 7 }, none) ∧
    (PROD sampleConsts)[7]? = none ∧
    parse_line sampleConsts 0 { TData.init with fan_speed := 7 } "Working Time: 1".toList
      = none ∧
    parse_lines sampleConsts 0 TData.init ["Speed: 7".toList, "Working Time: 1".toList]
      = none ∧
    parse_line sampleConsts 0 TData.init "Speed: -1".toList
      = some ({ TData.init with fan_speed := 255 }, none) := by
  decide

/-- C29, the code at the failing input: `enable_preset` with the empty name stores the empty
name as the marker, which is neither `PRESET_NONE` nor a registered name; the next
`notify_state_` indexes the registry with it, which adds an entry under the empty name that
no `add_preset` call has stored. -/
theorem C29_empty_name_marker_adds_entry :
    sampleApi.presets_ = [] ∧
    (enable_preset sampleDecls sampleApi "" none).1.active_preset_ = "" ∧
    (enable_preset sampleDecls sampleApi "" none).1.active_preset_ ≠ PRESET_NONE ∧
    presets_find (enable_preset sampleDecls sampleApi "" none).1.presets_ "" = none ∧
    add_preset sampleDecls sampleApi "" samplePresetFan2 = sampleApi ∧
    (notify_state_ sampleDecls (enable_preset sampleDecls sampleApi "" none).1 1).1.presets_
      = [("", sampleDecls.preset_default)] := by
  decide

end TionLt
